import Mathlib

/-!
# Eluna bindings: event registration, clearing and timed events

A shallow embedding of the event-facing part of `src/LuaEngine/methods/GlobalMethods.h`
(namespace `LuaGlobalFunctions`).  Every binding is a Lua C function: it reads its
arguments from the Lua stack, may raise a Lua error, mutates the engine and reports
how many values it leaves on the stack for the caller.  The embedding keeps that
shape: a binding is a state transformer over `lua_State` that either finishes with
its result count or raises, and in both cases hands back the state it reached.

Beside the event bindings the file embeds the bit operations, `SendMail`, `Ban` and
`GetMapEntrance` of the same header, the power, threat and cast bindings of
`UnitMethods.h` and `RemoveLifetimeKills` of `PlayerMethods.h`.  A method binding takes the object it is called on as an argument and,
where it changes that object, returns the changed object with its result count.

Lua numbers are modelled as integers; fractional numbers and strings that Lua would
coerce to numbers are outside the model.
-/

set_option autoImplicit false

namespace ModEluna

/-! ## Lua values -/

/-- Lua values, with the payload of a table left as a parameter. -/
inductive LuaVal (T : Type) where
  | nil
  | boolean (b : Bool)
  | number (n : Int)
  | string (s : String)
  | function (f : Nat)
  | userdata (u : Nat)
  | table (t : T)
  deriving DecidableEq, Repr

/-- Value stored in a table field.  A table nested in a table keeps no contents: the
bindings only ever read numbers out of a table argument. -/
abbrev LuaField := LuaVal Unit

/-- Value on the Lua stack.  A table is its array part `t[1], t[2], ...`. -/
abbrev LuaValue := LuaVal (List LuaField)

/-- Value of a table field as a stack value. -/
def LuaField.toValue : LuaField → LuaValue
  | .nil => .nil
  | .boolean b => .boolean b
  | .number n => .number n
  | .string s => .string s
  | .function f => .function f
  | .userdata u => .userdata u
  | .table _ => .table []

/-- Lua type tags (`lua.h`). -/
inductive LuaType where
  | LUA_TNONE | LUA_TNIL | LUA_TBOOLEAN | LUA_TNUMBER | LUA_TSTRING
  | LUA_TTABLE | LUA_TFUNCTION | LUA_TUSERDATA
  deriving DecidableEq, Repr

/-- Name of a type tag as printed in error messages (`lua_typename`). -/
def lua_typename : LuaType → String
  | .LUA_TNONE => "no value"
  | .LUA_TNIL => "nil"
  | .LUA_TBOOLEAN => "boolean"
  | .LUA_TNUMBER => "number"
  | .LUA_TSTRING => "string"
  | .LUA_TTABLE => "table"
  | .LUA_TFUNCTION => "function"
  | .LUA_TUSERDATA => "userdata"

/-- Type tag of a stack slot; an index past the top is `LUA_TNONE`. -/
def typeOf : Option LuaValue → LuaType
  | none => .LUA_TNONE
  | some .nil => .LUA_TNIL
  | some (.boolean _) => .LUA_TBOOLEAN
  | some (.number _) => .LUA_TNUMBER
  | some (.string _) => .LUA_TSTRING
  | some (.table _) => .LUA_TTABLE
  | some (.function _) => .LUA_TFUNCTION
  | some (.userdata _) => .LUA_TUSERDATA

/-- Errors a binding can raise: `luaL_argerror(L, narg, extramsg)` and `luaL_error`. -/
inductive LuaError where
  | argerror (narg : Int) (extramsg : String)
  | error (msg : String)
  deriving DecidableEq, Repr

/-! ## The reference table of the Lua registry -/

/-- `LUA_REFNIL` of `lauxlib.h`. -/
def LUA_REFNIL : Int := -1

/-- `LUA_NOREF` of `lauxlib.h`. -/
def LUA_NOREF : Int := -2

/-- References held in `LUA_REGISTRYINDEX`: the live slots, the slots released by
`luaL_unref` and the number of slots ever handed out. -/
structure LuaRegistry where
  slots : List (Nat × LuaValue)
  freeList : List Nat
  size : Nat
  deriving DecidableEq, Repr

/-- `luaL_ref` on a value: `nil` gets `LUA_REFNIL` and takes no slot; any other value
takes a released slot when there is one and a fresh slot otherwise. -/
def LuaRegistry.ref (R : LuaRegistry) (v : LuaValue) : LuaRegistry × Int :=
  match v with
  | .nil => (R, LUA_REFNIL)
  | _ =>
    match R.freeList with
    | r :: rest => ({ slots := (r, v) :: R.slots, freeList := rest, size := R.size }, (r : Int))
    | [] => ({ slots := (R.size + 1, v) :: R.slots, freeList := [], size := R.size + 1 },
             ((R.size + 1 : Nat) : Int))

/-! ## Timed events -/

/-- Modelled from the spec: the lifecycle state of a scheduled entry, `Active` or
`Aborted` (section 3, Scheduled Entry).  The enum `LuaEventState` lives in
`ElunaEventMgr.h`, which is not among the sources. -/
inductive LuaEventState where
  | Active
  | Aborted
  deriving DecidableEq, Repr

/-- The state constant the bindings pass to `SetState`. -/
abbrev LUAEVENT_STATE_ABORT : LuaEventState := .Aborted

/-- Modelled from the spec: a Scheduled Entry of the Timed Event Processor (section 3):
the schedule id (the callback reference), the delay range, the remaining repeats
(0 = forever), the delay drawn for the pending fire, the next fire time and the
lifecycle state.  The class `LuaEvent` lives in `ElunaEventMgr.h`, which is not among
the sources. -/
structure LuaEvent where
  funcRef : Int
  minDelay : Nat
  maxDelay : Nat
  repeatsRemaining : Nat
  delay : Nat
  nextFireAt : Nat
  state : LuaEventState
  deriving DecidableEq, Repr

/-- Modelled from the spec: `uniformRandom(minDelay, maxDelay)` of section 3, made
deterministic by a seed (Scenario D: "deterministic given a seeded RNG").  The draw
lies in `[minDelay, maxDelay]` whenever `minDelay <= maxDelay`. -/
def uniformRandom (seed minDelay maxDelay : Nat) : Nat :=
  minDelay + seed % (maxDelay - minDelay + 1)

/-- Modelled from the spec: the successor of a seed after one draw. -/
def nextSeed (seed : Nat) : Nat :=
  (seed * 1103515245 + 12345) % 2147483648

/-- Modelled from the spec: one Timed Event Processor (section 2, component 5): its
clock, its random seed and its scheduled entries in scheduling order.  The class
`ElunaEventProcessor` lives in `ElunaEventMgr.h`, which is not among the sources. -/
structure ElunaEventProcessor where
  now : Nat
  seed : Nat
  eventList : List LuaEvent
  deriving DecidableEq, Repr

/-- Modelled from the spec: `schedule(callback, minDelay, maxDelay, repeats)` of
section 4.3, as called by the binding with the callback reference as schedule id:
one new Active entry with `nextFireAt = now + uniformRandom(minDelay, maxDelay)`.
`ElunaEventProcessor::AddEvent` is not among the sources. -/
def ElunaEventProcessor.AddEvent (P : ElunaEventProcessor) (funcRef : Int)
    (min max repeats : Nat) : ElunaEventProcessor :=
  let d := uniformRandom P.seed min max
  { now := P.now
    seed := nextSeed P.seed
    eventList := P.eventList ++
      [{ funcRef := funcRef, minDelay := min, maxDelay := max, repeatsRemaining := repeats,
         delay := d, nextFireAt := P.now + d, state := .Active }] }

/-- Modelled from the spec: `abortById(id)` of section 4.3 for `state = Aborted`: sets
the named entry's state.  `ElunaEventProcessor::SetState(int, LuaEventState)` is not
among the sources. -/
def ElunaEventProcessor.SetState (P : ElunaEventProcessor) (eventId : Int)
    (state : LuaEventState) : ElunaEventProcessor :=
  { P with eventList := P.eventList.map fun e =>
      if e.funcRef = eventId then { e with state := state } else e }

/-- Modelled from the spec: `abortAll()` of section 4.3 for `state = Aborted`: sets the
state of every entry of this processor.  `ElunaEventProcessor::SetStates` is not among
the sources. -/
def ElunaEventProcessor.SetStates (P : ElunaEventProcessor) (state : LuaEventState) :
    ElunaEventProcessor :=
  { P with eventList := P.eventList.map fun e => { e with state := state } }

/-- One callback invocation made by a sweep: `(ScheduleId, delayUsed,
repeatsRemainingBeforeThisFire)`. -/
structure Invocation where
  funcRef : Int
  delay : Nat
  repeats : Nat
  deriving DecidableEq, Repr

/-- Modelled from the spec: what `sweep(now)` of section 4.3 does with one entry, given
the seed: an Aborted entry is pruned without firing; an Active entry that is due fires,
and is discarded when its finite repeat count reaches 0 and rescheduled at
`now + uniformRandom(minDelay, maxDelay)` otherwise; an entry not yet due is left
untouched.  Returns the seed, the entry kept (if any) and the invocation made (if any). -/
def sweepEntry (now seed : Nat) (e : LuaEvent) : Nat × Option LuaEvent × Option Invocation :=
  match e.state with
  | .Aborted => (seed, none, none)
  | .Active =>
    if e.nextFireAt ≤ now then
      let inv : Invocation :=
        { funcRef := e.funcRef, delay := e.delay, repeats := e.repeatsRemaining }
      let finite : Bool := e.repeatsRemaining != 0
      let remaining : Nat := if finite then e.repeatsRemaining - 1 else e.repeatsRemaining
      if finite && remaining == 0 then
        (seed, none, some inv)
      else
        let d := uniformRandom seed e.minDelay e.maxDelay
        (nextSeed seed,
         some { e with repeatsRemaining := remaining, delay := d, nextFireAt := now + d },
         some inv)
    else
      (seed, some e, none)

/-- Modelled from the spec: the entries of a sweep, in scheduling order, threading the
seed: the entries kept and the invocations made. -/
def sweepEntries (now : Nat) : Nat → List LuaEvent → Nat × List LuaEvent × List Invocation
  | seed, [] => (seed, [], [])
  | seed, e :: es =>
    match sweepEntry now seed e with
    | (seed1, kept, inv) =>
      match sweepEntries now seed1 es with
      | (seed2, keptRest, invRest) => (seed2, kept.toList ++ keptRest, inv.toList ++ invRest)

/-- Modelled from the spec: `sweep(now)` of section 4.3: one pass over all scheduled
entries at time `now`; returns the processor after the pass and the callback
invocations it made, in order.  `ElunaEventProcessor::Update` is not among the sources. -/
def ElunaEventProcessor.sweep (P : ElunaEventProcessor) (now : Nat) :
    ElunaEventProcessor × List Invocation :=
  match sweepEntries now P.seed P.eventList with
  | (seed, kept, invs) => ({ now := now, seed := seed, eventList := kept }, invs)

/-- Modelled from the spec: successive sweeps, one per host tick, at the given times;
returns the processor after the last sweep and all invocations made, in order. -/
def ElunaEventProcessor.sweeps (P : ElunaEventProcessor) :
    List Nat → ElunaEventProcessor × List Invocation
  | [] => (P, [])
  | now :: later =>
    match (P.sweep now).1.sweeps later with
    | (Q, invs) => (Q, (P.sweep now).2 ++ invs)

/-- Modelled from the spec: the processors of one scripting context (section 2,
component 5): "a single global processor, and potentially one per long-lived scoped
context".  The class `EventMgr` lives in `ElunaEventMgr.h`, which is not among the
sources. -/
structure EventMgr where
  globalProcessor : ElunaEventProcessor
  processors : List ElunaEventProcessor
  deriving DecidableEq, Repr

/-- Modelled from the spec: the state change applied to an id in all processors, the
global one included ("remove from all events, not just global", doc comment of
`RemoveEventById`).  `EventMgr::SetState` is not among the sources. -/
def EventMgr.SetState (M : EventMgr) (eventId : Int) (state : LuaEventState) : EventMgr :=
  { globalProcessor := M.globalProcessor.SetState eventId state
    processors := M.processors.map fun P => P.SetState eventId state }

/-- Modelled from the spec: the state change applied to every entry of all processors,
the global one included.  `EventMgr::SetStates` is not among the sources. -/
def EventMgr.SetStates (M : EventMgr) (state : LuaEventState) : EventMgr :=
  { globalProcessor := M.globalProcessor.SetStates state
    processors := M.processors.map fun P => P.SetStates state }

/-! ## Event bindings -/

/-- Modelled from the spec: a Callback Handle (section 3): the reference to the callback,
the remaining shots (0 = unlimited) and whether the handle was aborted.  The class
`Binding` lives in `BindingMap.h`, which is not among the sources. -/
structure Binding where
  functionReference : Int
  remainingShots : Nat
  aborted : Bool
  deriving DecidableEq, Repr

/-- Key of a global binding, `EventKey<T>(event_id)`. -/
structure EventKey where
  event_id : Nat
  deriving DecidableEq, Repr

/-- Key of an entry binding, `EntryKey<T>(event_id, entry)`. -/
structure EntryKey where
  event_id : Nat
  entry : Nat
  deriving DecidableEq, Repr

/-- A GUID as its raw 64-bit value; `ObjectGuid()` is the empty GUID. -/
abbrev ObjectGuid := Nat

/-- The empty GUID, `ObjectGuid()`. -/
def ObjectGuid.Empty : ObjectGuid := 0

/-- Key of a unique binding, `UniqueObjectKey<T>(event_id, guid, instance_id)`. -/
structure UniqueObjectKey where
  event_id : Nat
  guid : ObjectGuid
  instance_id : Nat
  deriving DecidableEq, Repr

/-- Modelled from the spec: a Binding Registry (section 2, component 3): the handles of
every key in registration order.  Handles are kept in one sequence tagged with their
key, so a key without handles is the same as an absent key.  The class `BindingMap`
lives in `BindingMap.h`, which is not among the sources. -/
structure BindingMap (K : Type) where
  bindings : List (K × Binding)
  deriving DecidableEq, Repr

/-- Modelled from the spec: `lookup(key)` of section 4.1: the handles stored under exactly
this key, in registration order (a handle stays stored until it is cleared or pruned). -/
def BindingMap.lookup {K : Type} [DecidableEq K] (B : BindingMap K) (key : K) : List Binding :=
  (B.bindings.filter fun b => b.1 = key).map Prod.snd

/-- Modelled from the spec: `clearAll()` of section 4.1, `BindingMap::Clear()`. -/
def BindingMap.ClearAll {K : Type} (_B : BindingMap K) : BindingMap K :=
  { bindings := [] }

/-- Modelled from the spec: `clearKey(key)` of section 4.1, `BindingMap::Clear(key)`:
empties the sequence of exactly one key. -/
def BindingMap.Clear {K : Type} [DecidableEq K] (B : BindingMap K) (key : K) : BindingMap K :=
  { bindings := B.bindings.filter fun b => b.1 ≠ key }

/-- The binding registries and the timed events of one engine, as the bindings reach
them through `Eluna::GetEluna(L)`. -/
structure Eluna where
  eventMgr : EventMgr
  ServerEventBindings : BindingMap EventKey
  PlayerEventBindings : BindingMap EventKey
  GuildEventBindings : BindingMap EventKey
  GroupEventBindings : BindingMap EventKey
  BGEventBindings : BindingMap EventKey
  TicketEventBindings : BindingMap EventKey
  PacketEventBindings : BindingMap EntryKey
  CreatureEventBindings : BindingMap EntryKey
  CreatureGossipBindings : BindingMap EntryKey
  GameObjectEventBindings : BindingMap EntryKey
  GameObjectGossipBindings : BindingMap EntryKey
  ItemEventBindings : BindingMap EntryKey
  ItemGossipBindings : BindingMap EntryKey
  PlayerGossipBindings : BindingMap EntryKey
  MapEventBindings : BindingMap EntryKey
  InstanceEventBindings : BindingMap EntryKey
  SpellEventBindings : BindingMap EntryKey
  CreatureUniqueBindings : BindingMap UniqueObjectKey
  deriving DecidableEq, Repr

/-! ## The Lua state and the bindings as state transformers -/

/-- The part of a Lua state a binding works on: the stack of the running call (index 1
first), the reference table of the registry and the engine behind `GetEluna`. -/
structure lua_State where
  stack : List LuaValue
  registry : LuaRegistry
  eluna : Eluna
  deriving DecidableEq, Repr

/-- How a run ends: with a value, or with a raised Lua error; either way with the state
reached at that point. -/
inductive Outcome (α : Type) where
  | ok (val : α) (L : lua_State)
  | raised (err : LuaError) (L : lua_State)
  deriving DecidableEq, Repr

/-- A computation over the Lua state that may raise a Lua error. -/
def LuaM (α : Type) : Type := lua_State → Outcome α

/-- Sequencing: a raised error ends the run. -/
def LuaM.bind {α β : Type} (m : LuaM α) (f : α → LuaM β) : LuaM β := fun L =>
  match m L with
  | .ok a L1 => f a L1
  | .raised e L1 => .raised e L1

instance : Monad LuaM where
  pure a := fun L => .ok a L
  bind := LuaM.bind

/-- `luaL_argerror(L, narg, extramsg)`: never returns. -/
def luaL_argerror {α : Type} (narg : Int) (extramsg : String) : LuaM α :=
  fun L => .raised (.argerror narg extramsg) L

/-- The value at a stack index: positive indices count from the bottom, negative ones
from the top; `none` when the index is not in the stack. -/
def stackAt (stack : List LuaValue) (idx : Int) : Option LuaValue :=
  if 0 < idx then stack.get? (idx.toNat - 1)
  else if idx < 0 ∧ -idx ≤ stack.length then stack.get? (stack.length - (-idx).toNat)
  else none

/-- The stack slot of a state at an index; `slot L i` is argument `i` of the call. -/
def slot (L : lua_State) (idx : Int) : Option LuaValue :=
  stackAt L.stack idx

/-- `lua_isnoneornil(L, idx)`. -/
def lua_isnoneornil (idx : Int) : LuaM Bool := fun L =>
  .ok (match slot L idx with
       | none => true
       | some .nil => true
       | _ => false) L

/-- `lua_istable(L, idx)`. -/
def lua_istable (idx : Int) : LuaM Bool := fun L =>
  .ok (match slot L idx with
       | some (.table _) => true
       | _ => false) L

/-- `lua_toboolean(L, idx)`: false for `nil`, `false` and an index outside the stack,
true for every other value. -/
def lua_toboolean (idx : Int) : LuaM Bool := fun L =>
  .ok (match slot L idx with
       | none => false
       | some .nil => false
       | some (.boolean b) => b
       | _ => true) L

/-- `luaL_checktype(L, narg, t)`: raises the argument error "t expected, got ..." when
the argument has another type. -/
def luaL_checktype (narg : Int) (t : LuaType) : LuaM Unit := fun L =>
  if typeOf (slot L narg) = t then .ok () L
  else .raised (.argerror narg (lua_typename t ++ " expected, got " ++
    lua_typename (typeOf (slot L narg)))) L

/-- `Eluna::Push(L, value)` and `lua_push*`: puts a value on top of the stack. -/
def Push (v : LuaValue) : LuaM Unit := fun L =>
  .ok () { L with stack := L.stack ++ [v] }

/-- `lua_pushvalue(L, idx)`: pushes a copy of the slot at `idx`. -/
def lua_pushvalue (idx : Int) : LuaM Unit := fun L =>
  .ok () { L with stack := L.stack ++ [(slot L idx).getD .nil] }

/-- `lua_pop(L, n)`. -/
def lua_pop (n : Nat) : LuaM Unit := fun L =>
  .ok () { L with stack := L.stack.take (L.stack.length - n) }

/-- `lua_gettable(L, idx)`: replaces the key on top of the stack by `t[key]`, where `t`
is the table at `idx`; indexing a value that is not a table raises. -/
def lua_gettable (idx : Int) : LuaM Unit := fun L =>
  match slot L idx with
  | some (.table t) =>
    let v : LuaValue :=
      match L.stack.getLast? with
      | some (.number k) => if 1 ≤ k then ((t.get? (k.toNat - 1)).map LuaField.toValue).getD .nil
                            else .nil
      | _ => .nil
    .ok () { L with stack := L.stack.take (L.stack.length - 1) ++ [v] }
  | _ => .raised (.error "attempt to index a non-table value") L

/-- `luaL_ref(L, LUA_REGISTRYINDEX)`: pops the top of the stack and stores it in the
reference table. -/
def luaL_ref : LuaM Int := fun L =>
  match L.registry.ref (L.stack.getLast?.getD .nil) with
  | (R, r) => .ok r { L with stack := L.stack.take (L.stack.length - 1), registry := R }

/-- An update of the engine reached through `Eluna::GetEluna(L)`. -/
def modifyEluna (f : Eluna → Eluna) : LuaM Unit := fun L =>
  .ok () { L with eluna := f L.eluna }

/-- What the caller of a binding gets: the values the binding returned (the top `n`
stack slots for a result count `n`) or the error it raised, with the reference table
and the engine as the binding left them. -/
inductive CallResult where
  | returned (values : List LuaValue) (registry : LuaRegistry) (eluna : Eluna)
  | failed (err : LuaError) (registry : LuaRegistry) (eluna : Eluna)
  deriving DecidableEq, Repr

/-- A call of a binding from Lua with the given arguments. -/
def call (f : LuaM Nat) (R : LuaRegistry) (E : Eluna) (args : List LuaValue) : CallResult :=
  match f { stack := args, registry := R, eluna := E } with
  | .ok n L => .returned (L.stack.drop (L.stack.length - n)) L.registry L.eluna
  | .raised e L => .failed e L.registry L.eluna

/-! ### Argument readers -/

/-- `luaL_checknumber(L, narg)`, on integer numbers. -/
def luaL_checknumber (narg : Int) : LuaM Int := fun L =>
  match slot L narg with
  | some (.number n) => .ok n L
  | v => .raised (.argerror narg ("number expected, got " ++ lua_typename (typeOf v))) L

/-- Modelled from the spec: `Eluna::CHECKVAL<uint32>(L, narg)` (declared in
`LuaEngine.h`, which is not among the sources): reads a number argument as an unsigned
32-bit value and raises an argument error when the argument is missing, is not a
number or is out of range. -/
def CHECKVAL_uint32 (narg : Int) : LuaM Nat := do
  let value ← luaL_checknumber narg
  if value < 0 then
    luaL_argerror narg "value must be greater than or equal to 0"
  else if 4294967295 < value then
    luaL_argerror narg "value must be less than or equal to 4294967295"
  else
    pure value.toNat

/-- Modelled from the spec: `Eluna::CHECKVAL<uint32>(L, narg, def)`: the default when the
argument is absent or `nil` ("@param uint32 shots = 0"), the checked argument
otherwise. -/
def CHECKVAL_uint32_or (narg : Int) (dflt : Nat) : LuaM Nat := do
  if (← lua_isnoneornil narg) then pure dflt else CHECKVAL_uint32 narg

/-- Modelled from the spec: `Eluna::CHECKVAL<int>(L, narg)`: reads a number argument as a
signed 32-bit value and raises an argument error when the argument is missing, is not
a number or is out of range. -/
def CHECKVAL_int (narg : Int) : LuaM Int := do
  let value ← luaL_checknumber narg
  if value < -2147483648 then
    luaL_argerror narg "value must be greater than or equal to -2147483648"
  else if 2147483647 < value then
    luaL_argerror narg "value must be less than or equal to 2147483647"
  else
    pure value

/-- Modelled from the spec: `Eluna::CHECKVAL<bool>(L, narg, def)`: the default when the
argument is absent or `nil` ("@param bool all_Events = false"), the truth value of the
argument otherwise. -/
def CHECKVAL_bool_or (narg : Int) (dflt : Bool) : LuaM Bool := do
  if (← lua_isnoneornil narg) then pure dflt else lua_toboolean narg

/-- Modelled from the spec: `Eluna::CHECKVAL<ObjectGuid>(L, narg)`: reads a GUID argument
(a userdata holding the raw value) and raises an argument error when the argument is
missing or is not a GUID. -/
def CHECKVAL_ObjectGuid (narg : Int) : LuaM ObjectGuid := fun L =>
  match slot L narg with
  | some (.userdata g) => .ok g L
  | v => .raised (.argerror narg ("ObjectGuid expected, got " ++ lua_typename (typeOf v))) L


/-- The C loop `for (uint32 i = ...; ...; ++i) body(i)` over the values `i` takes. -/
def forEach : List Nat → (Nat → LuaM Unit) → LuaM Unit
  | [], _ => pure ()
  | i :: rest, body => do
    body i
    forEach rest body

/-- The C loop `for (uint32 i = lo; i < hi; ++i) body(i)`. -/
def forLoop (lo hi : Nat) (body : Nat → LuaM Unit) : LuaM Unit :=
  forEach (List.range' lo (hi - lo)) body

/-! ### Event enumerations

`Hooks.h` is not among the sources; the enumerations are the ones the doc comments of
the `Register*Event` bindings list, and each `*_EVENT_COUNT` is the enumerator that
follows the last event of its enumeration. -/

namespace Hooks

/-- Registration types passed by the `Register*Event` bindings. -/
inductive RegisterTypes where
  | REGTYPE_PACKET | REGTYPE_SERVER | REGTYPE_PLAYER | REGTYPE_GUILD | REGTYPE_GROUP
  | REGTYPE_CREATURE | REGTYPE_CREATURE_GOSSIP | REGTYPE_GAMEOBJECT
  | REGTYPE_GAMEOBJECT_GOSSIP | REGTYPE_ITEM | REGTYPE_ITEM_GOSSIP | REGTYPE_PLAYER_GOSSIP
  | REGTYPE_BG | REGTYPE_MAP | REGTYPE_INSTANCE | REGTYPE_TICKET | REGTYPE_SPELL
  deriving DecidableEq, Repr

/-- `enum PacketEvents` (GlobalMethods.h:868). -/
def PacketEvents : List Nat := [5, 6, 7]

/-- `PACKET_EVENT_COUNT`, after `PACKET_EVENT_ON_PACKET_SEND = 7`. -/
def PACKET_EVENT_COUNT : Nat := 8

/-- `enum GossipEvents` (GlobalMethods.h:897). -/
def GossipEvents : List Nat := [1, 2]

/-- `GOSSIP_EVENT_COUNT`, after `GOSSIP_EVENT_ON_SELECT = 2`. -/
def GOSSIP_EVENT_COUNT : Nat := 3

/-- `enum ItemEvents` (GlobalMethods.h:951). -/
def ItemEvents : List Nat := [1, 2, 3, 4, 5]

/-- `ITEM_EVENT_COUNT`, after `ITEM_EVENT_ON_REMOVE = 5`. -/
def ITEM_EVENT_COUNT : Nat := 6

/-- `enum InstanceEvents` (GlobalMethods.h:1008). -/
def InstanceEvents : List Nat := [1, 2, 3, 4, 5, 6, 7]

/-- `INSTANCE_EVENT_COUNT`, after `INSTANCE_EVENT_ON_CHECK_ENCOUNTER_IN_PROGRESS = 7`. -/
def INSTANCE_EVENT_COUNT : Nat := 8

/-- `enum CreatureEvents` (GlobalMethods.h:1091); the unused ids are left out. -/
def CreatureEvents : List Nat :=
  [1, 2, 3, 4, 5, 6, 7, 8, 9, 10, 12, 13, 14, 15, 19, 20, 21, 22, 23, 24, 26, 27, 30, 31,
   34, 35, 36, 37]

/-- `CREATURE_EVENT_COUNT`, after `CREATURE_EVENT_ON_REMOVE = 37`. -/
def CREATURE_EVENT_COUNT : Nat := 38

/-- `enum GameObjectEvents` (GlobalMethods.h:1216); the unused id 11 is left out. -/
def GameObjectEvents : List Nat := [1, 2, 3, 4, 5, 6, 7, 8, 9, 10, 12, 13, 14]

/-- `GAMEOBJECT_EVENT_COUNT`, after `GAMEOBJECT_EVENT_ON_USE = 14`. -/
def GAMEOBJECT_EVENT_COUNT : Nat := 15

/-- `enum SpellEvents` (GlobalMethods.h:1279). -/
def SpellEvents : List Nat := [1, 2, 3]

/-- `SPELL_EVENT_COUNT`, after `SPELL_EVENT_ON_CAST_CANCEL = 3`. -/
def SPELL_EVENT_COUNT : Nat := 4

end Hooks

/-- The registration primitive `Eluna::Register(L, regtype, entry, guid, instanceId,
event_id, functionRef, shots)`.  It is defined in `LuaEngine.cpp`, which is not among
the sources, so the registration helpers take it as a parameter. -/
abbrev RegisterPrimitive : Type :=
  Hooks.RegisterTypes → Nat → ObjectGuid → Nat → Nat → Int → Nat → LuaM Nat

namespace LuaGlobalFunctions

section Registration

variable (Register : RegisterPrimitive)

/-- `RegisterEntryHelper` (GlobalMethods.h:557). -/
def RegisterEntryHelper (regtype : Hooks.RegisterTypes) : LuaM Nat := do
  let id ← CHECKVAL_uint32 1
  let ev ← CHECKVAL_uint32 2
  luaL_checktype 3 .LUA_TFUNCTION
  let shots ← CHECKVAL_uint32_or 4 0
  lua_pushvalue 3
  let functionRef ← luaL_ref
  if functionRef ≥ 0 then
    Register regtype id ObjectGuid.Empty 0 ev functionRef shots
  else do
    (luaL_argerror 3 "unable to make a ref to function" : LuaM Unit)
    pure 0

/-- `RegisterEventHelper` (GlobalMethods.h:573). -/
def RegisterEventHelper (regtype : Hooks.RegisterTypes) : LuaM Nat := do
  let ev ← CHECKVAL_uint32 1
  luaL_checktype 2 .LUA_TFUNCTION
  let shots ← CHECKVAL_uint32_or 3 0
  lua_pushvalue 2
  let functionRef ← luaL_ref
  if functionRef ≥ 0 then
    Register regtype 0 ObjectGuid.Empty 0 ev functionRef shots
  else do
    (luaL_argerror 2 "unable to make a ref to function" : LuaM Unit)
    pure 0

/-- `RegisterUniqueHelper` (GlobalMethods.h:588). -/
def RegisterUniqueHelper (regtype : Hooks.RegisterTypes) : LuaM Nat := do
  let guid ← CHECKVAL_ObjectGuid 1
  let instanceId ← CHECKVAL_uint32 2
  let ev ← CHECKVAL_uint32 3
  luaL_checktype 4 .LUA_TFUNCTION
  let shots ← CHECKVAL_uint32_or 5 0
  lua_pushvalue 4
  let functionRef ← luaL_ref
  if functionRef ≥ 0 then
    Register regtype 0 guid instanceId ev functionRef shots
  else do
    (luaL_argerror 4 "unable to make a ref to function" : LuaM Unit)
    pure 0

/-- `LuaGlobalFunctions::RegisterServerEvent` (GlobalMethods.h:675). -/
def RegisterServerEvent : LuaM Nat :=
  RegisterEventHelper Register .REGTYPE_SERVER

/-- `LuaGlobalFunctions::RegisterPlayerEvent` (GlobalMethods.h:762). -/
def RegisterPlayerEvent : LuaM Nat :=
  RegisterEventHelper Register .REGTYPE_PLAYER

/-- `LuaGlobalFunctions::RegisterGuildEvent` (GlobalMethods.h:799). -/
def RegisterGuildEvent : LuaM Nat :=
  RegisterEventHelper Register .REGTYPE_GUILD

/-- `LuaGlobalFunctions::RegisterGroupEvent` (GlobalMethods.h:831). -/
def RegisterGroupEvent : LuaM Nat :=
  RegisterEventHelper Register .REGTYPE_GROUP

/-- `LuaGlobalFunctions::RegisterBGEvent` (GlobalMethods.h:859). -/
def RegisterBGEvent : LuaM Nat :=
  RegisterEventHelper Register .REGTYPE_BG

/-- `LuaGlobalFunctions::RegisterPacketEvent` (GlobalMethods.h:888). -/
def RegisterPacketEvent : LuaM Nat :=
  RegisterEntryHelper Register .REGTYPE_PACKET

/-- `LuaGlobalFunctions::RegisterCreatureGossipEvent` (GlobalMethods.h:915). -/
def RegisterCreatureGossipEvent : LuaM Nat :=
  RegisterEntryHelper Register .REGTYPE_CREATURE_GOSSIP

/-- `LuaGlobalFunctions::RegisterGameObjectGossipEvent` (GlobalMethods.h:942). -/
def RegisterGameObjectGossipEvent : LuaM Nat :=
  RegisterEntryHelper Register .REGTYPE_GAMEOBJECT_GOSSIP

/-- `LuaGlobalFunctions::RegisterItemEvent` (GlobalMethods.h:972). -/
def RegisterItemEvent : LuaM Nat :=
  RegisterEntryHelper Register .REGTYPE_ITEM

/-- `LuaGlobalFunctions::RegisterItemGossipEvent` (GlobalMethods.h:999). -/
def RegisterItemGossipEvent : LuaM Nat :=
  RegisterEntryHelper Register .REGTYPE_ITEM_GOSSIP

/-- `LuaGlobalFunctions::RegisterMapEvent` (GlobalMethods.h:1026). -/
def RegisterMapEvent : LuaM Nat :=
  RegisterEntryHelper Register .REGTYPE_MAP

/-- `LuaGlobalFunctions::RegisterInstanceEvent` (GlobalMethods.h:1053). -/
def RegisterInstanceEvent : LuaM Nat :=
  RegisterEntryHelper Register .REGTYPE_INSTANCE

/-- `LuaGlobalFunctions::RegisterPlayerGossipEvent` (GlobalMethods.h:1082). -/
def RegisterPlayerGossipEvent : LuaM Nat :=
  RegisterEntryHelper Register .REGTYPE_PLAYER_GOSSIP

/-- `LuaGlobalFunctions::RegisterCreatureEvent` (GlobalMethods.h:1144). -/
def RegisterCreatureEvent : LuaM Nat :=
  RegisterEntryHelper Register .REGTYPE_CREATURE

/-- `LuaGlobalFunctions::RegisterUniqueCreatureEvent` (GlobalMethods.h:1207). -/
def RegisterUniqueCreatureEvent : LuaM Nat :=
  RegisterUniqueHelper Register .REGTYPE_CREATURE

/-- `LuaGlobalFunctions::RegisterGameObjectEvent` (GlobalMethods.h:1246). -/
def RegisterGameObjectEvent : LuaM Nat :=
  RegisterEntryHelper Register .REGTYPE_GAMEOBJECT

/-- `LuaGlobalFunctions::RegisterTicketEvent` (GlobalMethods.h:1270). -/
def RegisterTicketEvent : LuaM Nat :=
  RegisterEventHelper Register .REGTYPE_TICKET

/-- `LuaGlobalFunctions::RegisterSpellEvent` (GlobalMethods.h:1293). -/
def RegisterSpellEvent : LuaM Nat :=
  RegisterEntryHelper Register .REGTYPE_SPELL

end Registration

/-- `LuaGlobalFunctions::CreateLuaEvent` (GlobalMethods.h:1613). -/
def CreateLuaEvent : LuaM Nat := do
  luaL_checktype 1 .LUA_TFUNCTION
  let (min, max) ←
    if (← lua_istable 2) then do
      Push (.number 1)
      lua_gettable 2
      let min ← CHECKVAL_uint32 (-1)
      Push (.number 2)
      lua_gettable 2
      let max ← CHECKVAL_uint32 (-1)
      lua_pop 2
      pure (min, max)
    else do
      let v ← CHECKVAL_uint32 2
      pure (v, v)
  let repeats ← CHECKVAL_uint32_or 3 1
  if min > max then
    luaL_argerror 2 "min is bigger than max delay"
  else do
    lua_pushvalue 1
    let functionRef ← luaL_ref
    if functionRef ≠ LUA_REFNIL ∧ functionRef ≠ LUA_NOREF then
      modifyEluna fun E => { E with eventMgr := { E.eventMgr with
        globalProcessor := E.eventMgr.globalProcessor.AddEvent functionRef min max repeats } }
      Push (.number functionRef)
    pure 1

/-- `LuaGlobalFunctions::RemoveEventById` (GlobalMethods.h:1650). -/
def RemoveEventById : LuaM Nat := do
  let eventId ← CHECKVAL_int 1
  let all_Events ← CHECKVAL_bool_or 1 false
  if all_Events then
    modifyEluna fun E => { E with eventMgr := E.eventMgr.SetState eventId LUAEVENT_STATE_ABORT }
  else
    modifyEluna fun E => { E with eventMgr := { E.eventMgr with
      globalProcessor := E.eventMgr.globalProcessor.SetState eventId LUAEVENT_STATE_ABORT } }
  pure 0


/-- `LuaGlobalFunctions::RemoveEvents` (GlobalMethods.h:1668). -/
def RemoveEvents : LuaM Nat := do
  let all_Events ← CHECKVAL_bool_or 1 false
  if all_Events then
    modifyEluna fun E => { E with eventMgr := E.eventMgr.SetStates LUAEVENT_STATE_ABORT }
  else
    modifyEluna fun E => { E with eventMgr := { E.eventMgr with
      globalProcessor := E.eventMgr.globalProcessor.SetStates LUAEVENT_STATE_ABORT } }
  pure 0

/-- `LuaGlobalFunctions::ClearBattleGroundEvents` (GlobalMethods.h:2690). -/
def ClearBattleGroundEvents : LuaM Nat := do
  if (← lua_isnoneornil 1) then
    modifyEluna fun E => { E with BGEventBindings := E.BGEventBindings.ClearAll }
  else
    let event_type ← CHECKVAL_uint32 1
    modifyEluna fun E => { E with BGEventBindings := E.BGEventBindings.Clear ⟨event_type⟩ }
  pure 0

/-- `LuaGlobalFunctions::ClearCreatureEvents` (GlobalMethods.h:2721). -/
def ClearCreatureEvents : LuaM Nat := do
  if (← lua_isnoneornil 2) then
    let entry ← CHECKVAL_uint32 1
    forLoop 1 Hooks.CREATURE_EVENT_COUNT fun i =>
      modifyEluna fun E => { E with CreatureEventBindings := E.CreatureEventBindings.Clear ⟨i, entry⟩ }
  else
    let entry ← CHECKVAL_uint32 1
    let event_type ← CHECKVAL_uint32 2
    modifyEluna fun E => { E with CreatureEventBindings := E.CreatureEventBindings.Clear ⟨event_type, entry⟩ }
  pure 0

/-- `LuaGlobalFunctions::ClearUniqueCreatureEvents` (GlobalMethods.h:2758). -/
def ClearUniqueCreatureEvents : LuaM Nat := do
  if (← lua_isnoneornil 3) then
    let guid ← CHECKVAL_ObjectGuid 1
    let instanceId ← CHECKVAL_uint32 2
    forLoop 1 Hooks.CREATURE_EVENT_COUNT fun i =>
      modifyEluna fun E =>
        { E with CreatureUniqueBindings := E.CreatureUniqueBindings.Clear ⟨i, guid, instanceId⟩ }
  else
    let guid ← CHECKVAL_ObjectGuid 1
    let instanceId ← CHECKVAL_uint32 2
    let event_type ← CHECKVAL_uint32 3
    modifyEluna fun E =>
      { E with CreatureUniqueBindings :=
          E.CreatureUniqueBindings.Clear ⟨event_type, guid, instanceId⟩ }
  pure 0

/-- `LuaGlobalFunctions::ClearCreatureGossipEvents` (GlobalMethods.h:2796). -/
def ClearCreatureGossipEvents : LuaM Nat := do
  if (← lua_isnoneornil 2) then
    let entry ← CHECKVAL_uint32 1
    forLoop 1 Hooks.GOSSIP_EVENT_COUNT fun i =>
      modifyEluna fun E => { E with CreatureGossipBindings := E.CreatureGossipBindings.Clear ⟨i, entry⟩ }
  else
    let entry ← CHECKVAL_uint32 1
    let event_type ← CHECKVAL_uint32 2
    modifyEluna fun E => { E with CreatureGossipBindings := E.CreatureGossipBindings.Clear ⟨event_type, entry⟩ }
  pure 0

/-- `LuaGlobalFunctions::ClearGameObjectEvents` (GlobalMethods.h:2832). -/
def ClearGameObjectEvents : LuaM Nat := do
  if (← lua_isnoneornil 2) then
    let entry ← CHECKVAL_uint32 1
    forLoop 1 Hooks.GAMEOBJECT_EVENT_COUNT fun i =>
      modifyEluna fun E => { E with GameObjectEventBindings := E.GameObjectEventBindings.Clear ⟨i, entry⟩ }
  else
    let entry ← CHECKVAL_uint32 1
    let event_type ← CHECKVAL_uint32 2
    modifyEluna fun E => { E with GameObjectEventBindings := E.GameObjectEventBindings.Clear ⟨event_type, entry⟩ }
  pure 0

/-- `LuaGlobalFunctions::ClearGameObjectGossipEvents` (GlobalMethods.h:2868). -/
def ClearGameObjectGossipEvents : LuaM Nat := do
  if (← lua_isnoneornil 2) then
    let entry ← CHECKVAL_uint32 1
    forLoop 1 Hooks.GOSSIP_EVENT_COUNT fun i =>
      modifyEluna fun E => { E with GameObjectGossipBindings := E.GameObjectGossipBindings.Clear ⟨i, entry⟩ }
  else
    let entry ← CHECKVAL_uint32 1
    let event_type ← CHECKVAL_uint32 2
    modifyEluna fun E => { E with GameObjectGossipBindings := E.GameObjectGossipBindings.Clear ⟨event_type, entry⟩ }
  pure 0

/-- `LuaGlobalFunctions::ClearGroupEvents` (GlobalMethods.h:2900). -/
def ClearGroupEvents : LuaM Nat := do
  if (← lua_isnoneornil 1) then
    modifyEluna fun E => { E with GroupEventBindings := E.GroupEventBindings.ClearAll }
  else
    let event_type ← CHECKVAL_uint32 1
    modifyEluna fun E => { E with GroupEventBindings := E.GroupEventBindings.Clear ⟨event_type⟩ }
  pure 0

/-- `LuaGlobalFunctions::ClearGuildEvents` (GlobalMethods.h:2927). -/
def ClearGuildEvents : LuaM Nat := do
  if (← lua_isnoneornil 1) then
    modifyEluna fun E => { E with GuildEventBindings := E.GuildEventBindings.ClearAll }
  else
    let event_type ← CHECKVAL_uint32 1
    modifyEluna fun E => { E with GuildEventBindings := E.GuildEventBindings.Clear ⟨event_type⟩ }
  pure 0

/-- `LuaGlobalFunctions::ClearItemEvents` (GlobalMethods.h:2958). -/
def ClearItemEvents : LuaM Nat := do
  if (← lua_isnoneornil 2) then
    let entry ← CHECKVAL_uint32 1
    forLoop 1 Hooks.ITEM_EVENT_COUNT fun i =>
      modifyEluna fun E => { E with ItemEventBindings := E.ItemEventBindings.Clear ⟨i, entry⟩ }
  else
    let entry ← CHECKVAL_uint32 1
    let event_type ← CHECKVAL_uint32 2
    modifyEluna fun E => { E with ItemEventBindings := E.ItemEventBindings.Clear ⟨event_type, entry⟩ }
  pure 0

/-- `LuaGlobalFunctions::ClearItemGossipEvents` (GlobalMethods.h:2994). -/
def ClearItemGossipEvents : LuaM Nat := do
  if (← lua_isnoneornil 2) then
    let entry ← CHECKVAL_uint32 1
    forLoop 1 Hooks.GOSSIP_EVENT_COUNT fun i =>
      modifyEluna fun E => { E with ItemGossipBindings := E.ItemGossipBindings.Clear ⟨i, entry⟩ }
  else
    let entry ← CHECKVAL_uint32 1
    let event_type ← CHECKVAL_uint32 2
    modifyEluna fun E => { E with ItemGossipBindings := E.ItemGossipBindings.Clear ⟨event_type, entry⟩ }
  pure 0

/-- `LuaGlobalFunctions::ClearPacketEvents` (GlobalMethods.h:3027). -/
def ClearPacketEvents : LuaM Nat := do
  if (← lua_isnoneornil 2) then
    let entry ← CHECKVAL_uint32 1
    forLoop 1 Hooks.PACKET_EVENT_COUNT fun i =>
      modifyEluna fun E => { E with PacketEventBindings := E.PacketEventBindings.Clear ⟨i, entry⟩ }
  else
    let entry ← CHECKVAL_uint32 1
    let event_type ← CHECKVAL_uint32 2
    modifyEluna fun E => { E with PacketEventBindings := E.PacketEventBindings.Clear ⟨event_type, entry⟩ }
  pure 0

/-- `LuaGlobalFunctions::ClearPlayerEvents` (GlobalMethods.h:3059). -/
def ClearPlayerEvents : LuaM Nat := do
  if (← lua_isnoneornil 1) then
    modifyEluna fun E => { E with PlayerEventBindings := E.PlayerEventBindings.ClearAll }
  else
    let event_type ← CHECKVAL_uint32 1
    modifyEluna fun E => { E with PlayerEventBindings := E.PlayerEventBindings.Clear ⟨event_type⟩ }
  pure 0

/-- `LuaGlobalFunctions::ClearPlayerGossipEvents` (GlobalMethods.h:3087). -/
def ClearPlayerGossipEvents : LuaM Nat := do
  if (← lua_isnoneornil 2) then
    let entry ← CHECKVAL_uint32 1
    forLoop 1 Hooks.GOSSIP_EVENT_COUNT fun i =>
      modifyEluna fun E => { E with PlayerGossipBindings := E.PlayerGossipBindings.Clear ⟨i, entry⟩ }
  else
    let entry ← CHECKVAL_uint32 1
    let event_type ← CHECKVAL_uint32 2
    modifyEluna fun E => { E with PlayerGossipBindings := E.PlayerGossipBindings.Clear ⟨event_type, entry⟩ }
  pure 0

/-- `LuaGlobalFunctions::ClearServerEvents` (GlobalMethods.h:3119). -/
def ClearServerEvents : LuaM Nat := do
  if (← lua_isnoneornil 1) then
    modifyEluna fun E => { E with ServerEventBindings := E.ServerEventBindings.ClearAll }
  else
    let event_type ← CHECKVAL_uint32 1
    modifyEluna fun E => { E with ServerEventBindings := E.ServerEventBindings.Clear ⟨event_type⟩ }
  pure 0

/-- `LuaGlobalFunctions::ClearMapEvents` (GlobalMethods.h:3147). -/
def ClearMapEvents : LuaM Nat := do
  if (← lua_isnoneornil 2) then
    let entry ← CHECKVAL_uint32 1
    forLoop 1 Hooks.INSTANCE_EVENT_COUNT fun i =>
      modifyEluna fun E => { E with MapEventBindings := E.MapEventBindings.Clear ⟨i, entry⟩ }
  else
    let entry ← CHECKVAL_uint32 1
    let event_type ← CHECKVAL_uint32 2
    modifyEluna fun E => { E with MapEventBindings := E.MapEventBindings.Clear ⟨event_type, entry⟩ }
  pure 0

/-- `LuaGlobalFunctions::ClearInstanceEvents` (GlobalMethods.h:3181). -/
def ClearInstanceEvents : LuaM Nat := do
  if (← lua_isnoneornil 2) then
    let entry ← CHECKVAL_uint32 1
    forLoop 1 Hooks.INSTANCE_EVENT_COUNT fun i =>
      modifyEluna fun E => { E with InstanceEventBindings := E.InstanceEventBindings.Clear ⟨i, entry⟩ }
  else
    let entry ← CHECKVAL_uint32 1
    let event_type ← CHECKVAL_uint32 2
    modifyEluna fun E => { E with InstanceEventBindings := E.InstanceEventBindings.Clear ⟨event_type, entry⟩ }
  pure 0

/-- `LuaGlobalFunctions::ClearTicketEvents` (GlobalMethods.h:3214). -/
def ClearTicketEvents : LuaM Nat := do
  if (← lua_isnoneornil 1) then
    modifyEluna fun E => { E with TicketEventBindings := E.TicketEventBindings.ClearAll }
  else
    let event_type ← CHECKVAL_uint32 1
    modifyEluna fun E => { E with TicketEventBindings := E.TicketEventBindings.Clear ⟨event_type⟩ }
  pure 0

/-- `LuaGlobalFunctions::ClearSpellEvents` (GlobalMethods.h:3243). -/
def ClearSpellEvents : LuaM Nat := do
  if (← lua_isnoneornil 2) then
    let entry ← CHECKVAL_uint32 1
    forLoop 1 Hooks.SPELL_EVENT_COUNT fun i =>
      modifyEluna fun E => { E with SpellEventBindings := E.SpellEventBindings.Clear ⟨i, entry⟩ }
  else
    let entry ← CHECKVAL_uint32 1
    let event_type ← CHECKVAL_uint32 2
    modifyEluna fun E => { E with SpellEventBindings := E.SpellEventBindings.Clear ⟨event_type, entry⟩ }
  pure 0

end LuaGlobalFunctions

/-! ## The families of bindings -/

/-- The `Register*Event` bindings of the global families, each with the registration
type it passes to `RegisterEventHelper`. -/
def globalRegistrations : List ((RegisterPrimitive → LuaM Nat) × Hooks.RegisterTypes) :=
  [(LuaGlobalFunctions.RegisterServerEvent, .REGTYPE_SERVER),
   (LuaGlobalFunctions.RegisterPlayerEvent, .REGTYPE_PLAYER),
   (LuaGlobalFunctions.RegisterGuildEvent, .REGTYPE_GUILD),
   (LuaGlobalFunctions.RegisterGroupEvent, .REGTYPE_GROUP),
   (LuaGlobalFunctions.RegisterBGEvent, .REGTYPE_BG),
   (LuaGlobalFunctions.RegisterTicketEvent, .REGTYPE_TICKET)]

/-- The `Register*Event` bindings of the entry families, each with the registration type
it passes to `RegisterEntryHelper`. -/
def entryRegistrations : List ((RegisterPrimitive → LuaM Nat) × Hooks.RegisterTypes) :=
  [(LuaGlobalFunctions.RegisterPacketEvent, .REGTYPE_PACKET),
   (LuaGlobalFunctions.RegisterCreatureGossipEvent, .REGTYPE_CREATURE_GOSSIP),
   (LuaGlobalFunctions.RegisterGameObjectGossipEvent, .REGTYPE_GAMEOBJECT_GOSSIP),
   (LuaGlobalFunctions.RegisterItemEvent, .REGTYPE_ITEM),
   (LuaGlobalFunctions.RegisterItemGossipEvent, .REGTYPE_ITEM_GOSSIP),
   (LuaGlobalFunctions.RegisterMapEvent, .REGTYPE_MAP),
   (LuaGlobalFunctions.RegisterInstanceEvent, .REGTYPE_INSTANCE),
   (LuaGlobalFunctions.RegisterPlayerGossipEvent, .REGTYPE_PLAYER_GOSSIP),
   (LuaGlobalFunctions.RegisterCreatureEvent, .REGTYPE_CREATURE),
   (LuaGlobalFunctions.RegisterGameObjectEvent, .REGTYPE_GAMEOBJECT),
   (LuaGlobalFunctions.RegisterSpellEvent, .REGTYPE_SPELL)]

/-- An entry-keyed family as its `Clear*Events` binding uses it: the binding, the
registry it clears, the `*_EVENT_COUNT` bounding its loop and the events of the family's
enumeration. -/
structure EntryFamily where
  clear : LuaM Nat
  registry : Eluna → BindingMap EntryKey
  count : Nat
  events : List Nat

/-- The entry-keyed families with a `Clear*Events` binding. -/
def entryFamilies : List EntryFamily :=
  [⟨LuaGlobalFunctions.ClearCreatureEvents, fun E => E.CreatureEventBindings, Hooks.CREATURE_EVENT_COUNT, Hooks.CreatureEvents⟩,
   ⟨LuaGlobalFunctions.ClearCreatureGossipEvents, fun E => E.CreatureGossipBindings, Hooks.GOSSIP_EVENT_COUNT, Hooks.GossipEvents⟩,
   ⟨LuaGlobalFunctions.ClearGameObjectEvents, fun E => E.GameObjectEventBindings, Hooks.GAMEOBJECT_EVENT_COUNT, Hooks.GameObjectEvents⟩,
   ⟨LuaGlobalFunctions.ClearGameObjectGossipEvents, fun E => E.GameObjectGossipBindings, Hooks.GOSSIP_EVENT_COUNT, Hooks.GossipEvents⟩,
   ⟨LuaGlobalFunctions.ClearItemEvents, fun E => E.ItemEventBindings, Hooks.ITEM_EVENT_COUNT, Hooks.ItemEvents⟩,
   ⟨LuaGlobalFunctions.ClearItemGossipEvents, fun E => E.ItemGossipBindings, Hooks.GOSSIP_EVENT_COUNT, Hooks.GossipEvents⟩,
   ⟨LuaGlobalFunctions.ClearPacketEvents, fun E => E.PacketEventBindings, Hooks.PACKET_EVENT_COUNT, Hooks.PacketEvents⟩,
   ⟨LuaGlobalFunctions.ClearPlayerGossipEvents, fun E => E.PlayerGossipBindings, Hooks.GOSSIP_EVENT_COUNT, Hooks.GossipEvents⟩,
   ⟨LuaGlobalFunctions.ClearMapEvents, fun E => E.MapEventBindings, Hooks.INSTANCE_EVENT_COUNT, Hooks.InstanceEvents⟩,
   ⟨LuaGlobalFunctions.ClearInstanceEvents, fun E => E.InstanceEventBindings, Hooks.INSTANCE_EVENT_COUNT, Hooks.InstanceEvents⟩,
   ⟨LuaGlobalFunctions.ClearSpellEvents, fun E => E.SpellEventBindings, Hooks.SPELL_EVENT_COUNT, Hooks.SpellEvents⟩]

/-! ## Sample states -/

/-- An empty binding registry. -/
def BindingMap.empty {K : Type} : BindingMap K := { bindings := [] }

/-- An engine with the given timed events and the given creature bindings, and nothing
else registered. -/
def sampleEluna (M : EventMgr) (C : BindingMap EntryKey) : Eluna where
  eventMgr := M
  ServerEventBindings := BindingMap.empty
  PlayerEventBindings := BindingMap.empty
  GuildEventBindings := BindingMap.empty
  GroupEventBindings := BindingMap.empty
  BGEventBindings := BindingMap.empty
  TicketEventBindings := BindingMap.empty
  PacketEventBindings := BindingMap.empty
  CreatureEventBindings := C
  CreatureGossipBindings := BindingMap.empty
  GameObjectEventBindings := BindingMap.empty
  GameObjectGossipBindings := BindingMap.empty
  ItemEventBindings := BindingMap.empty
  ItemGossipBindings := BindingMap.empty
  PlayerGossipBindings := BindingMap.empty
  MapEventBindings := BindingMap.empty
  InstanceEventBindings := BindingMap.empty
  SpellEventBindings := BindingMap.empty
  CreatureUniqueBindings := BindingMap.empty

/-- A processor at time 100 without events. -/
def idleProcessor : ElunaEventProcessor := { now := 100, seed := 7, eventList := [] }

/-- An engine with nothing scheduled and nothing registered. -/
def idleEluna : Eluna :=
  sampleEluna { globalProcessor := idleProcessor, processors := [] } BindingMap.empty

/-- An infinitely repeating event with id 5 that has been due since time 90. -/
def dueEvent : LuaEvent :=
  { funcRef := 5, minDelay := 10, maxDelay := 10, repeatsRemaining := 0, delay := 10,
    nextFireAt := 90, state := .Active }

/-- An engine whose global processor and whose one further processor each hold an active
event with id 5. -/
def twoProcessorEluna : Eluna :=
  sampleEluna
    { globalProcessor := { now := 100, seed := 7, eventList := [dueEvent] }
      processors := [{ now := 100, seed := 3, eventList := [dueEvent] }] }
    BindingMap.empty

/-- A registration primitive for the examples: it returns to Lua the key fields, the
callback reference and the shots it was called with. -/
def probeRegister : RegisterPrimitive :=
  fun _regtype entry guid instanceId event_id functionRef shots => do
    Push (.number entry)
    Push (.userdata guid)
    Push (.number instanceId)
    Push (.number event_id)
    Push (.number functionRef)
    Push (.number shots)
    pure 6

/-- A callback handle for the examples. -/
def sampleBinding (functionReference : Int) : Binding :=
  { functionReference := functionReference, remainingShots := 0, aborted := false }

/-- An engine with creature bindings for entry 1234 under the events 9 and 37 and for
entry 5678 under the event 9, and nothing else. -/
def creatureEluna : Eluna :=
  sampleEluna { globalProcessor := idleProcessor, processors := [] }
    { bindings := [(⟨9, 1234⟩, sampleBinding 1), (⟨9, 5678⟩, sampleBinding 2),
                   (⟨37, 1234⟩, sampleBinding 3)] }

/-- A reference table without references. -/
def emptyRegistry : LuaRegistry := { slots := [], freeList := [], size := 0 }

/-- The state of a call with the given arguments on the idle engine. -/
def idleCall (args : List LuaValue) : lua_State :=
  { stack := args, registry := emptyRegistry, eluna := idleEluna }

/-- A global family as its `Clear*Events` binding uses it: the binding and the registry
it clears. -/
structure GlobalFamily where
  clear : LuaM Nat
  registry : Eluna → BindingMap EventKey

/-- The global families with a `Clear*Events` binding. -/
def globalFamilies : List GlobalFamily :=
  [⟨LuaGlobalFunctions.ClearBattleGroundEvents, fun E => E.BGEventBindings⟩,
   ⟨LuaGlobalFunctions.ClearGroupEvents, fun E => E.GroupEventBindings⟩,
   ⟨LuaGlobalFunctions.ClearGuildEvents, fun E => E.GuildEventBindings⟩,
   ⟨LuaGlobalFunctions.ClearPlayerEvents, fun E => E.PlayerEventBindings⟩,
   ⟨LuaGlobalFunctions.ClearServerEvents, fun E => E.ServerEventBindings⟩,
   ⟨LuaGlobalFunctions.ClearTicketEvents, fun E => E.TicketEventBindings⟩]

/-- An engine with server bindings under the events 13 and 14 and a player binding under
the event 3, and nothing else. -/
def serverEluna : Eluna :=
  { idleEluna with
    ServerEventBindings :=
      { bindings := [(⟨14⟩, sampleBinding 1), (⟨13⟩, sampleBinding 2),
                     (⟨14⟩, sampleBinding 3)] }
    PlayerEventBindings := { bindings := [(⟨3⟩, sampleBinding 4)] } }

/-! ## The dispatcher -/

/-- Modelled from the spec: the live handles of a key, in registration order: what
`lookup(key)` of section 4.1 hands to the dispatcher.  A handle that was aborted stays
stored until the next fire of its key prunes it, and is not live. -/
def BindingMap.liveHandles {K : Type} [DecidableEq K] (B : BindingMap K) (key : K) :
    List Binding :=
  (B.lookup key).filter fun b => !b.aborted

/-- Modelled from the spec: `register(key, callback, shots)` of section 4.1: appends a new
Callback Handle to the sequence of `key`; `shots = 0` means unlimited invocations.
`BindingMap::Insert` is not among the sources. -/
def BindingMap.Insert {K : Type} (B : BindingMap K) (key : K) (functionReference : Int)
    (shots : Nat) : BindingMap K :=
  { bindings := B.bindings ++
      [(key, { functionReference := functionReference, remainingShots := shots,
               aborted := false })] }

/-- Modelled from the spec: what a fire does with one handle of the fired key (section
4.2, "Each invocation"): an Aborted handle is skipped and pruned; any other handle is
invoked, and when its remaining shots are above 0 they are decremented and the handle is
pruned when they reach 0.  Returns the handle kept (if any) and the callback invoked (if
any). -/
def Binding.fire (b : Binding) : Option Binding × Option Int :=
  if b.aborted then (none, none)
  else if b.remainingShots > 0 then
    if b.remainingShots - 1 = 0 then (none, some b.functionReference)
    else (some { b with remainingShots := b.remainingShots - 1 }, some b.functionReference)
  else (some b, some b.functionReference)

/-- Modelled from the spec: one fire of a key on a registry (section 4.2): the handles of
the key are gone through in registration order, the handles of the other keys are left
alone.  Returns the registry after the fire and the callbacks invoked, in order. -/
def BindingMap.fire {K : Type} [DecidableEq K] (B : BindingMap K) (key : K) :
    BindingMap K × List Int :=
  ({ bindings := B.bindings.filterMap fun kb =>
      if kb.1 = key then kb.2.fire.1.map fun b => (kb.1, b) else some kb },
   B.bindings.filterMap fun kb => if kb.1 = key then kb.2.fire.2 else none)

/-- Modelled from the spec: successive fires of the given keys on a registry; returns the
registry after the last fire and the callbacks invoked by each fire. -/
def BindingMap.fires {K : Type} [DecidableEq K] (B : BindingMap K) :
    List K → BindingMap K × List (List Int)
  | [] => (B, [])
  | key :: later =>
    match (B.fire key).1.fires later with
    | (B1, invocations) => (B1, (B.fire key).2 :: invocations)

/-- Modelled from the spec: a Binding Key (section 3): `GlobalKey(kind)`,
`EntryKey(kind, entryId)` or `UniqueKey(kind, identity, scopeId)`. -/
inductive BindingKey where
  | GlobalKey (kind : Nat)
  | EntryKey (kind : Nat) (entryId : Nat)
  | UniqueKey (kind : Nat) (identity : ObjectGuid) (scopeId : Nat)
  deriving DecidableEq, Repr

/-- Modelled from the spec: one registration call: the key, the callback reference and
the shots (section 6, registration entry points). -/
structure Registration where
  key : BindingKey
  callback : Int
  shots : Nat
  deriving DecidableEq, Repr

/-- Modelled from the spec: the registries one fire looks into: the global, the entry and
the unique registry of a family (section 2, components 3 and 4). -/
structure Dispatcher where
  globalBindings : BindingMap EventKey
  entryBindings : BindingMap EntryKey
  uniqueBindings : BindingMap UniqueObjectKey
  deriving DecidableEq, Repr

/-- A dispatcher without registrations. -/
def Dispatcher.empty : Dispatcher :=
  { globalBindings := BindingMap.empty, entryBindings := BindingMap.empty,
    uniqueBindings := BindingMap.empty }

/-- Modelled from the spec: `registerGlobal`, `registerForEntry` and
`registerForUniqueIdentity` of section 6: the handle is appended to the registry of the
key's shape. -/
def Dispatcher.register (D : Dispatcher) (r : Registration) : Dispatcher :=
  match r.key with
  | .GlobalKey kind =>
    { D with globalBindings := D.globalBindings.Insert ⟨kind⟩ r.callback r.shots }
  | .EntryKey kind entryId =>
    { D with entryBindings := D.entryBindings.Insert ⟨kind, entryId⟩ r.callback r.shots }
  | .UniqueKey kind identity scopeId =>
    { D with
      uniqueBindings := D.uniqueBindings.Insert ⟨kind, identity, scopeId⟩ r.callback r.shots }

/-- Modelled from the spec: `fire(kind, entryId, identity, scopeId)` of section 4.2 for an
event to which an entry and a unique identity are relevant: the handles of
`GlobalKey(kind)`, then those of `EntryKey(kind, entryId)`, then those of
`UniqueKey(kind, identity, scopeId)`.  Returns the dispatcher after the fire and the
callbacks invoked, in order. -/
def Dispatcher.fire (D : Dispatcher) (kind entryId : Nat) (identity : ObjectGuid)
    (scopeId : Nat) : Dispatcher × List Int :=
  ({ globalBindings := (D.globalBindings.fire ⟨kind⟩).1
     entryBindings := (D.entryBindings.fire ⟨kind, entryId⟩).1
     uniqueBindings := (D.uniqueBindings.fire ⟨kind, identity, scopeId⟩).1 },
   (D.globalBindings.fire ⟨kind⟩).2 ++ (D.entryBindings.fire ⟨kind, entryId⟩).2 ++
     (D.uniqueBindings.fire ⟨kind, identity, scopeId⟩).2)

/-! ## Unit methods (`UnitMethods.h`) -/

/-- Modelled from the spec: `Eluna::CHECKVAL<int>(L, narg, def)`: the default when the
argument is absent or `nil` ("@param int type = -1"), the checked argument otherwise. -/
def CHECKVAL_int_or (narg : Int) (dflt : Int) : LuaM Int := do
  if (← lua_isnoneornil narg) then pure dflt else CHECKVAL_int narg

/-- `MAX_POWERS` of `enum Powers`, as listed in the doc comment of `GetPower`
(UnitMethods.h:802). -/
def MAX_POWERS : Nat := 7

/-- The operations of the server's `Unit` that the power bindings call, on a unit of type
`U`; a power type (`enum Powers`) is its number.  They belong to the server core, not to
this repository, so the bindings take them as a parameter.  `percent p m` stands for the
single-precision value `((float)p / (float)m) * 100.0f` as pushed to Lua. -/
structure UnitPowers (U : Type) where
  getPowerType : U → Nat
  GetPower : U → Nat → Nat
  GetMaxPower : U → Nat → Nat
  SetPower : U → Nat → Nat → U
  ModifyPower : U → Nat → Int → U
  SetMaxPower : U → Nat → Nat → U
  percent : Nat → Nat → LuaValue

namespace LuaUnit

section Powers

variable {U : Type} (unitApi : UnitPowers U)

/-- `LuaUnit::PowerSelectorHelper` (UnitMethods.h:779). -/
def PowerSelectorHelper (unit : U) (powerType : Int) : LuaM Nat := do
  if powerType = -1 then
    pure (unitApi.getPowerType unit)
  else do
    if powerType < 0 ∨ powerType ≥ (MAX_POWERS : Int) then
      (luaL_argerror 2 "valid Powers expected" : LuaM Unit)
    pure powerType.toNat

/-- `LuaUnit::GetPower` (UnitMethods.h:810). -/
def GetPower (unit : U) : LuaM Nat := do
  let type ← CHECKVAL_int_or 2 (-1)
  let power ← PowerSelectorHelper unitApi unit type
  Push (.number (unitApi.GetPower unit power))
  pure 1

/-- `LuaUnit::GetMaxPower` (UnitMethods.h:839). -/
def GetMaxPower (unit : U) : LuaM Nat := do
  let type ← CHECKVAL_int_or 2 (-1)
  let power ← PowerSelectorHelper unitApi unit type
  Push (.number (unitApi.GetMaxPower unit power))
  pure 1

/-- `LuaUnit::GetPowerPct` (UnitMethods.h:868). -/
def GetPowerPct (unit : U) : LuaM Nat := do
  let type ← CHECKVAL_int_or 2 (-1)
  let power ← PowerSelectorHelper unitApi unit type
  let percent := unitApi.percent (unitApi.GetPower unit power) (unitApi.GetMaxPower unit power)
  Push percent
  pure 1

/-- `LuaUnit::SetPower` (UnitMethods.h:1544); returns the result count and the unit as the
call leaves it. -/
def SetPower (unit : U) : LuaM (Nat × U) := do
  let amt ← CHECKVAL_uint32 2
  let type ← CHECKVAL_int_or 3 (-1)
  let power ← PowerSelectorHelper unitApi unit type
  pure (0, unitApi.SetPower unit power amt)

/-- `LuaUnit::ModifyPower` (UnitMethods.h:1574); `int32` is read like `int`. -/
def ModifyPower (unit : U) : LuaM (Nat × U) := do
  let amt ← CHECKVAL_int 2
  let type ← CHECKVAL_int_or 3 (-1)
  let power ← PowerSelectorHelper unitApi unit type
  pure (0, unitApi.ModifyPower unit power amt)

/-- `LuaUnit::SetMaxPower` (UnitMethods.h:1604). -/
def SetMaxPower (unit : U) : LuaM (Nat × U) := do
  let type ← CHECKVAL_int_or 2 (-1)
  let amt ← CHECKVAL_uint32 3
  let power ← PowerSelectorHelper unitApi unit type
  pure (0, unitApi.SetMaxPower unit power amt)

end Powers

end LuaUnit

/-- A unit for the examples: its power type and its seven power amounts and maxima. -/
structure SampleUnit where
  powerType : Nat
  power : List Nat
  maxPower : List Nat
  deriving DecidableEq, Repr

/-- The power operations on the example unit: plain reads and writes of the amounts. -/
def sampleUnitPowers : UnitPowers SampleUnit where
  getPowerType := fun u => u.powerType
  GetPower := fun u p => u.power.getD p 0
  GetMaxPower := fun u p => u.maxPower.getD p 0
  SetPower := fun u p amt => { u with power := u.power.set p amt }
  ModifyPower := fun u p amt =>
    { u with power := u.power.set p ((u.power.getD p 0 : Int) + amt).toNat }
  SetMaxPower := fun u p amt => { u with maxPower := u.maxPower.set p amt }
  percent := fun p m => .number ((p * 100 : Nat) / (m : Int))

/-- A rogue-like unit: power type 3 (energy), 60 of 100 energy, 0 of 50 mana. -/
def sampleUnit : SampleUnit :=
  { powerType := 3, power := [0, 0, 0, 60, 0, 0, 0], maxPower := [50, 0, 0, 100, 0, 0, 0] }

/-! ## Bit operations (`GlobalMethods.h`) -/

/-- The C++ `~a` on a `uint32`: each of the 32 bits flipped. -/
def not32 (a : Nat) : Nat := a ^^^ 4294967295

/-- The C++ `a << b` on `uint32` operands: the bits shifted out at the top are lost.  C++
defines no result for a count that is not less than the width of the left operand, 32
bits here; that case is `none`. -/
def shl32 (a b : Nat) : Option Nat :=
  if b < 32 then some ((a <<< b) % 4294967296) else none

/-- The C++ `a >> b` on `uint32` operands; `none` for a count of 32 or more, for which
C++ defines no result. -/
def shr32 (a b : Nat) : Option Nat :=
  if b < 32 then some (a >>> b) else none

namespace LuaGlobalFunctions

/-- `LuaGlobalFunctions::bit_and` (GlobalMethods.h:2104). -/
def bit_and : LuaM Nat := do
  let a ← CHECKVAL_uint32 1
  let b ← CHECKVAL_uint32 2
  Push (.number ((a &&& b : Nat) : Int))
  pure 1

/-- `LuaGlobalFunctions::bit_or` (GlobalMethods.h:2119). -/
def bit_or : LuaM Nat := do
  let a ← CHECKVAL_uint32 1
  let b ← CHECKVAL_uint32 2
  Push (.number ((a ||| b : Nat) : Int))
  pure 1

/-- `LuaGlobalFunctions::bit_lshift` (GlobalMethods.h:2134).  The count `b` goes into
`a << b` unchecked, so a run has an outcome only where that shift has a result. -/
def bit_lshift (L : lua_State) : Option (Outcome Nat) :=
  match CHECKVAL_uint32 1 L with
  | .raised e L1 => some (.raised e L1)
  | .ok a L1 =>
    match CHECKVAL_uint32 2 L1 with
    | .raised e L2 => some (.raised e L2)
    | .ok b L2 =>
      match shl32 a b with
      | none => none
      | some r => some ((do Push (.number (r : Int)); pure 1 : LuaM Nat) L2)

/-- `LuaGlobalFunctions::bit_rshift` (GlobalMethods.h:2149).  The count `b` goes into
`a >> b` unchecked, so a run has an outcome only where that shift has a result. -/
def bit_rshift (L : lua_State) : Option (Outcome Nat) :=
  match CHECKVAL_uint32 1 L with
  | .raised e L1 => some (.raised e L1)
  | .ok a L1 =>
    match CHECKVAL_uint32 2 L1 with
    | .raised e L2 => some (.raised e L2)
    | .ok b L2 =>
      match shr32 a b with
      | none => none
      | some r => some ((do Push (.number (r : Int)); pure 1 : LuaM Nat) L2)

/-- `LuaGlobalFunctions::bit_xor` (GlobalMethods.h:2164). -/
def bit_xor : LuaM Nat := do
  let a ← CHECKVAL_uint32 1
  let b ← CHECKVAL_uint32 2
  Push (.number ((a ^^^ b : Nat) : Int))
  pure 1

/-- `LuaGlobalFunctions::bit_not` (GlobalMethods.h:2178). -/
def bit_not : LuaM Nat := do
  let a ← CHECKVAL_uint32 1
  Push (.number (not32 a : Int))
  pure 1

end LuaGlobalFunctions

/-! ## Player methods (`PlayerMethods.h`) -/

/-- The C++ `a - b` on `uint32` operands: the difference modulo 2^32. -/
def sub32 (a b : Nat) : Nat := (a + 4294967296 - b) % 4294967296

/-- The part of the server's `Player` that `RemoveLifetimeKills` works on: the `uint32`
update fields of the object, by field index. -/
structure Player where
  m_uint32Values : Nat → Nat

/-- `Object::GetUInt32Value(index)` of the server. -/
def Player.GetUInt32Value (player : Player) (index : Nat) : Nat :=
  player.m_uint32Values index

/-- `Object::SetUInt32Value(index, value)` of the server: stores the value in the field
and leaves the other fields alone. -/
def Player.SetUInt32Value (player : Player) (index : Nat) (value : Nat) : Player :=
  { m_uint32Values := fun i => if i = index then value % 4294967296
                               else player.m_uint32Values i }

namespace LuaPlayer

/-- `LuaPlayer::RemoveLifetimeKills` (PlayerMethods.h:3294); returns the result count and
the player as the call leaves it.  The field index
`PLAYER_FIELD_LIFETIME_HONORABLE_KILLS` is a constant of the server and is passed in. -/
def RemoveLifetimeKills (PLAYER_FIELD_LIFETIME_HONORABLE_KILLS : Nat) (player : Player) :
    LuaM (Nat × Player) := do
  let val ← CHECKVAL_uint32 2
  let currentKills := player.GetUInt32Value PLAYER_FIELD_LIFETIME_HONORABLE_KILLS
  let val := if val > currentKills then currentKills else val
  pure (0, player.SetUInt32Value PLAYER_FIELD_LIFETIME_HONORABLE_KILLS
    (sub32 currentKills val))

end LuaPlayer

/-- A player whose field 1175 holds 3 and whose other fields hold 0. -/
def samplePlayer : Player :=
  { m_uint32Values := fun i => if i = 1175 then 3 else 0 }

/-! ## Mail (`GlobalMethods.h`) -/

/-- `luaL_error(L, fmt, ...)` with the message already formatted: never returns. -/
def luaL_error {α : Type} (msg : String) : LuaM α :=
  fun L => .raised (.error msg) L

/-- `lua_gettop(L)`: the number of values on the stack. -/
def lua_gettop : LuaM Int := fun L => .ok (L.stack.length : Int) L

/-- Modelled from the spec: `Eluna::CHECKVAL<std::string>(L, narg)` (declared in
`LuaEngine.h`, which is not among the sources): reads a string argument and raises an
argument error when the argument is missing or is not a string. -/
def CHECKVAL_string (narg : Int) : LuaM String := fun L =>
  match slot L narg with
  | some (.string s) => .ok s L
  | v => .raised (.argerror narg ("string expected, got " ++ lua_typename (typeOf v))) L

/-- How `%d` in a `luaL_error` format prints a `uint32` argument: as the `int` with the
same 32 bits. -/
def formatInt (n : Nat) : String :=
  if n < 2147483648 then toString n else toString ((n : Int) - 4294967296)

/-- Modelled from the spec: `MAX_MAIL_ITEMS` of the server's mail header, which is not
among the sources; 12, the maximum that the doc comment of `SendMail` gives ("There can
be maximum of 12 different items"). -/
def MAX_MAIL_ITEMS : Nat := 12

/-- `MAIL_STATIONERY_DEFAULT` of `enum MailStationery`, as listed in the doc comment of
`SendMail` (GlobalMethods.h:2023). -/
def MAIL_STATIONERY_DEFAULT : Nat := 41

/-- The field of the server's `ItemTemplate` that `SendMail` reads. -/
structure ItemTemplate where
  MaxCount : Int
  deriving DecidableEq, Repr

/-- An `Item` of the server as `SendMail` sees it: the counter of its GUID, its entry and
its stack count. -/
structure Item where
  guidCounter : Nat
  entry : Nat
  count : Nat
  deriving DecidableEq, Repr

/-- The server's `MailSender(MAIL_NORMAL, senderGUIDLow, stationery)`. -/
structure MailSender where
  senderGUIDLow : Nat
  stationery : Nat
  deriving DecidableEq, Repr

/-- The server's `MailDraft`: subject, body, money, cash on delivery and the items added,
in the order they were added. -/
structure MailDraft where
  subject : String
  text : String
  money : Nat
  COD : Nat
  items : List Item
  deriving DecidableEq, Repr

/-- `MailDraft::AddCOD`. -/
def MailDraft.AddCOD (draft : MailDraft) (cod : Nat) : MailDraft := { draft with COD := cod }

/-- `MailDraft::AddMoney`. -/
def MailDraft.AddMoney (draft : MailDraft) (money : Nat) : MailDraft :=
  { draft with money := money }

/-- `MailDraft::AddItem`. -/
def MailDraft.AddItem (draft : MailDraft) (item : Item) : MailDraft :=
  { draft with items := draft.items ++ [item] }

/-- The operations of the server that `SendMail` calls, on a server state of type `W`:
`eObjectMgr->GetItemTemplate(entry)`, `Item::CreateItem(entry, amount)`, which may fail,
and `draft.SendMailTo(trans, MailReceiver(receiverPlayer, receiverGUIDLow), sender,
MAIL_CHECK_MASK_NONE, delay)`.  They belong to the server core, not to this repository,
so the binding takes them as a parameter; the database transaction around them is not
modelled. -/
structure MailServer (W : Type) where
  GetItemTemplate : Nat → Option ItemTemplate
  CreateItem : W → Nat → Nat → Option Item × W
  SendMailTo : W → MailDraft → Nat → MailSender → Nat → W

namespace LuaGlobalFunctions

section Mail

variable {W : Type} (server : MailServer W)

/-- The `while` loop of `LuaGlobalFunctions::SendMail` (GlobalMethods.h:2066), from the
loop variables `i`, `addedItems`, the draft and the server state.  A round moves `i` on by
2 and runs only while `i + 2 <= argAmount`, so the loop makes fewer than `argAmount`
rounds; the first argument counts the rounds that remain and starts at `argAmount`. -/
def SendMail_loop (argAmount : Int) :
    Nat → Int → Nat → MailDraft → W → LuaM (Nat × MailDraft × W)
  | 0, _, addedItems, draft, world => pure (addedItems, draft, world)
  | rounds + 1, i, addedItems, draft, world => do
    if addedItems ≤ MAX_MAIL_ITEMS ∧ i + 2 ≤ argAmount then
      let entry ← CHECKVAL_uint32 (i + 1)
      let amount ← CHECKVAL_uint32 (i + 2)
      match server.GetItemTemplate entry with
      | none => luaL_error ("Item entry " ++ formatInt entry ++ " does not exist")
      | some item_proto =>
        if amount < 1 ∨ (item_proto.MaxCount > 0 ∧ (amount : Int) > item_proto.MaxCount) then
          luaL_error ("Item entry " ++ formatInt entry ++ " has invalid amount " ++
            formatInt amount)
        else
          match server.CreateItem world entry amount with
          | (some item, world1) => do
            Push (.number item.guidCounter)
            SendMail_loop argAmount rounds (i + 2) (addedItems + 1) (draft.AddItem item) world1
          | (none, world1) =>
            SendMail_loop argAmount rounds (i + 2) addedItems draft world1
    else
      pure (addedItems, draft, world)

/-- `LuaGlobalFunctions::SendMail` (GlobalMethods.h:2043); returns the result count and
the server state as the call leaves it. -/
def SendMail (world : W) : LuaM (Nat × W) := do
  let subject ← CHECKVAL_string 1
  let text ← CHECKVAL_string 2
  let receiverGUIDLow ← CHECKVAL_uint32 3
  let senderGUIDLow ← CHECKVAL_uint32_or 4 0
  let stationary ← CHECKVAL_uint32_or 5 MAIL_STATIONERY_DEFAULT
  let delay ← CHECKVAL_uint32_or 6 0
  let money ← CHECKVAL_uint32_or 7 0
  let cod ← CHECKVAL_uint32_or 8 0
  let argAmount ← lua_gettop
  let sender : MailSender := { senderGUIDLow := senderGUIDLow, stationery := stationary }
  let draft : MailDraft := { subject := subject, text := text, money := 0, COD := 0, items := [] }
  let draft := if cod ≠ 0 then draft.AddCOD cod else draft
  let draft := if money ≠ 0 then draft.AddMoney money else draft
  let (addedItems, draft, world) ← SendMail_loop server argAmount argAmount.toNat 8 0 draft world
  pure (addedItems, server.SendMailTo world draft receiverGUIDLow sender delay)

end Mail

end LuaGlobalFunctions

/-- A server state for the examples: the counter of the next item GUID and the mails
sent so far. -/
structure SampleWorld where
  nextItemGuid : Nat
  outbox : List MailDraft
  deriving DecidableEq, Repr

/-- A server for the examples: every entry has a template without a count limit, item
creation always succeeds and hands out the next GUID, and a sent draft lands in the
outbox. -/
def sampleMailServer : MailServer SampleWorld where
  GetItemTemplate := fun _ => some { MaxCount := 0 }
  CreateItem := fun w entry amount =>
    (some { guidCounter := w.nextItemGuid, entry := entry, count := amount },
      { w with nextItemGuid := w.nextItemGuid + 1 })
  SendMailTo := fun w draft _ _ _ => { w with outbox := w.outbox ++ [draft] }

/-- The fixed arguments of a `SendMail` call followed by the pairs `(entry, 1)` for the
given entries. -/
def mailCall (entries : List Nat) : lua_State :=
  idleCall ([.string "subject", .string "text", .number 1, .number 0, .number 41, .number 0,
      .number 0, .number 0] ++
    entries.flatMap fun entry => [.number entry, .number 1])

/-! ## Map entrance (`GlobalMethods.h`) -/

/-- The fields of the server's `AreaTriggerTeleport` that `GetMapEntrance` reads, on
integer coordinates. -/
structure AreaTriggerTeleport where
  target_X : Int
  target_Y : Int
  target_Z : Int
  target_Orientation : Int
  deriving DecidableEq, Repr

namespace LuaGlobalFunctions

/-- `LuaGlobalFunctions::GetMapEntrance` (GlobalMethods.h:3374).  The lookup
`sObjectMgr->GetMapEntranceTrigger(mapId)` belongs to the server and is passed in. -/
def GetMapEntrance (GetMapEntranceTrigger : Nat → Option AreaTriggerTeleport) : LuaM Nat := do
  let mapId ← CHECKVAL_uint32 1
  match GetMapEntranceTrigger mapId with
  | none => do
    Push .nil
    pure 1
  | some trigger => do
    Push (.number trigger.target_X)
    Push (.number trigger.target_Y)
    Push (.number trigger.target_Z)
    Push (.number trigger.target_Orientation)
    pure 5

end LuaGlobalFunctions

/-! ## Bans (`GlobalMethods.h`) -/

/-- Modelled from the spec: `Eluna::CHECKVAL<const char*>(L, narg, def)`: the default when
the argument is absent or `nil` ("@param string reason = """), the checked string
argument otherwise. -/
def CHECKVAL_string_or (narg : Int) (dflt : String) : LuaM String := do
  if (← lua_isnoneornil narg) then pure dflt else CHECKVAL_string narg

/-- The server's `enum BanReturn`, with the enumerators that the `switch` of `Ban` names. -/
inductive BanReturn where
  | BAN_SUCCESS
  | BAN_SYNTAX_ERROR
  | BAN_NOTFOUND
  | BAN_LONGER_EXISTS
  deriving DecidableEq, Repr

/-- The operations of the server that `Ban` calls, on a server state of type `W`.
`Utf8ToUpperOnlyLatin` and `normalizePlayerName` rewrite the name in place and report
whether they could: here they give the rewritten name, or `none`.  `BanAccount`,
`BanCharacter` and `BanIP` are those of `sBan`, with the target, the duration string, the
reason and the author. -/
structure BanServer (W : Type) where
  Utf8ToUpperOnlyLatin : String → Option String
  normalizePlayerName : String → Option String
  IsIPAddress : String → Bool
  BanAccount : W → String → String → String → String → BanReturn × W
  BanCharacter : W → String → String → String → String → BanReturn × W
  BanIP : W → String → String → String → String → BanReturn × W

/-- `BAN_ACCOUNT` of `enum BanMode` at the head of the file (GlobalMethods.h:20).  `Ban`
declares constants of the same three names with the values 0, 1 and 2, which hide these
enumerators inside it. -/
def BAN_ACCOUNT : Int := 1

/-- `BAN_CHARACTER` of `enum BanMode` (GlobalMethods.h:20). -/
def BAN_CHARACTER : Int := 2

/-- `BAN_IP` of `enum BanMode` (GlobalMethods.h:20). -/
def BAN_IP : Int := 3

namespace LuaGlobalFunctions

section Bans

variable {W : Type} (server : BanServer W)

/-- `LuaGlobalFunctions::Ban` (GlobalMethods.h:1945); returns the result count and the
server state as the call leaves it.  The second `switch` has no `default`: `result` is
`none` where no case assigns it. -/
def Ban (world : W) : LuaM (Nat × W) := do
  let banMode ← CHECKVAL_int 1
  let nameOrIP ← CHECKVAL_string 2
  let duration ← CHECKVAL_uint32 3
  let reason ← CHECKVAL_string_or 4 ""
  let whoBanned ← CHECKVAL_string_or 5 ""
  let BAN_ACCOUNT : Int := 0
  let BAN_CHARACTER : Int := 1
  let BAN_IP : Int := 2
  let nameOrIP ←
    (if banMode = BAN_ACCOUNT then
      match server.Utf8ToUpperOnlyLatin nameOrIP with
      | some name => pure name
      | none => luaL_argerror 2 "invalid account name"
    else if banMode = BAN_CHARACTER then
      match server.normalizePlayerName nameOrIP with
      | some name => pure name
      | none => luaL_argerror 2 "invalid character name"
    else if banMode = BAN_IP then
      if server.IsIPAddress nameOrIP then pure nameOrIP else luaL_argerror 2 "invalid ip"
    else
      luaL_argerror 1 "unknown banmode" : LuaM String)
  let (result, world) : Option BanReturn × W :=
    if banMode = BAN_ACCOUNT then
      let r := server.BanAccount world nameOrIP (toString duration ++ "s") reason whoBanned
      (some r.1, r.2)
    else if banMode = BAN_CHARACTER then
      let r := server.BanCharacter world nameOrIP (toString duration ++ "s") reason whoBanned
      (some r.1, r.2)
    else if banMode = BAN_IP then
      let r := server.BanIP world nameOrIP (toString duration ++ "s") reason whoBanned
      (some r.1, r.2)
    else (none, world)
  match result with
  | some .BAN_SUCCESS => Push (.number 0)
  | some .BAN_SYNTAX_ERROR => Push (.number 1)
  | some .BAN_NOTFOUND => Push (.number 2)
  | some .BAN_LONGER_EXISTS => Push (.number 3)
  | none => pure ()
  pure (1, world)

end Bans

end LuaGlobalFunctions

/-- A server state for the examples: the bans issued so far, each with its kind (0
account, 1 character, 2 IP), target and duration string. -/
structure SampleBans where
  issued : List (Nat × String × String)
  deriving DecidableEq, Repr

/-- A server for the examples: the account name "bob" is rewritten to "BOB", other names
and addresses are taken as they are unless empty, and a ban succeeds unless its target is
"nobody", which is not found; every ban that is attempted is recorded. -/
def sampleBanServer : BanServer SampleBans where
  Utf8ToUpperOnlyLatin := fun s =>
    if s = "bob" then some "BOB" else if s = "" then none else some s
  normalizePlayerName := fun s => if s = "" then none else some s
  IsIPAddress := fun s => s ≠ ""
  BanAccount := fun w name dur _ _ =>
    (if name = "nobody" then .BAN_NOTFOUND else .BAN_SUCCESS,
      { issued := w.issued ++ [(0, name, dur)] })
  BanCharacter := fun w name dur _ _ =>
    (if name = "nobody" then .BAN_NOTFOUND else .BAN_SUCCESS,
      { issued := w.issued ++ [(1, name, dur)] })
  BanIP := fun w name dur _ _ =>
    (.BAN_SUCCESS, { issued := w.issued ++ [(2, name, dur)] })

/-! ## Threat and spell casts (`UnitMethods.h`) -/

/-- Modelled from the spec: `Eluna::CHECKOBJ<Unit>(L, narg)` (declared in `LuaEngine.h`,
which is not among the sources): reads an object argument, a userdata that stands for
the server's `Unit`, and raises an argument error when the argument is missing or is
not such an object. -/
def CHECKOBJ_Unit (narg : Int) : LuaM Nat := fun L =>
  match slot L narg with
  | some (.userdata u) => .ok u L
  | v => .raised (.argerror narg ("Unit expected, got " ++ lua_typename (typeOf v))) L

/-- Modelled from the spec: `Eluna::CHECKOBJ<Unit>(L, narg, false)`: the object argument,
or no object (`NULL`) when the argument is missing or is not such an object
("@param [Unit] target = nil"). -/
def CHECKOBJ_Unit_or_null (narg : Int) : LuaM (Option Nat) := fun L =>
  match slot L narg with
  | some (.userdata u) => .ok (some u) L
  | _ => .ok none L

/-- Modelled from the spec: `Eluna::CHECKVAL<float>(L, narg)`, on integer numbers: reads a
number argument and raises an argument error when the argument is missing or is not a
number. -/
def CHECKVAL_float (narg : Int) : LuaM Int := luaL_checknumber narg

/-- Modelled from the spec: `Eluna::CHECKVAL<float>(L, narg, def)`: the default when the
argument is absent or `nil`, the checked argument otherwise. -/
def CHECKVAL_float_or (narg : Int) (dflt : Int) : LuaM Int := do
  if (← lua_isnoneornil narg) then pure dflt else CHECKVAL_float narg

/-- The server's `SpellInfo`, by the entry of the spell. -/
structure SpellInfo where
  Id : Nat
  deriving DecidableEq, Repr

/-- The operations of the server that the threat and cast bindings call, on a unit of
type `U`; another unit is the number of its userdata.  `GetSpellInfo` is
`sSpellMgr->GetSpellInfo(spell)`, `AddThreat` is `unit->AddThreat(victim, threat,
schoolMask, spellInfo)`, `CastSpell` is `unit->CastSpell(target, spell, triggered)` and
`CastSpellAt` is the overload `unit->CastSpell(x, y, z, spell, triggered)`. -/
structure UnitCombat (U : Type) where
  GetSpellInfo : Nat → Option SpellInfo
  AddThreat : U → Nat → Int → Nat → Option SpellInfo → U
  CastSpell : U → Option Nat → Nat → Bool → U
  CastSpellAt : U → Int → Int → Int → Nat → Bool → U

namespace LuaUnit

section Combat

variable {U : Type} (unitApi : UnitCombat U)

/-- `LuaUnit::CastSpell` (UnitMethods.h:2267); returns the result count and the unit as
the call leaves it. -/
def CastSpell (unit : U) : LuaM (Nat × U) := do
  let target ← CHECKOBJ_Unit_or_null 2
  let spell ← CHECKVAL_uint32 3
  let triggered ← CHECKVAL_bool_or 4 false
  match unitApi.GetSpellInfo spell with
  | none => pure (0, unit)
  | some _ => pure (0, unitApi.CastSpell unit target spell triggered)

/-- `LuaUnit::CastSpellAoF` (UnitMethods.h:2320). -/
def CastSpellAoF (unit : U) : LuaM (Nat × U) := do
  let _x ← CHECKVAL_float 2
  let _y ← CHECKVAL_float 3
  let _z ← CHECKVAL_float 4
  let spell ← CHECKVAL_uint32 5
  let triggered ← CHECKVAL_bool_or 6 true
  pure (0, unitApi.CastSpellAt unit _x _y _z spell triggered)

/-- `LuaUnit::AddThreat` (UnitMethods.h:2620).  The default `true` of the threat is the
number 1; `SPELL_SCHOOL_MASK_ALL` is a constant of the server and is passed in. -/
def AddThreat (SPELL_SCHOOL_MASK_ALL : Nat) (unit : U) : LuaM (Nat × U) := do
  let victim ← CHECKOBJ_Unit 2
  let threat ← CHECKVAL_float_or 3 1
  let spell ← CHECKVAL_uint32_or 4 0
  let schoolMask ← CHECKVAL_uint32_or 5 0
  if schoolMask > SPELL_SCHOOL_MASK_ALL then
    (luaL_argerror 4 "valid SpellSchoolMask expected" : LuaM Unit)
  pure (0, unitApi.AddThreat unit victim threat schoolMask
    (if spell ≠ 0 then unitApi.GetSpellInfo spell else none))

end Combat

end LuaUnit

/-- A unit for the examples: the threat it has taken, as (victim, threat, school mask,
spell), and the spells it has cast, as (spell, triggered). -/
structure SampleFighter where
  threats : List (Nat × Int × Nat × Option SpellInfo)
  casts : List (Nat × Bool)
  deriving DecidableEq, Repr

/-- The threat and cast operations on the example unit: every spell entry has a
`SpellInfo`, and each operation is recorded. -/
def sampleUnitCombat : UnitCombat SampleFighter where
  GetSpellInfo := fun spell => some { Id := spell }
  AddThreat := fun u victim threat schoolMask spellInfo =>
    { u with threats := u.threats ++ [(victim, threat, schoolMask, spellInfo)] }
  CastSpell := fun u _ spell triggered => { u with casts := u.casts ++ [(spell, triggered)] }
  CastSpellAt := fun u _ _ _ spell triggered =>
    { u with casts := u.casts ++ [(spell, triggered)] }

/-! # Theorems -/

open LuaGlobalFunctions

/-! ## Evaluation lemmas for the Lua primitives -/

@[simp] theorem LuaM.pure_apply {α : Type} (a : α) (L : lua_State) :
    (pure a : LuaM α) L = .ok a L := rfl

@[simp] theorem LuaM.bind_apply {α β : Type} (m : LuaM α) (f : α → LuaM β) (L : lua_State) :
    (m >>= f) L = match m L with
      | .ok a L1 => f a L1
      | .raised e L1 => .raised e L1 := rfl

theorem slot_mk (st : List LuaValue) (R : LuaRegistry) (E : Eluna) (i : Int) :
    slot { stack := st, registry := R, eluna := E } i = stackAt st i := rfl

theorem stackAt_pos_lt {st : List LuaValue} {i : Int} {v : LuaValue} (hi : 0 < i)
    (h : stackAt st i = some v) : i.toNat - 1 < st.length := by
  unfold stackAt at h
  rw [if_pos hi] at h
  exact (List.get?_eq_some.mp h).1

/-- Values pushed on top leave the slots below them as they are. -/
theorem stackAt_append {st : List LuaValue} {i : Int} (ys : List LuaValue) (hi : 0 < i)
    (h : (stackAt st i).isSome) : stackAt (st ++ ys) i = stackAt st i := by
  obtain ⟨v, hv⟩ := Option.isSome_iff_exists.mp h
  have hlt := stackAt_pos_lt hi hv
  unfold stackAt
  rw [if_pos hi, if_pos hi]
  simp only [List.get?_eq_getElem?]
  exact List.getElem?_append_left hlt

/-- Index -1 is the top of the stack. -/
theorem stackAt_neg_one (st : List LuaValue) : stackAt st (-1) = st.getLast? := by
  unfold stackAt
  rcases st with _ | ⟨a, st⟩
  · simp
  · simp [List.getLast?_eq_getElem?]

theorem take_length_succ_append (xs : List LuaValue) (a : LuaValue) (ys : List LuaValue) :
    List.take (xs.length + 1) (xs ++ a :: ys) = xs ++ [a] := by
  induction xs with
  | nil => simp
  | cons x xs ih => simpa using ih

@[simp] theorem LuaM.ite_apply {α : Type} (c : Prop) [Decidable c] (a b : LuaM α)
    (L : lua_State) : (if c then a else b) L = if c then a L else b L := by
  split <;> rfl

theorem natCast_not_neg (n : Nat) : ¬ ((n : Int) < 0) := by omega

theorem luaL_argerror_apply {α : Type} (narg : Int) (msg : String) (L : lua_State) :
    (luaL_argerror narg msg : LuaM α) L = .raised (.argerror narg msg) L := rfl

/-- What `CHECKVAL<uint32>(L, narg)` returns, by the argument it finds. -/
theorem CHECKVAL_uint32_apply (narg : Int) (L : lua_State) :
    CHECKVAL_uint32 narg L =
      match slot L narg with
      | some (.number n) =>
        if n < 0 then
          .raised (.argerror narg "value must be greater than or equal to 0") L
        else if 4294967295 < n then
          .raised (.argerror narg "value must be less than or equal to 4294967295") L
        else .ok n.toNat L
      | v => .raised (.argerror narg ("number expected, got " ++ lua_typename (typeOf v))) L := by
  simp only [CHECKVAL_uint32, luaL_checknumber, LuaM.bind_apply]
  generalize slot L narg = s
  rcases s with _ | v
  · rfl
  · cases v <;> simp [luaL_argerror_apply]

/-- What `CHECKVAL<uint32>(L, narg, def)` returns, by the argument it finds. -/
theorem CHECKVAL_uint32_or_apply (narg : Int) (dflt : Nat) (L : lua_State) :
    CHECKVAL_uint32_or narg dflt L =
      match slot L narg with
      | none => .ok dflt L
      | some .nil => .ok dflt L
      | _ => CHECKVAL_uint32 narg L := by
  simp only [CHECKVAL_uint32_or, lua_isnoneornil, LuaM.bind_apply]
  generalize hs : slot L narg = s
  rcases s with _ | v
  · rfl
  · cases v <;> simp

theorem ref_function_nonneg (R : LuaRegistry) (f : Nat) : 0 ≤ (R.ref (.function f)).2 := by
  unfold LuaRegistry.ref
  rcases R.freeList with _ | ⟨r, rest⟩
  · simp
    omega
  · simp

theorem ref_function_ne_refnil (R : LuaRegistry) (f : Nat) :
    (R.ref (.function f)).2 ≠ LUA_REFNIL := by
  have h := ref_function_nonneg R f
  unfold LUA_REFNIL
  omega

theorem ref_function_ne_noref (R : LuaRegistry) (f : Nat) :
    (R.ref (.function f)).2 ≠ LUA_NOREF := by
  have h := ref_function_nonneg R f
  unfold LUA_NOREF
  omega

/-- The default-taking reader returns a value or raises, and leaves the state alone. -/
theorem CHECKVAL_uint32_or_cases (narg : Int) (dflt : Nat) (L : lua_State) :
    (∃ v, CHECKVAL_uint32_or narg dflt L = .ok v L) ∨
    (∃ msg, CHECKVAL_uint32_or narg dflt L = .raised (.argerror narg msg) L) := by
  rw [CHECKVAL_uint32_or_apply, CHECKVAL_uint32_apply]
  rcases slot L narg with _ | v
  · exact Or.inl ⟨_, rfl⟩
  · cases v <;> simp
    split_ifs <;> simp

/-- `CreateLuaEvent` on a function and a delay table, by what the repeats argument
reads as. -/
theorem CreateLuaEvent_table_apply (L : lua_State) (f min max : Nat) (more : List LuaField)
    (hf : slot L 1 = some (.function f))
    (ht : slot L 2 = some (.table (.number min :: .number max :: more)))
    (hmin : min ≤ 4294967295) (hmax : max ≤ 4294967295) :
    CreateLuaEvent L =
      match CHECKVAL_uint32_or 3 1 L with
      | .ok repeats _ =>
        if max < min then .raised (.argerror 2 "min is bigger than max delay") L
        else .ok 1
          { stack := L.stack ++ [.number (L.registry.ref (.function f)).2]
            registry := (L.registry.ref (.function f)).1
            eluna := { L.eluna with eventMgr := { L.eluna.eventMgr with
              globalProcessor := L.eluna.eventMgr.globalProcessor.AddEvent
                (L.registry.ref (.function f)).2 min max repeats } } }
      | .raised e _ => .raised e L := by
  obtain ⟨st, R, E⟩ := L
  rw [slot_mk] at hf ht
  rcases CHECKVAL_uint32_or_cases 3 1 ⟨st, R, E⟩ with ⟨v, hv⟩ | ⟨msg, hv⟩ <;>
  by_cases h : max < min <;>
  simp [CreateLuaEvent, luaL_checktype, slot_mk, hf, ht, typeOf, lua_istable, Push, lua_gettable,
      CHECKVAL_uint32_apply, lua_pop, hv, luaL_argerror_apply,
      LuaField.toValue, stackAt_neg_one, stackAt_append, Nat.not_lt.mpr hmin, Nat.not_lt.mpr hmax,
      h, natCast_not_neg, take_length_succ_append, lua_pushvalue, luaL_ref, modifyEluna,
      ref_function_ne_refnil, ref_function_ne_noref]

/-- `CreateLuaEvent` on a function and a single delay, by what the repeats argument
reads as. -/
theorem CreateLuaEvent_number_apply (L : lua_State) (f d : Nat)
    (hf : slot L 1 = some (.function f))
    (hd : slot L 2 = some (.number d)) (hmax : d ≤ 4294967295) :
    CreateLuaEvent L =
      match CHECKVAL_uint32_or 3 1 L with
      | .ok repeats _ =>
        .ok 1
          { stack := L.stack ++ [.number (L.registry.ref (.function f)).2]
            registry := (L.registry.ref (.function f)).1
            eluna := { L.eluna with eventMgr := { L.eluna.eventMgr with
              globalProcessor := L.eluna.eventMgr.globalProcessor.AddEvent
                (L.registry.ref (.function f)).2 d d repeats } } }
      | .raised e _ => .raised e L := by
  obtain ⟨st, R, E⟩ := L
  rw [slot_mk] at hf hd
  rcases CHECKVAL_uint32_or_cases 3 1 ⟨st, R, E⟩ with ⟨v, hv⟩ | ⟨msg, hv⟩ <;>
  simp [CreateLuaEvent, luaL_checktype, slot_mk, hf, hd, typeOf, lua_istable, Push,
      CHECKVAL_uint32_apply, hv, luaL_argerror_apply,
      stackAt_neg_one, stackAt_append, Nat.not_lt.mpr hmax,
      natCast_not_neg, lua_pushvalue, luaL_ref, modifyEluna,
      ref_function_ne_refnil, ref_function_ne_noref]

/-- C1: `CreateLuaEvent` called with a function and a delay table `{min, max}` with
`min > max` raises and leaves the state as it was, so no reference to the callback is
created and no event is added to any processor; with a well-formed repeats argument
(absent, `nil` or an unsigned 32-bit number) the error is the argument error
"min is bigger than max delay". -/
theorem CreateLuaEvent_rejects_min_above_max (L : lua_State) (f min max : Nat)
    (more : List LuaField)
    (hf : slot L 1 = some (.function f))
    (ht : slot L 2 = some (.table (.number min :: .number max :: more)))
    (hmin : min ≤ 4294967295) (hmax : max ≤ 4294967295) (h : max < min) :
    ((slot L 3 = none ∨ slot L 3 = some .nil ∨
        ∃ r : Nat, slot L 3 = some (.number r) ∧ r ≤ 4294967295) →
      CreateLuaEvent L = .raised (.argerror 2 "min is bigger than max delay") L) ∧
    ∃ narg msg, CreateLuaEvent L = .raised (.argerror narg msg) L := by
  rw [CreateLuaEvent_table_apply L f min max more hf ht hmin hmax]
  constructor
  · intro hrep
    rw [CHECKVAL_uint32_or_apply, CHECKVAL_uint32_apply]
    rcases hrep with h3 | h3 | ⟨r, h3, hr⟩
    · simp [h3, h]
    · simp [h3, h]
    · simp [h3, h, natCast_not_neg, Nat.not_lt.mpr hr]
  · rcases CHECKVAL_uint32_or_cases 3 1 L with ⟨v, hv⟩ | ⟨msg, hv⟩
    · exact ⟨2, "min is bigger than max delay", by simp [hv, h]⟩
    · exact ⟨3, msg, by simp [hv]⟩

theorem CreateLuaEvent_rejects_min_above_max_witness :
    CreateLuaEvent (idleCall [.function 9, .table [.number 70, .number 60], .number 0]) =
      .raised (.argerror 2 "min is bigger than max delay")
        (idleCall [.function 9, .table [.number 70, .number 60], .number 0]) :=
  (CreateLuaEvent_rejects_min_above_max
    (idleCall [.function 9, .table [.number 70, .number 60], .number 0]) 9 70 60 []
    rfl rfl (by decide) (by decide) (by decide)).1
    (Or.inr (Or.inr ⟨0, rfl, by decide⟩))

/-- C2: the single-number delay form of `CreateLuaEvent` is the range form with
`min = max`: called with the same function and the same further arguments, `d` and
`{d, d}` give the caller the same result and leave the same reference table and the same
engine; with a well-formed repeats argument `r` (1 when absent) both return the new
reference and add the event `AddEvent(ref, d, d, r)` to the global processor. -/
theorem CreateLuaEvent_number_is_range (R : LuaRegistry) (E : Eluna) (f d : Nat)
    (rest : List LuaValue) (hd : d ≤ 4294967295) :
    call CreateLuaEvent R E (.function f :: .number d :: rest) =
      call CreateLuaEvent R E (.function f :: .table [.number d, .number d] :: rest) ∧
    ∀ r : Nat, r ≤ 4294967295 →
      ((rest.head? = none ∨ rest.head? = some .nil) ∧ r = 1 ∨ rest.head? = some (.number r)) →
      call CreateLuaEvent R E (.function f :: .number d :: rest) =
        .returned [.number (R.ref (.function f)).2] (R.ref (.function f)).1
          { E with eventMgr := { E.eventMgr with
              globalProcessor := E.eventMgr.globalProcessor.AddEvent
                (R.ref (.function f)).2 d d r } } := by
  have h3 : ∀ a2 : LuaValue,
      slot { stack := .function f :: a2 :: rest, registry := R, eluna := E } 3 = rest.head? := by
    intro a2
    rcases rest with _ | ⟨v, tl⟩ <;> simp [slot, stackAt]
  have e1 := CreateLuaEvent_number_apply
    { stack := .function f :: .number d :: rest, registry := R, eluna := E } f d rfl rfl hd
  have e2 := CreateLuaEvent_table_apply
    { stack := .function f :: .table [.number d, .number d] :: rest, registry := R, eluna := E }
    f d d [] rfl rfl hd hd
  constructor
  · unfold call
    rw [e1, e2]
    simp only [CHECKVAL_uint32_or_apply, CHECKVAL_uint32_apply, h3]
    rcases rest.head? with _ | v
    · simp
    · cases v <;> simp
      split_ifs <;> simp
  · intro r hr hrep
    unfold call
    rw [e1]
    simp only [CHECKVAL_uint32_or_apply, CHECKVAL_uint32_apply, h3]
    rcases hrep with ⟨h | h, rfl⟩ | h
    · simp [h]
    · simp [h]
    · simp [h, natCast_not_neg, Nat.not_lt.mpr hr]

theorem CreateLuaEvent_number_is_range_witness :
    call CreateLuaEvent emptyRegistry idleEluna [.function 9, .number 50, .number 3] =
      call CreateLuaEvent emptyRegistry idleEluna
        [.function 9, .table [.number 50, .number 50], .number 3] :=
  (CreateLuaEvent_number_is_range emptyRegistry idleEluna 9 50 [.number 3] (by decide)).1

/-- C3: an accepted call `CreateLuaEvent(f, delayOrRange, repeats)` (`f` a function,
`min <= max`, repeats 1 when omitted) returns one value, an id, and adds exactly one
event to the global processor: the event list grows by one active entry that carries
this id, `min`, `max` and `repeats` (0 included) unchanged and fires after a delay within
the range; the id is a new reference to `f`; the other processors are left as they
were. -/
theorem CreateLuaEvent_adds_exactly_one_event (L : lua_State) (f min max repeats : Nat)
    (hf : slot L 1 = some (.function f))
    (hdelay : (slot L 2 = some (.number min) ∧ max = min) ∨
      ∃ more, slot L 2 = some (.table (.number min :: .number max :: more)))
    (hrep : ((slot L 3 = none ∨ slot L 3 = some .nil) ∧ repeats = 1) ∨
      slot L 3 = some (.number repeats))
    (hle : min ≤ max) (hmax : max ≤ 4294967295) (hr : repeats ≤ 4294967295) :
    ∃ (id : Int) (L1 : lua_State) (e : LuaEvent),
      CreateLuaEvent L = .ok 1 L1 ∧
      L1.stack = L.stack ++ [.number id] ∧
      L1.eluna.eventMgr.globalProcessor.eventList =
        L.eluna.eventMgr.globalProcessor.eventList ++ [e] ∧
      e.funcRef = id ∧ e.minDelay = min ∧ e.maxDelay = max ∧ e.repeatsRemaining = repeats ∧
      e.state = .Active ∧
      e.nextFireAt = L.eluna.eventMgr.globalProcessor.now + e.delay ∧
      min ≤ e.delay ∧ e.delay ≤ max ∧
      L1.eluna.eventMgr.processors = L.eluna.eventMgr.processors ∧
      (L1.registry, id) = L.registry.ref (.function f) := by
  have hrepeats : CHECKVAL_uint32_or 3 1 L = .ok repeats L := by
    rw [CHECKVAL_uint32_or_apply, CHECKVAL_uint32_apply]
    rcases hrep with ⟨h | h, rfl⟩ | h
    · simp [h]
    · simp [h]
    · simp [h, natCast_not_neg, Nat.not_lt.mpr hr]
  have hdraw : min ≤ uniformRandom L.eluna.eventMgr.globalProcessor.seed min max ∧
      uniformRandom L.eluna.eventMgr.globalProcessor.seed min max ≤ max := by
    unfold uniformRandom
    have := Nat.mod_lt L.eluna.eventMgr.globalProcessor.seed
      (show 0 < max - min + 1 by omega)
    omega
  have hrun : CreateLuaEvent L = .ok 1
      { stack := L.stack ++ [.number (L.registry.ref (.function f)).2]
        registry := (L.registry.ref (.function f)).1
        eluna := { L.eluna with eventMgr := { L.eluna.eventMgr with
          globalProcessor := L.eluna.eventMgr.globalProcessor.AddEvent
            (L.registry.ref (.function f)).2 min max repeats } } } := by
    rcases hdelay with ⟨hd, rfl⟩ | ⟨more, ht⟩
    · rw [CreateLuaEvent_number_apply L f max hf hd hmax, hrepeats]
    · rw [CreateLuaEvent_table_apply L f min max more hf ht (le_trans hle hmax) hmax, hrepeats]
      simp [Nat.not_lt.mpr hle]
  exact ⟨_, _, _, hrun, rfl, rfl, rfl, rfl, rfl, rfl, rfl, rfl, hdraw.1, hdraw.2, rfl, rfl⟩

theorem CreateLuaEvent_adds_exactly_one_event_witness :
    ∃ (id : Int) (L1 : lua_State) (e : LuaEvent),
      CreateLuaEvent (idleCall [.function 9, .table [.number 50, .number 60], .number 0]) =
        .ok 1 L1 ∧
      L1.stack = [.function 9, .table [.number 50, .number 60], .number 0] ++ [.number id] ∧
      L1.eluna.eventMgr.globalProcessor.eventList = [] ++ [e] ∧
      e.funcRef = id ∧ e.minDelay = 50 ∧ e.maxDelay = 60 ∧ e.repeatsRemaining = 0 ∧
      e.state = .Active ∧ e.nextFireAt = 100 + e.delay ∧ 50 ≤ e.delay ∧ e.delay ≤ 60 ∧
      L1.eluna.eventMgr.processors = [] ∧
      (L1.registry, id) = emptyRegistry.ref (.function 9) :=
  CreateLuaEvent_adds_exactly_one_event
    (idleCall [.function 9, .table [.number 50, .number 60], .number 0]) 9 50 60 0
    rfl (Or.inr ⟨[], rfl⟩) (Or.inr rfl) (by decide) (by decide) (by decide)

/-- What `CHECKVAL<int>(L, narg)` returns, by the argument it finds. -/
theorem CHECKVAL_int_apply (narg : Int) (L : lua_State) :
    CHECKVAL_int narg L =
      match slot L narg with
      | some (.number n) =>
        if n < -2147483648 then
          .raised (.argerror narg "value must be greater than or equal to -2147483648") L
        else if 2147483647 < n then
          .raised (.argerror narg "value must be less than or equal to 2147483647") L
        else .ok n L
      | v => .raised (.argerror narg ("number expected, got " ++ lua_typename (typeOf v))) L := by
  simp only [CHECKVAL_int, luaL_checknumber, LuaM.bind_apply]
  generalize slot L narg = s
  rcases s with _ | v
  · rfl
  · cases v <;> simp [luaL_argerror_apply]

/-- `RemoveEventById` on a well-formed event id: the id is aborted through the event
manager, in every processor, whatever the second argument is. -/
theorem RemoveEventById_apply (L : lua_State) (eventId : Int)
    (h1 : slot L 1 = some (.number eventId))
    (hlo : -2147483648 ≤ eventId) (hhi : eventId ≤ 2147483647) :
    RemoveEventById L = .ok 0
      { L with eluna := { L.eluna with
          eventMgr := L.eluna.eventMgr.SetState eventId .Aborted } } := by
  simp [RemoveEventById, CHECKVAL_int_apply, CHECKVAL_bool_or, lua_isnoneornil, lua_toboolean,
    h1, not_lt.mpr hlo, not_lt.mpr hhi, modifyEluna]

/-- C4 (the code at the failing input): `RemoveEventById(5)` and
`RemoveEventById(5, false)` abort event 5 in the further processor as well as in the
global one, because `all_Events` is read from argument 1, the event id, which is always
true as a boolean. -/
theorem RemoveEventById_aborts_in_all_processors_by_default :
    (RemoveEventById
        { stack := [.number 5], registry := emptyRegistry, eluna := twoProcessorEluna } =
      .ok 0 { stack := [.number 5], registry := emptyRegistry,
              eluna := sampleEluna
                { globalProcessor :=
                    { now := 100, seed := 7,
                      eventList := [{ dueEvent with state := .Aborted }] }
                  processors :=
                    [{ now := 100, seed := 3,
                       eventList := [{ dueEvent with state := .Aborted }] }] }
                BindingMap.empty }) ∧
    (RemoveEventById
        { stack := [.number 5, .boolean false], registry := emptyRegistry,
          eluna := twoProcessorEluna } =
      .ok 0 { stack := [.number 5, .boolean false], registry := emptyRegistry,
              eluna := sampleEluna
                { globalProcessor :=
                    { now := 100, seed := 7,
                      eventList := [{ dueEvent with state := .Aborted }] }
                  processors :=
                    [{ now := 100, seed := 3,
                       eventList := [{ dueEvent with state := .Aborted }] }] }
                BindingMap.empty }) := by
  constructor <;> rfl

/-! ## Timed events: aborted entries never fire -/

/-- Every entry with the given id is aborted. -/
theorem SetState_aborts (P : ElunaEventProcessor) (eventId : Int) :
    ∀ e ∈ (P.SetState eventId .Aborted).eventList, e.funcRef = eventId → e.state = .Aborted := by
  intro e he hid
  simp only [ElunaEventProcessor.SetState, List.mem_map] at he
  obtain ⟨e0, _, rfl⟩ := he
  by_cases h : e0.funcRef = eventId
  · simp [h]
  · simp [h] at hid

/-- Aborting an id whose entries are absent or already aborted changes nothing. -/
theorem SetState_aborted_noop (P : ElunaEventProcessor) (eventId : Int)
    (h : ∀ e ∈ P.eventList, e.funcRef = eventId → e.state = .Aborted) :
    P.SetState eventId .Aborted = P := by
  have hmap : P.eventList.map (fun e =>
      if e.funcRef = eventId then { e with state := LuaEventState.Aborted } else e) =
      P.eventList := by
    conv_rhs => rw [← List.map_id P.eventList]
    apply List.map_congr_left
    intro e he
    by_cases hid : e.funcRef = eventId
    · have hs := h e he hid
      rw [if_pos hid]
      cases e
      simp_all
    · simp [hid]
  simp only [ElunaEventProcessor.SetState, hmap]

/-- A sweep step on an entry that is aborted whenever it has the given id keeps no
active entry with that id and makes no invocation with that id. -/
theorem sweepEntry_skips_aborted (now seed : Nat) (e : LuaEvent) (eventId : Int)
    (h : e.funcRef = eventId → e.state = .Aborted) :
    (∀ k, (sweepEntry now seed e).2.1 = some k → k.funcRef = eventId → k.state = .Aborted) ∧
    (∀ inv, (sweepEntry now seed e).2.2 = some inv → inv.funcRef ≠ eventId) := by
  unfold sweepEntry
  rcases hs : e.state with _ | _
  · have hne : e.funcRef ≠ eventId := fun hid => by
      have := h hid
      rw [hs] at this
      cases this
    simp only
    split_ifs <;> simp_all
  · simp

theorem sweepEntries_skip_aborted (now : Nat) (eventId : Int) (es : List LuaEvent) :
    ∀ seed, (∀ e ∈ es, e.funcRef = eventId → e.state = .Aborted) →
      (∀ k ∈ (sweepEntries now seed es).2.1, k.funcRef = eventId → k.state = .Aborted) ∧
      (∀ inv ∈ (sweepEntries now seed es).2.2, inv.funcRef ≠ eventId) := by
  induction es with
  | nil => intro seed _; simp [sweepEntries]
  | cons e es ih =>
    intro seed h
    have he := sweepEntry_skips_aborted now seed e eventId (h e (List.mem_cons_self _ _))
    have hes := ih (sweepEntry now seed e).1 (fun x hx => h x (List.mem_cons_of_mem _ hx))
    simp only [sweepEntries]
    constructor
    · intro k hk
      simp only [List.mem_append, Option.mem_toList, Option.mem_def] at hk
      rcases hk with hk | hk
      · exact he.1 k hk
      · exact hes.1 k hk
    · intro inv hinv
      simp only [List.mem_append, Option.mem_toList, Option.mem_def] at hinv
      rcases hinv with hinv | hinv
      · exact he.2 inv hinv
      · exact hes.2 inv hinv

theorem sweep_skips_aborted (P : ElunaEventProcessor) (now : Nat) (eventId : Int)
    (h : ∀ e ∈ P.eventList, e.funcRef = eventId → e.state = .Aborted) :
    (∀ k ∈ (P.sweep now).1.eventList, k.funcRef = eventId → k.state = .Aborted) ∧
    (∀ inv ∈ (P.sweep now).2, inv.funcRef ≠ eventId) :=
  sweepEntries_skip_aborted now eventId P.eventList P.seed h

theorem sweeps_skip_aborted (eventId : Int) (times : List Nat) :
    ∀ P : ElunaEventProcessor, (∀ e ∈ P.eventList, e.funcRef = eventId → e.state = .Aborted) →
      ∀ inv ∈ (P.sweeps times).2, inv.funcRef ≠ eventId := by
  induction times with
  | nil => intro P _ inv hinv; simp [ElunaEventProcessor.sweeps] at hinv
  | cons now later ih =>
    intro P h inv hinv
    have hs := sweep_skips_aborted P now eventId h
    simp only [ElunaEventProcessor.sweeps, List.mem_append] at hinv
    rcases hinv with hinv | hinv
    · exact hs.2 inv hinv
    · exact ih (P.sweep now).1 hs.1 inv hinv

/-- C5: after `RemoveEventById(eventId)` no sweep of the global processor, at whatever
times and however often, invokes the callback of `eventId` again, whether the event was
due or repeats forever; and when the id is absent or already aborted the call leaves the
global processor as it was (and the whole state, when that holds in every processor). -/
theorem aborted_event_never_fires (L : lua_State) (eventId : Int)
    (h1 : slot L 1 = some (.number eventId))
    (hlo : -2147483648 ≤ eventId) (hhi : eventId ≤ 2147483647) :
    ∃ L1, RemoveEventById L = .ok 0 L1 ∧
      (∀ times : List Nat, ∀ inv ∈ (L1.eluna.eventMgr.globalProcessor.sweeps times).2,
        inv.funcRef ≠ eventId) ∧
      ((∀ e ∈ L.eluna.eventMgr.globalProcessor.eventList,
          e.funcRef = eventId → e.state = .Aborted) →
        L1.eluna.eventMgr.globalProcessor = L.eluna.eventMgr.globalProcessor ∧
        ((∀ P ∈ L.eluna.eventMgr.processors, ∀ e ∈ P.eventList,
            e.funcRef = eventId → e.state = .Aborted) → L1 = L)) := by
  refine ⟨_, RemoveEventById_apply L eventId h1 hlo hhi, ?_, ?_⟩
  · intro times
    exact sweeps_skip_aborted eventId times _
      (SetState_aborts L.eluna.eventMgr.globalProcessor eventId)
  · intro hg
    have hglobal := SetState_aborted_noop L.eluna.eventMgr.globalProcessor eventId hg
    refine ⟨hglobal, ?_⟩
    intro hp
    have hprocs : L.eluna.eventMgr.processors.map (fun P => P.SetState eventId .Aborted) =
        L.eluna.eventMgr.processors := by
      conv_rhs => rw [← List.map_id L.eluna.eventMgr.processors]
      apply List.map_congr_left
      intro P hP
      exact SetState_aborted_noop P eventId (hp P hP)
    simp only [EventMgr.SetState, hglobal, hprocs]

theorem aborted_event_never_fires_witness :
    (twoProcessorEluna.eventMgr.globalProcessor.sweeps [100, 110, 120]).2 =
      [{ funcRef := 5, delay := 10, repeats := 0 }, { funcRef := 5, delay := 10, repeats := 0 },
       { funcRef := 5, delay := 10, repeats := 0 }] ∧
    ∃ L1, RemoveEventById
        { stack := [.number 5], registry := emptyRegistry, eluna := twoProcessorEluna } =
        .ok 0 L1 ∧
      (∀ times : List Nat, ∀ inv ∈ (L1.eluna.eventMgr.globalProcessor.sweeps times).2,
        inv.funcRef ≠ 5) :=
  let ⟨L1, h, hnever, _⟩ := aborted_event_never_fires
    { stack := [.number 5], registry := emptyRegistry, eluna := twoProcessorEluna } 5
    rfl (by decide) (by decide)
  ⟨by decide, L1, h, hnever⟩

/-! ## Registration helpers -/

/-- The reader returns a value or raises an argument error, and leaves the state alone. -/
theorem CHECKVAL_uint32_cases (narg : Int) (L : lua_State) :
    (∃ v, CHECKVAL_uint32 narg L = .ok v L) ∨
    (∃ msg, CHECKVAL_uint32 narg L = .raised (.argerror narg msg) L) := by
  rw [CHECKVAL_uint32_apply]
  rcases slot L narg with _ | v
  · exact Or.inr ⟨_, rfl⟩
  · cases v <;> simp
    split_ifs <;> simp

/-- The GUID reader returns a value or raises an argument error, and leaves the state
alone. -/
theorem CHECKVAL_ObjectGuid_cases (narg : Int) (L : lua_State) :
    (∃ v, CHECKVAL_ObjectGuid narg L = .ok v L) ∨
    (∃ msg, CHECKVAL_ObjectGuid narg L = .raised (.argerror narg msg) L) := by
  unfold CHECKVAL_ObjectGuid
  rcases slot L narg with _ | v
  · exact Or.inr ⟨_, rfl⟩
  · cases v <;> simp

theorem luaL_checktype_raises (narg : Int) (t : LuaType) (L : lua_State)
    (h : typeOf (slot L narg) ≠ t) :
    luaL_checktype narg t L =
      .raised (.argerror narg (lua_typename t ++ " expected, got " ++
        lua_typename (typeOf (slot L narg)))) L := by
  simp [luaL_checktype, h]

theorem RegisterEventHelper_rejects (Register : RegisterPrimitive)
    (regtype : Hooks.RegisterTypes) (L : lua_State)
    (h : typeOf (slot L 2) ≠ .LUA_TFUNCTION) :
    ∃ narg msg, RegisterEventHelper Register regtype L = .raised (.argerror narg msg) L := by
  rcases CHECKVAL_uint32_cases 1 L with ⟨ev, h1⟩ | ⟨msg, h1⟩
  · exact ⟨2, lua_typename .LUA_TFUNCTION ++ " expected, got " ++
        lua_typename (typeOf (slot L 2)), by simp [RegisterEventHelper, h1, luaL_checktype_raises 2 _ L h]⟩
  · exact ⟨1, msg, by simp [RegisterEventHelper, h1]⟩

theorem RegisterEntryHelper_rejects (Register : RegisterPrimitive)
    (regtype : Hooks.RegisterTypes) (L : lua_State)
    (h : typeOf (slot L 3) ≠ .LUA_TFUNCTION) :
    ∃ narg msg, RegisterEntryHelper Register regtype L = .raised (.argerror narg msg) L := by
  rcases CHECKVAL_uint32_cases 1 L with ⟨id, h1⟩ | ⟨msg, h1⟩
  · rcases CHECKVAL_uint32_cases 2 L with ⟨ev, h2⟩ | ⟨msg, h2⟩
    · exact ⟨3, lua_typename .LUA_TFUNCTION ++ " expected, got " ++
        lua_typename (typeOf (slot L 3)), by simp [RegisterEntryHelper, h1, h2, luaL_checktype_raises 3 _ L h]⟩
    · exact ⟨2, msg, by simp [RegisterEntryHelper, h1, h2]⟩
  · exact ⟨1, msg, by simp [RegisterEntryHelper, h1]⟩

theorem RegisterUniqueHelper_rejects (Register : RegisterPrimitive)
    (regtype : Hooks.RegisterTypes) (L : lua_State)
    (h : typeOf (slot L 4) ≠ .LUA_TFUNCTION) :
    ∃ narg msg, RegisterUniqueHelper Register regtype L = .raised (.argerror narg msg) L := by
  rcases CHECKVAL_ObjectGuid_cases 1 L with ⟨guid, h1⟩ | ⟨msg, h1⟩
  · rcases CHECKVAL_uint32_cases 2 L with ⟨inst, h2⟩ | ⟨msg, h2⟩
    · rcases CHECKVAL_uint32_cases 3 L with ⟨ev, h3⟩ | ⟨msg, h3⟩
      · exact ⟨4, lua_typename .LUA_TFUNCTION ++ " expected, got " ++
        lua_typename (typeOf (slot L 4)), by simp [RegisterUniqueHelper, h1, h2, h3, luaL_checktype_raises 4 _ L h]⟩
      · exact ⟨3, msg, by simp [RegisterUniqueHelper, h1, h2, h3]⟩
    · exact ⟨2, msg, by simp [RegisterUniqueHelper, h1, h2]⟩
  · exact ⟨1, msg, by simp [RegisterUniqueHelper, h1]⟩

/-- C6: each of the three registration helpers, whatever the registration primitive and
the registration type, raises an argument error when its callback argument (argument 3
of the entry helper, 2 of the global helper, 4 of the unique helper) is not a function,
and leaves the state as it was: no reference is created and the primitive is not
reached, so no binding is added. -/
theorem Register_helpers_reject_non_function (Register : RegisterPrimitive)
    (regtype : Hooks.RegisterTypes) (L : lua_State) :
    (typeOf (slot L 3) ≠ .LUA_TFUNCTION →
      ∃ narg msg, RegisterEntryHelper Register regtype L = .raised (.argerror narg msg) L) ∧
    (typeOf (slot L 2) ≠ .LUA_TFUNCTION →
      ∃ narg msg, RegisterEventHelper Register regtype L = .raised (.argerror narg msg) L) ∧
    (typeOf (slot L 4) ≠ .LUA_TFUNCTION →
      ∃ narg msg, RegisterUniqueHelper Register regtype L = .raised (.argerror narg msg) L) :=
  ⟨RegisterEntryHelper_rejects Register regtype L,
   RegisterEventHelper_rejects Register regtype L,
   RegisterUniqueHelper_rejects Register regtype L⟩

theorem Register_helpers_reject_non_function_witness :
    (∃ narg msg, RegisterEntryHelper probeRegister .REGTYPE_CREATURE
        (idleCall [.number 3, .string "x"]) =
      .raised (.argerror narg msg) (idleCall [.number 3, .string "x"])) ∧
    (∃ narg msg, RegisterEventHelper probeRegister .REGTYPE_PLAYER
        (idleCall [.number 3, .string "x"]) =
      .raised (.argerror narg msg) (idleCall [.number 3, .string "x"])) ∧
    (∃ narg msg, RegisterUniqueHelper probeRegister .REGTYPE_CREATURE
        (idleCall [.number 3, .string "x"]) =
      .raised (.argerror narg msg) (idleCall [.number 3, .string "x"])) :=
  ⟨(Register_helpers_reject_non_function probeRegister .REGTYPE_CREATURE
      (idleCall [.number 3, .string "x"])).1 (by decide),
   (Register_helpers_reject_non_function probeRegister .REGTYPE_PLAYER
      (idleCall [.number 3, .string "x"])).2.1 (by decide),
   (Register_helpers_reject_non_function probeRegister .REGTYPE_CREATURE
      (idleCall [.number 3, .string "x"])).2.2 (by decide)⟩

/-! ### What reaches the registration primitive -/

theorem RegisterEventHelper_apply (Register : RegisterPrimitive)
    (regtype : Hooks.RegisterTypes) (L : lua_State) (ev f shots : Nat)
    (h1 : slot L 1 = some (.number ev)) (hev : ev ≤ 4294967295)
    (h2 : slot L 2 = some (.function f))
    (hshots : CHECKVAL_uint32_or 3 0 L = .ok shots L) :
    RegisterEventHelper Register regtype L =
      Register regtype 0 ObjectGuid.Empty 0 ev (L.registry.ref (.function f)).2 shots
        { L with registry := (L.registry.ref (.function f)).1 } := by
  obtain ⟨st, R, E⟩ := L
  simp [RegisterEventHelper, CHECKVAL_uint32_apply, h1, h2, hshots, luaL_checktype, typeOf,
    natCast_not_neg, Nat.not_lt.mpr hev, lua_pushvalue, luaL_ref, ref_function_nonneg]

theorem RegisterEntryHelper_apply (Register : RegisterPrimitive)
    (regtype : Hooks.RegisterTypes) (L : lua_State) (id ev f shots : Nat)
    (h1 : slot L 1 = some (.number id)) (hid : id ≤ 4294967295)
    (h2 : slot L 2 = some (.number ev)) (hev : ev ≤ 4294967295)
    (h3 : slot L 3 = some (.function f))
    (hshots : CHECKVAL_uint32_or 4 0 L = .ok shots L) :
    RegisterEntryHelper Register regtype L =
      Register regtype id ObjectGuid.Empty 0 ev (L.registry.ref (.function f)).2 shots
        { L with registry := (L.registry.ref (.function f)).1 } := by
  obtain ⟨st, R, E⟩ := L
  simp [RegisterEntryHelper, CHECKVAL_uint32_apply, h1, h2, h3, hshots, luaL_checktype, typeOf,
    natCast_not_neg, Nat.not_lt.mpr hev, Nat.not_lt.mpr hid, lua_pushvalue, luaL_ref,
    ref_function_nonneg]

theorem RegisterUniqueHelper_apply (Register : RegisterPrimitive)
    (regtype : Hooks.RegisterTypes) (L : lua_State) (guid instanceId ev f shots : Nat)
    (h1 : slot L 1 = some (.userdata guid))
    (h2 : slot L 2 = some (.number instanceId)) (hinst : instanceId ≤ 4294967295)
    (h3 : slot L 3 = some (.number ev)) (hev : ev ≤ 4294967295)
    (h4 : slot L 4 = some (.function f))
    (hshots : CHECKVAL_uint32_or 5 0 L = .ok shots L) :
    RegisterUniqueHelper Register regtype L =
      Register regtype 0 guid instanceId ev (L.registry.ref (.function f)).2 shots
        { L with registry := (L.registry.ref (.function f)).1 } := by
  obtain ⟨st, R, E⟩ := L
  simp [RegisterUniqueHelper, CHECKVAL_uint32_apply, CHECKVAL_ObjectGuid, h1, h2, h3, h4, hshots,
    luaL_checktype, typeOf, natCast_not_neg, Nat.not_lt.mpr hev, Nat.not_lt.mpr hinst,
    lua_pushvalue, luaL_ref, ref_function_nonneg]

/-- How the optional shots argument reads: the default when absent or `nil`, the number
itself when it is an unsigned 32-bit number. -/
theorem shots_read (L : lua_State) (narg : Int) (dflt shots : Nat)
    (h : (slot L narg = none ∨ slot L narg = some .nil) ∧ shots = dflt ∨
      slot L narg = some (.number shots) ∧ shots ≤ 4294967295) :
    CHECKVAL_uint32_or narg dflt L = .ok shots L := by
  rw [CHECKVAL_uint32_or_apply, CHECKVAL_uint32_apply]
  rcases h with ⟨h | h, rfl⟩ | ⟨h, hs⟩
  · simp [h]
  · simp [h]
  · simp [h, natCast_not_neg, Nat.not_lt.mpr hs]

/-- C7: the registration bindings forward the three key shapes.  A global-family binding
called as `(event, function [, shots])` calls the primitive with its family's
registration type, entry 0, the empty GUID, instance 0 and the event; an entry-family
binding called as `(entry, event, function [, shots])` calls it with its family's
registration type, the entry, the empty GUID, instance 0 and the event;
`RegisterUniqueCreatureEvent` called as `(guid, instance_id, event, function [, shots])`
calls it with `REGTYPE_CREATURE`, entry 0, the GUID, the instance id and the event.  In
each case the callback is passed as its new reference, and the primitive runs on the
argument stack with only the reference table changed. -/
theorem registration_forwards_key_shape (Register : RegisterPrimitive) (L : lua_State)
    (f shots : Nat) :
    (∀ p ∈ globalRegistrations, ∀ ev : Nat,
      slot L 1 = some (.number ev) → ev ≤ 4294967295 →
      slot L 2 = some (.function f) →
      ((slot L 3 = none ∨ slot L 3 = some .nil) ∧ shots = 0 ∨
        slot L 3 = some (.number shots) ∧ shots ≤ 4294967295) →
      p.1 Register L =
        Register p.2 0 ObjectGuid.Empty 0 ev (L.registry.ref (.function f)).2 shots
          { L with registry := (L.registry.ref (.function f)).1 }) ∧
    (∀ p ∈ entryRegistrations, ∀ entry ev : Nat,
      slot L 1 = some (.number entry) → entry ≤ 4294967295 →
      slot L 2 = some (.number ev) → ev ≤ 4294967295 →
      slot L 3 = some (.function f) →
      ((slot L 4 = none ∨ slot L 4 = some .nil) ∧ shots = 0 ∨
        slot L 4 = some (.number shots) ∧ shots ≤ 4294967295) →
      p.1 Register L =
        Register p.2 entry ObjectGuid.Empty 0 ev (L.registry.ref (.function f)).2 shots
          { L with registry := (L.registry.ref (.function f)).1 }) ∧
    (∀ guid instanceId ev : Nat,
      slot L 1 = some (.userdata guid) →
      slot L 2 = some (.number instanceId) → instanceId ≤ 4294967295 →
      slot L 3 = some (.number ev) → ev ≤ 4294967295 →
      slot L 4 = some (.function f) →
      ((slot L 5 = none ∨ slot L 5 = some .nil) ∧ shots = 0 ∨
        slot L 5 = some (.number shots) ∧ shots ≤ 4294967295) →
      RegisterUniqueCreatureEvent Register L =
        Register .REGTYPE_CREATURE 0 guid instanceId ev (L.registry.ref (.function f)).2 shots
          { L with registry := (L.registry.ref (.function f)).1 }) := by
  refine ⟨?_, ?_, ?_⟩
  · intro p hp ev h1 hev h2 hs
    have key := fun regtype => RegisterEventHelper_apply Register regtype L ev f shots h1 hev h2
      (shots_read L 3 0 shots hs)
    simp only [globalRegistrations, List.mem_cons, List.mem_singleton, List.not_mem_nil,
      or_false] at hp
    rcases hp with rfl | rfl | rfl | rfl | rfl | rfl <;> exact key _
  · intro p hp entry ev h1 hid h2 hev h3 hs
    have key := fun regtype => RegisterEntryHelper_apply Register regtype L entry ev f shots
      h1 hid h2 hev h3 (shots_read L 4 0 shots hs)
    simp only [entryRegistrations, List.mem_cons, List.mem_singleton, List.not_mem_nil,
      or_false] at hp
    rcases hp with rfl | rfl | rfl | rfl | rfl | rfl | rfl | rfl | rfl | rfl | rfl <;>
      exact key _
  · intro guid instanceId ev h1 h2 hinst h3 hev h4 hs
    exact RegisterUniqueHelper_apply Register .REGTYPE_CREATURE L guid instanceId ev f shots
      h1 h2 hinst h3 hev h4 (shots_read L 5 0 shots hs)

theorem registration_forwards_key_shape_witness :
    RegisterPlayerEvent probeRegister (idleCall [.number 3, .function 9]) =
      probeRegister .REGTYPE_PLAYER 0 ObjectGuid.Empty 0 3
        (emptyRegistry.ref (.function 9)).2 0
        { idleCall [.number 3, .function 9] with
          registry := (emptyRegistry.ref (.function 9)).1 } ∧
    RegisterCreatureEvent probeRegister (idleCall [.number 1234, .number 9, .function 9]) =
      probeRegister .REGTYPE_CREATURE 1234 ObjectGuid.Empty 0 9
        (emptyRegistry.ref (.function 9)).2 0
        { idleCall [.number 1234, .number 9, .function 9] with
          registry := (emptyRegistry.ref (.function 9)).1 } ∧
    RegisterUniqueCreatureEvent probeRegister
        (idleCall [.userdata 77, .number 2, .number 9, .function 9]) =
      probeRegister .REGTYPE_CREATURE 0 77 2 9 (emptyRegistry.ref (.function 9)).2 0
        { idleCall [.userdata 77, .number 2, .number 9, .function 9] with
          registry := (emptyRegistry.ref (.function 9)).1 } :=
  ⟨(registration_forwards_key_shape probeRegister (idleCall [.number 3, .function 9]) 9 0).1
      (RegisterPlayerEvent, .REGTYPE_PLAYER) (by simp [globalRegistrations]) 3
      rfl (by decide) rfl (Or.inl ⟨Or.inl rfl, rfl⟩),
   (registration_forwards_key_shape probeRegister
      (idleCall [.number 1234, .number 9, .function 9]) 9 0).2.1
      (RegisterCreatureEvent, .REGTYPE_CREATURE) (by simp [entryRegistrations]) 1234 9
      rfl (by decide) rfl (by decide) rfl (Or.inl ⟨Or.inl rfl, rfl⟩),
   (registration_forwards_key_shape probeRegister
      (idleCall [.userdata 77, .number 2, .number 9, .function 9]) 9 0).2.2 77 2 9
      rfl rfl (by decide) rfl (by decide) rfl (Or.inl ⟨Or.inl rfl, rfl⟩)⟩

/-- C8: in each registration helper, hence in every `Register*Event` binding, the shots
argument (argument 4 of the entry helper, 3 of the global helper, 5 of the unique helper)
is optional: when it is absent or `nil` the primitive is called with shots 0, and when it
is an unsigned 32-bit number the primitive is called with that number. -/
theorem shots_default_zero_and_forwarded (Register : RegisterPrimitive)
    (regtype : Hooks.RegisterTypes) (L : lua_State) (f : Nat) :
    (∀ id ev : Nat,
      slot L 1 = some (.number id) → id ≤ 4294967295 →
      slot L 2 = some (.number ev) → ev ≤ 4294967295 →
      slot L 3 = some (.function f) →
      ((slot L 4 = none ∨ slot L 4 = some .nil) →
        RegisterEntryHelper Register regtype L =
          Register regtype id ObjectGuid.Empty 0 ev (L.registry.ref (.function f)).2 0
            { L with registry := (L.registry.ref (.function f)).1 }) ∧
      (∀ shots : Nat, slot L 4 = some (.number shots) → shots ≤ 4294967295 →
        RegisterEntryHelper Register regtype L =
          Register regtype id ObjectGuid.Empty 0 ev (L.registry.ref (.function f)).2 shots
            { L with registry := (L.registry.ref (.function f)).1 })) ∧
    (∀ ev : Nat,
      slot L 1 = some (.number ev) → ev ≤ 4294967295 →
      slot L 2 = some (.function f) →
      ((slot L 3 = none ∨ slot L 3 = some .nil) →
        RegisterEventHelper Register regtype L =
          Register regtype 0 ObjectGuid.Empty 0 ev (L.registry.ref (.function f)).2 0
            { L with registry := (L.registry.ref (.function f)).1 }) ∧
      (∀ shots : Nat, slot L 3 = some (.number shots) → shots ≤ 4294967295 →
        RegisterEventHelper Register regtype L =
          Register regtype 0 ObjectGuid.Empty 0 ev (L.registry.ref (.function f)).2 shots
            { L with registry := (L.registry.ref (.function f)).1 })) ∧
    (∀ guid instanceId ev : Nat,
      slot L 1 = some (.userdata guid) →
      slot L 2 = some (.number instanceId) → instanceId ≤ 4294967295 →
      slot L 3 = some (.number ev) → ev ≤ 4294967295 →
      slot L 4 = some (.function f) →
      ((slot L 5 = none ∨ slot L 5 = some .nil) →
        RegisterUniqueHelper Register regtype L =
          Register regtype 0 guid instanceId ev (L.registry.ref (.function f)).2 0
            { L with registry := (L.registry.ref (.function f)).1 }) ∧
      (∀ shots : Nat, slot L 5 = some (.number shots) → shots ≤ 4294967295 →
        RegisterUniqueHelper Register regtype L =
          Register regtype 0 guid instanceId ev (L.registry.ref (.function f)).2 shots
            { L with registry := (L.registry.ref (.function f)).1 })) := by
  refine ⟨?_, ?_, ?_⟩
  · intro id ev h1 hid h2 hev h3
    exact ⟨fun h => RegisterEntryHelper_apply Register regtype L id ev f 0 h1 hid h2 hev h3
        (shots_read L 4 0 0 (Or.inl ⟨h, rfl⟩)),
      fun shots h hs => RegisterEntryHelper_apply Register regtype L id ev f shots h1 hid h2
        hev h3 (shots_read L 4 0 shots (Or.inr ⟨h, hs⟩))⟩
  · intro ev h1 hev h2
    exact ⟨fun h => RegisterEventHelper_apply Register regtype L ev f 0 h1 hev h2
        (shots_read L 3 0 0 (Or.inl ⟨h, rfl⟩)),
      fun shots h hs => RegisterEventHelper_apply Register regtype L ev f shots h1 hev h2
        (shots_read L 3 0 shots (Or.inr ⟨h, hs⟩))⟩
  · intro guid instanceId ev h1 h2 hinst h3 hev h4
    exact ⟨fun h => RegisterUniqueHelper_apply Register regtype L guid instanceId ev f 0
        h1 h2 hinst h3 hev h4 (shots_read L 5 0 0 (Or.inl ⟨h, rfl⟩)),
      fun shots h hs => RegisterUniqueHelper_apply Register regtype L guid instanceId ev f
        shots h1 h2 hinst h3 hev h4 (shots_read L 5 0 shots (Or.inr ⟨h, hs⟩))⟩

theorem shots_default_zero_and_forwarded_witness :
    RegisterEventHelper probeRegister .REGTYPE_SERVER (idleCall [.number 14, .function 9]) =
      probeRegister .REGTYPE_SERVER 0 ObjectGuid.Empty 0 14
        (emptyRegistry.ref (.function 9)).2 0
        { idleCall [.number 14, .function 9] with
          registry := (emptyRegistry.ref (.function 9)).1 } ∧
    RegisterEntryHelper probeRegister .REGTYPE_ITEM
        (idleCall [.number 6948, .number 2, .function 9, .number 5]) =
      probeRegister .REGTYPE_ITEM 6948 ObjectGuid.Empty 0 2
        (emptyRegistry.ref (.function 9)).2 5
        { idleCall [.number 6948, .number 2, .function 9, .number 5] with
          registry := (emptyRegistry.ref (.function 9)).1 } :=
  ⟨((shots_default_zero_and_forwarded probeRegister .REGTYPE_SERVER
      (idleCall [.number 14, .function 9]) 9).2.1 14 rfl (by decide) rfl).1 (Or.inl rfl),
   ((shots_default_zero_and_forwarded probeRegister .REGTYPE_ITEM
      (idleCall [.number 6948, .number 2, .function 9, .number 5]) 9).1 6948 2
      rfl (by decide) rfl (by decide) rfl).2 5 rfl (by decide)⟩

/-- C9: `RegisterUniqueCreatureEvent` has no default for the GUID or for the instance id.
Called without a GUID (argument 1 absent or `nil`) it raises an argument error on
argument 1; called with a GUID but without an instance id (argument 2 absent or `nil`)
it raises an argument error on argument 2; and without an instance id it raises whatever
argument 1 is.  In each case the state is left as it was and the primitive is not
reached, so nothing is registered. -/
theorem RegisterUniqueCreatureEvent_requires_guid_and_instance
    (Register : RegisterPrimitive) (L : lua_State) :
    ((slot L 1 = none ∨ slot L 1 = some .nil) →
      ∃ msg, RegisterUniqueCreatureEvent Register L = .raised (.argerror 1 msg) L) ∧
    (∀ guid : Nat, slot L 1 = some (.userdata guid) →
      (slot L 2 = none ∨ slot L 2 = some .nil) →
      ∃ msg, RegisterUniqueCreatureEvent Register L = .raised (.argerror 2 msg) L) ∧
    ((slot L 2 = none ∨ slot L 2 = some .nil) →
      ∃ narg msg, RegisterUniqueCreatureEvent Register L = .raised (.argerror narg msg) L) := by
  have hinst : (slot L 2 = none ∨ slot L 2 = some .nil) →
      ∃ msg, CHECKVAL_uint32 2 L = .raised (.argerror 2 msg) L := by
    intro h
    rw [CHECKVAL_uint32_apply]
    rcases h with h | h <;> simp [h]
  refine ⟨?_, ?_, ?_⟩
  · intro h
    have hg : ∃ msg, CHECKVAL_ObjectGuid 1 L = .raised (.argerror 1 msg) L := by
      unfold CHECKVAL_ObjectGuid
      rcases h with h | h <;> simp [h]
    obtain ⟨msg, hg⟩ := hg
    exact ⟨msg, by simp [RegisterUniqueCreatureEvent, RegisterUniqueHelper, hg]⟩
  · intro guid h1 h2
    obtain ⟨msg, hi⟩ := hinst h2
    have hg : CHECKVAL_ObjectGuid 1 L = .ok guid L := by
      simp [CHECKVAL_ObjectGuid, h1]
    exact ⟨msg, by simp [RegisterUniqueCreatureEvent, RegisterUniqueHelper, hg, hi]⟩
  · intro h2
    obtain ⟨msg, hi⟩ := hinst h2
    rcases CHECKVAL_ObjectGuid_cases 1 L with ⟨guid, hg⟩ | ⟨msg1, hg⟩
    · exact ⟨2, msg, by simp [RegisterUniqueCreatureEvent, RegisterUniqueHelper, hg, hi]⟩
    · exact ⟨1, msg1, by simp [RegisterUniqueCreatureEvent, RegisterUniqueHelper, hg]⟩

theorem RegisterUniqueCreatureEvent_requires_guid_and_instance_witness :
    (∃ msg, RegisterUniqueCreatureEvent probeRegister
        (idleCall [.nil, .number 2, .number 9, .function 9]) =
      .raised (.argerror 1 msg) (idleCall [.nil, .number 2, .number 9, .function 9])) ∧
    (∃ msg, RegisterUniqueCreatureEvent probeRegister
        (idleCall [.userdata 77, .nil, .number 9, .function 9]) =
      .raised (.argerror 2 msg) (idleCall [.userdata 77, .nil, .number 9, .function 9])) ∧
    (∃ narg msg, RegisterUniqueCreatureEvent probeRegister (idleCall [.userdata 77]) =
      .raised (.argerror narg msg) (idleCall [.userdata 77])) :=
  ⟨(RegisterUniqueCreatureEvent_requires_guid_and_instance probeRegister
      (idleCall [.nil, .number 2, .number 9, .function 9])).1 (Or.inr rfl),
   (RegisterUniqueCreatureEvent_requires_guid_and_instance probeRegister
      (idleCall [.userdata 77, .nil, .number 9, .function 9])).2.1 77 rfl (Or.inr rfl),
   (RegisterUniqueCreatureEvent_requires_guid_and_instance probeRegister
      (idleCall [.userdata 77])).2.2 (Or.inl rfl)⟩

/-! ## Clearing the bindings of an entry -/

theorem modifyEluna_apply (g : Eluna → Eluna) (L : lua_State) :
    modifyEluna g L = .ok () { L with eluna := g L.eluna } := rfl

/-- A loop whose body updates the engine is a fold over the engine. -/
theorem forEach_modifyEluna (g : Nat → Eluna → Eluna) (values : List Nat) :
    ∀ L : lua_State, forEach values (fun i => modifyEluna (g i)) L =
      .ok () { L with eluna := values.foldl (fun E i => g i E) L.eluna } := by
  induction values with
  | nil => intro L; rfl
  | cons i rest ih =>
    intro L
    simp only [forEach, LuaM.bind_apply, modifyEluna_apply, ih, List.foldl_cons]

/-- Keyed clears, one after the other, remove exactly the handles of the keys cleared. -/
theorem foldl_Clear_bindings {K : Type} [DecidableEq K] (key : Nat → K) (values : List Nat) :
    ∀ B : BindingMap K,
      (values.foldl (fun B i => B.Clear (key i)) B).bindings =
        B.bindings.filter (fun b => decide (∀ i ∈ values, b.1 ≠ key i)) := by
  induction values with
  | nil => intro B; simp
  | cons i rest ih =>
    intro B
    rw [List.foldl_cons, ih]
    simp only [BindingMap.Clear, List.filter_filter]
    apply List.filter_congr
    intro b _
    simp [Bool.and_comm]

/-- A fold of engine updates that each clear one key of one registry, seen from that
registry. -/
theorem foldl_registry {K : Type} [DecidableEq K] (registry : Eluna → BindingMap K)
    (upd : Nat → Eluna → Eluna) (key : Nat → K)
    (hupd : ∀ i E, registry (upd i E) = (registry E).Clear (key i)) (values : List Nat) :
    ∀ E : Eluna, registry (values.foldl (fun E i => upd i E) E) =
      values.foldl (fun B i => B.Clear (key i)) (registry E) := by
  induction values with
  | nil => intro E; rfl
  | cons i rest ih => intro E; rw [List.foldl_cons, ih, hupd, List.foldl_cons]

/-- The loop `for (i = 1; i < count; ++i) Clear(Key(i, entry))` removes from an
entry-keyed registry exactly the handles of `entry` under the kinds `1 .. count - 1`. -/
theorem clear_loop_bindings (registry : Eluna → BindingMap EntryKey)
    (upd : Nat → Eluna → Eluna) (entry count : Nat)
    (hupd : ∀ i E, registry (upd i E) = (registry E).Clear ⟨i, entry⟩) (E : Eluna) :
    (registry ((List.range' 1 (count - 1)).foldl (fun E i => upd i E) E)).bindings =
      (registry E).bindings.filter
        (fun b => decide (¬ (b.1.entry = entry ∧ 1 ≤ b.1.event_id ∧ b.1.event_id < count))) := by
  rw [foldl_registry registry upd (fun i => ⟨i, entry⟩) hupd, foldl_Clear_bindings]
  apply List.filter_congr
  intro b _
  rcases b with ⟨⟨k, e⟩, h⟩
  simp only [List.mem_range'_1, ne_eq, EntryKey.mk.injEq, decide_eq_decide]
  constructor
  · intro hall ⟨he, hk1, hk2⟩
    exact hall k ⟨hk1, by omega⟩ ⟨rfl, he⟩
  · intro hnot i hi ⟨hki, he⟩
    exact hnot ⟨he, by omega, by omega⟩

/-- After the handles of `entry` under the kinds `1 .. count - 1` are removed, the lookup
of each of these keys is empty. -/
theorem lookup_after_clear_loop (B B1 : BindingMap EntryKey) (entry count : Nat)
    (h : B1.bindings = B.bindings.filter
      (fun b => decide (¬ (b.1.entry = entry ∧ 1 ≤ b.1.event_id ∧ b.1.event_id < count))))
    (k : Nat) (hk1 : 1 ≤ k) (hk2 : k < count) : B1.lookup ⟨k, entry⟩ = [] := by
  unfold BindingMap.lookup
  rw [h, List.filter_filter, List.map_eq_nil_iff, List.filter_eq_nil_iff]
  intro b _
  rcases b with ⟨⟨k1, e1⟩, hb⟩
  simp only [EntryKey.mk.injEq, Bool.and_eq_true, decide_eq_true_eq]
  rintro ⟨⟨rfl, rfl⟩, hnot⟩
  exact hnot ⟨rfl, hk1, hk2⟩

theorem ClearCreatureEvents_entry_apply (L : lua_State) (entry : Nat)
    (h2 : slot L 2 = none ∨ slot L 2 = some .nil)
    (h1 : slot L 1 = some (.number entry)) (he : entry ≤ 4294967295) :
    ClearCreatureEvents L = .ok 0
      { L with
        eluna := (List.range' 1 (Hooks.CREATURE_EVENT_COUNT - 1)).foldl
          (fun E i => { E with CreatureEventBindings := E.CreatureEventBindings.Clear ⟨i, entry⟩ })
          L.eluna } := by
  rcases h2 with h2 | h2 <;>
  simp [ClearCreatureEvents, lua_isnoneornil, h2, CHECKVAL_uint32_apply, h1, natCast_not_neg,
    Nat.not_lt.mpr he, forLoop, forEach_modifyEluna]

theorem ClearCreatureGossipEvents_entry_apply (L : lua_State) (entry : Nat)
    (h2 : slot L 2 = none ∨ slot L 2 = some .nil)
    (h1 : slot L 1 = some (.number entry)) (he : entry ≤ 4294967295) :
    ClearCreatureGossipEvents L = .ok 0
      { L with
        eluna := (List.range' 1 (Hooks.GOSSIP_EVENT_COUNT - 1)).foldl
          (fun E i => { E with CreatureGossipBindings := E.CreatureGossipBindings.Clear ⟨i, entry⟩ })
          L.eluna } := by
  rcases h2 with h2 | h2 <;>
  simp [ClearCreatureGossipEvents, lua_isnoneornil, h2, CHECKVAL_uint32_apply, h1, natCast_not_neg,
    Nat.not_lt.mpr he, forLoop, forEach_modifyEluna]

theorem ClearGameObjectEvents_entry_apply (L : lua_State) (entry : Nat)
    (h2 : slot L 2 = none ∨ slot L 2 = some .nil)
    (h1 : slot L 1 = some (.number entry)) (he : entry ≤ 4294967295) :
    ClearGameObjectEvents L = .ok 0
      { L with
        eluna := (List.range' 1 (Hooks.GAMEOBJECT_EVENT_COUNT - 1)).foldl
          (fun E i => { E with GameObjectEventBindings := E.GameObjectEventBindings.Clear ⟨i, entry⟩ })
          L.eluna } := by
  rcases h2 with h2 | h2 <;>
  simp [ClearGameObjectEvents, lua_isnoneornil, h2, CHECKVAL_uint32_apply, h1, natCast_not_neg,
    Nat.not_lt.mpr he, forLoop, forEach_modifyEluna]

theorem ClearGameObjectGossipEvents_entry_apply (L : lua_State) (entry : Nat)
    (h2 : slot L 2 = none ∨ slot L 2 = some .nil)
    (h1 : slot L 1 = some (.number entry)) (he : entry ≤ 4294967295) :
    ClearGameObjectGossipEvents L = .ok 0
      { L with
        eluna := (List.range' 1 (Hooks.GOSSIP_EVENT_COUNT - 1)).foldl
          (fun E i => { E with GameObjectGossipBindings := E.GameObjectGossipBindings.Clear ⟨i, entry⟩ })
          L.eluna } := by
  rcases h2 with h2 | h2 <;>
  simp [ClearGameObjectGossipEvents, lua_isnoneornil, h2, CHECKVAL_uint32_apply, h1, natCast_not_neg,
    Nat.not_lt.mpr he, forLoop, forEach_modifyEluna]

theorem ClearItemEvents_entry_apply (L : lua_State) (entry : Nat)
    (h2 : slot L 2 = none ∨ slot L 2 = some .nil)
    (h1 : slot L 1 = some (.number entry)) (he : entry ≤ 4294967295) :
    ClearItemEvents L = .ok 0
      { L with
        eluna := (List.range' 1 (Hooks.ITEM_EVENT_COUNT - 1)).foldl
          (fun E i => { E with ItemEventBindings := E.ItemEventBindings.Clear ⟨i, entry⟩ })
          L.eluna } := by
  rcases h2 with h2 | h2 <;>
  simp [ClearItemEvents, lua_isnoneornil, h2, CHECKVAL_uint32_apply, h1, natCast_not_neg,
    Nat.not_lt.mpr he, forLoop, forEach_modifyEluna]

theorem ClearItemGossipEvents_entry_apply (L : lua_State) (entry : Nat)
    (h2 : slot L 2 = none ∨ slot L 2 = some .nil)
    (h1 : slot L 1 = some (.number entry)) (he : entry ≤ 4294967295) :
    ClearItemGossipEvents L = .ok 0
      { L with
        eluna := (List.range' 1 (Hooks.GOSSIP_EVENT_COUNT - 1)).foldl
          (fun E i => { E with ItemGossipBindings := E.ItemGossipBindings.Clear ⟨i, entry⟩ })
          L.eluna } := by
  rcases h2 with h2 | h2 <;>
  simp [ClearItemGossipEvents, lua_isnoneornil, h2, CHECKVAL_uint32_apply, h1, natCast_not_neg,
    Nat.not_lt.mpr he, forLoop, forEach_modifyEluna]

theorem ClearPacketEvents_entry_apply (L : lua_State) (entry : Nat)
    (h2 : slot L 2 = none ∨ slot L 2 = some .nil)
    (h1 : slot L 1 = some (.number entry)) (he : entry ≤ 4294967295) :
    ClearPacketEvents L = .ok 0
      { L with
        eluna := (List.range' 1 (Hooks.PACKET_EVENT_COUNT - 1)).foldl
          (fun E i => { E with PacketEventBindings := E.PacketEventBindings.Clear ⟨i, entry⟩ })
          L.eluna } := by
  rcases h2 with h2 | h2 <;>
  simp [ClearPacketEvents, lua_isnoneornil, h2, CHECKVAL_uint32_apply, h1, natCast_not_neg,
    Nat.not_lt.mpr he, forLoop, forEach_modifyEluna]

theorem ClearPlayerGossipEvents_entry_apply (L : lua_State) (entry : Nat)
    (h2 : slot L 2 = none ∨ slot L 2 = some .nil)
    (h1 : slot L 1 = some (.number entry)) (he : entry ≤ 4294967295) :
    ClearPlayerGossipEvents L = .ok 0
      { L with
        eluna := (List.range' 1 (Hooks.GOSSIP_EVENT_COUNT - 1)).foldl
          (fun E i => { E with PlayerGossipBindings := E.PlayerGossipBindings.Clear ⟨i, entry⟩ })
          L.eluna } := by
  rcases h2 with h2 | h2 <;>
  simp [ClearPlayerGossipEvents, lua_isnoneornil, h2, CHECKVAL_uint32_apply, h1, natCast_not_neg,
    Nat.not_lt.mpr he, forLoop, forEach_modifyEluna]

theorem ClearMapEvents_entry_apply (L : lua_State) (entry : Nat)
    (h2 : slot L 2 = none ∨ slot L 2 = some .nil)
    (h1 : slot L 1 = some (.number entry)) (he : entry ≤ 4294967295) :
    ClearMapEvents L = .ok 0
      { L with
        eluna := (List.range' 1 (Hooks.INSTANCE_EVENT_COUNT - 1)).foldl
          (fun E i => { E with MapEventBindings := E.MapEventBindings.Clear ⟨i, entry⟩ })
          L.eluna } := by
  rcases h2 with h2 | h2 <;>
  simp [ClearMapEvents, lua_isnoneornil, h2, CHECKVAL_uint32_apply, h1, natCast_not_neg,
    Nat.not_lt.mpr he, forLoop, forEach_modifyEluna]

theorem ClearInstanceEvents_entry_apply (L : lua_State) (entry : Nat)
    (h2 : slot L 2 = none ∨ slot L 2 = some .nil)
    (h1 : slot L 1 = some (.number entry)) (he : entry ≤ 4294967295) :
    ClearInstanceEvents L = .ok 0
      { L with
        eluna := (List.range' 1 (Hooks.INSTANCE_EVENT_COUNT - 1)).foldl
          (fun E i => { E with InstanceEventBindings := E.InstanceEventBindings.Clear ⟨i, entry⟩ })
          L.eluna } := by
  rcases h2 with h2 | h2 <;>
  simp [ClearInstanceEvents, lua_isnoneornil, h2, CHECKVAL_uint32_apply, h1, natCast_not_neg,
    Nat.not_lt.mpr he, forLoop, forEach_modifyEluna]

theorem ClearSpellEvents_entry_apply (L : lua_State) (entry : Nat)
    (h2 : slot L 2 = none ∨ slot L 2 = some .nil)
    (h1 : slot L 1 = some (.number entry)) (he : entry ≤ 4294967295) :
    ClearSpellEvents L = .ok 0
      { L with
        eluna := (List.range' 1 (Hooks.SPELL_EVENT_COUNT - 1)).foldl
          (fun E i => { E with SpellEventBindings := E.SpellEventBindings.Clear ⟨i, entry⟩ })
          L.eluna } := by
  rcases h2 with h2 | h2 <;>
  simp [ClearSpellEvents, lua_isnoneornil, h2, CHECKVAL_uint32_apply, h1, natCast_not_neg,
    Nat.not_lt.mpr he, forLoop, forEach_modifyEluna]

theorem ClearUniqueCreatureEvents_entry_apply (L : lua_State) (guid instanceId : Nat)
    (h3 : slot L 3 = none ∨ slot L 3 = some .nil)
    (h1 : slot L 1 = some (.userdata guid))
    (h2 : slot L 2 = some (.number instanceId)) (hi : instanceId ≤ 4294967295) :
    ClearUniqueCreatureEvents L = .ok 0
      { L with
        eluna := (List.range' 1 (Hooks.CREATURE_EVENT_COUNT - 1)).foldl
          (fun E i => { E with
            CreatureUniqueBindings := E.CreatureUniqueBindings.Clear ⟨i, guid, instanceId⟩ })
          L.eluna } := by
  rcases h3 with h3 | h3 <;>
  simp [ClearUniqueCreatureEvents, lua_isnoneornil, h3, CHECKVAL_uint32_apply, CHECKVAL_ObjectGuid,
    h1, h2, natCast_not_neg, Nat.not_lt.mpr hi, forLoop, forEach_modifyEluna]

/-- The loop `for (i = 1; i < count; ++i) Clear(Key(i, guid, instanceId))` removes from
the unique registry exactly the handles of `(guid, instanceId)` under the kinds
`1 .. count - 1`. -/
theorem clear_loop_unique_bindings (registry : Eluna → BindingMap UniqueObjectKey)
    (upd : Nat → Eluna → Eluna) (guid instanceId count : Nat)
    (hupd : ∀ i E, registry (upd i E) = (registry E).Clear ⟨i, guid, instanceId⟩) (E : Eluna) :
    (registry ((List.range' 1 (count - 1)).foldl (fun E i => upd i E) E)).bindings =
      (registry E).bindings.filter
        (fun b => decide (¬ (b.1.guid = guid ∧ b.1.instance_id = instanceId ∧
          1 ≤ b.1.event_id ∧ b.1.event_id < count))) := by
  rw [foldl_registry registry upd (fun i => ⟨i, guid, instanceId⟩) hupd, foldl_Clear_bindings]
  apply List.filter_congr
  intro b _
  rcases b with ⟨⟨k, g, n⟩, h⟩
  simp only [List.mem_range'_1, ne_eq, UniqueObjectKey.mk.injEq, decide_eq_decide]
  constructor
  · intro hall ⟨hg, hn, hk1, hk2⟩
    exact hall k ⟨hk1, by omega⟩ ⟨rfl, hg, hn⟩
  · intro hnot i hi ⟨hki, hg, hn⟩
    exact hnot ⟨hg, hn, by omega, by omega⟩

theorem lookup_after_clear_loop_unique (B B1 : BindingMap UniqueObjectKey)
    (guid instanceId count : Nat)
    (h : B1.bindings = B.bindings.filter
      (fun b => decide (¬ (b.1.guid = guid ∧ b.1.instance_id = instanceId ∧
        1 ≤ b.1.event_id ∧ b.1.event_id < count))))
    (k : Nat) (hk1 : 1 ≤ k) (hk2 : k < count) : B1.lookup ⟨k, guid, instanceId⟩ = [] := by
  unfold BindingMap.lookup
  rw [h, List.filter_filter, List.map_eq_nil_iff, List.filter_eq_nil_iff]
  intro b _
  rcases b with ⟨⟨k1, g1, n1⟩, hb⟩
  simp only [UniqueObjectKey.mk.injEq, Bool.and_eq_true, decide_eq_true_eq]
  rintro ⟨⟨rfl, rfl, rfl⟩, hnot⟩
  exact hnot ⟨rfl, rfl, hk1, hk2⟩

/-- Every event of an entry-keyed family lies in the range of its clearing loop. -/
theorem family_events_in_loop_range :
    ∀ F ∈ entryFamilies, ∀ k ∈ F.events, 1 ≤ k ∧ k < F.count := by
  decide

/-- What an entry-only clear does to the registry of its family. -/
theorem entry_clear_of_apply (F : EntryFamily) (upd : Nat → Eluna → Eluna) (entry : Nat)
    (L : lua_State)
    (hrun : F.clear L = .ok 0
      { L with eluna := (List.range' 1 (F.count - 1)).foldl (fun E i => upd i E) L.eluna })
    (hupd : ∀ i E, F.registry (upd i E) = (F.registry E).Clear ⟨i, entry⟩)
    (hin : ∀ k ∈ F.events, 1 ≤ k ∧ k < F.count) :
    ∃ L1, F.clear L = .ok 0 L1 ∧
      (F.registry L1.eluna).bindings = (F.registry L.eluna).bindings.filter
        (fun b => decide (¬ (b.1.entry = entry ∧ 1 ≤ b.1.event_id ∧ b.1.event_id < F.count))) ∧
      (∀ k, 1 ≤ k → k < F.count → (F.registry L1.eluna).lookup ⟨k, entry⟩ = []) ∧
      (∀ k ∈ F.events, (F.registry L1.eluna).lookup ⟨k, entry⟩ = []) ∧
      ((∀ b ∈ (F.registry L.eluna).bindings, b.1.event_id ∈ F.events) →
        ∀ b ∈ (F.registry L1.eluna).bindings, b.1.entry ≠ entry) := by
  have hb := clear_loop_bindings F.registry upd entry F.count hupd L.eluna
  have hl := lookup_after_clear_loop (F.registry L.eluna) _ entry F.count hb
  refine ⟨_, hrun, hb, hl, fun k hk => hl k (hin k hk).1 (hin k hk).2, ?_⟩
  intro hwf b hmem
  simp only [] at hmem
  rw [hb, List.mem_filter] at hmem
  have hk := hin _ (hwf b hmem.1)
  intro he
  simpa [he, hk.1, hk.2] using hmem.2

/-- C10: clearing an entry without naming a kind clears every kind of the family.  For
each entry-keyed family, `Clear<Family>Events(entry)` with `event_type` absent or `nil`
removes from the family's registry exactly the handles of `entry` under the kinds
`1 <= k < <FAMILY>_EVENT_COUNT`; this range holds every event of the family's
enumeration (the packet events 5, 6 and 7 included), so the lookup of `(k, entry)` is
empty for each of them, and in a registry whose keys all carry events of the family no
handle of `entry` is left.  `ClearUniqueCreatureEvents(guid, instance_id)` does the same
for the keys `(k, guid, instance_id)`. -/
theorem clear_entry_without_kind_clears_every_kind (L : lua_State) :
    (∀ F ∈ entryFamilies, ∀ entry : Nat,
      slot L 1 = some (.number entry) → entry ≤ 4294967295 →
      (slot L 2 = none ∨ slot L 2 = some .nil) →
      ∃ L1, F.clear L = .ok 0 L1 ∧
        (F.registry L1.eluna).bindings = (F.registry L.eluna).bindings.filter
          (fun b => decide
            (¬ (b.1.entry = entry ∧ 1 ≤ b.1.event_id ∧ b.1.event_id < F.count))) ∧
        (∀ k, 1 ≤ k → k < F.count → (F.registry L1.eluna).lookup ⟨k, entry⟩ = []) ∧
        (∀ k ∈ F.events, (F.registry L1.eluna).lookup ⟨k, entry⟩ = []) ∧
        ((∀ b ∈ (F.registry L.eluna).bindings, b.1.event_id ∈ F.events) →
          ∀ b ∈ (F.registry L1.eluna).bindings, b.1.entry ≠ entry)) ∧
    (∀ guid instanceId : Nat,
      slot L 1 = some (.userdata guid) →
      slot L 2 = some (.number instanceId) → instanceId ≤ 4294967295 →
      (slot L 3 = none ∨ slot L 3 = some .nil) →
      ∃ L1, ClearUniqueCreatureEvents L = .ok 0 L1 ∧
        L1.eluna.CreatureUniqueBindings.bindings =
          L.eluna.CreatureUniqueBindings.bindings.filter
            (fun b => decide (¬ (b.1.guid = guid ∧ b.1.instance_id = instanceId ∧
              1 ≤ b.1.event_id ∧ b.1.event_id < Hooks.CREATURE_EVENT_COUNT))) ∧
        (∀ k, 1 ≤ k → k < Hooks.CREATURE_EVENT_COUNT →
          L1.eluna.CreatureUniqueBindings.lookup ⟨k, guid, instanceId⟩ = []) ∧
        (∀ k ∈ Hooks.CreatureEvents,
          L1.eluna.CreatureUniqueBindings.lookup ⟨k, guid, instanceId⟩ = [])) ∧
    (∀ F ∈ entryFamilies, ∀ k ∈ F.events, 1 ≤ k ∧ k < F.count) ∧
    (∀ k ∈ Hooks.PacketEvents, 1 ≤ k ∧ k < Hooks.PACKET_EVENT_COUNT) := by
  refine ⟨?_, ?_, family_events_in_loop_range, by decide⟩
  · intro F hF entry h1 he h2
    have hin := family_events_in_loop_range F hF
    simp only [entryFamilies, List.mem_cons, List.mem_singleton, List.not_mem_nil,
      or_false] at hF
    rcases hF with rfl | rfl | rfl | rfl | rfl | rfl | rfl | rfl | rfl | rfl | rfl
    · exact entry_clear_of_apply _ _ entry L (ClearCreatureEvents_entry_apply L entry h2 h1 he)
        (fun _ _ => rfl) hin
    · exact entry_clear_of_apply _ _ entry L
        (ClearCreatureGossipEvents_entry_apply L entry h2 h1 he) (fun _ _ => rfl) hin
    · exact entry_clear_of_apply _ _ entry L
        (ClearGameObjectEvents_entry_apply L entry h2 h1 he) (fun _ _ => rfl) hin
    · exact entry_clear_of_apply _ _ entry L
        (ClearGameObjectGossipEvents_entry_apply L entry h2 h1 he) (fun _ _ => rfl) hin
    · exact entry_clear_of_apply _ _ entry L (ClearItemEvents_entry_apply L entry h2 h1 he)
        (fun _ _ => rfl) hin
    · exact entry_clear_of_apply _ _ entry L
        (ClearItemGossipEvents_entry_apply L entry h2 h1 he) (fun _ _ => rfl) hin
    · exact entry_clear_of_apply _ _ entry L (ClearPacketEvents_entry_apply L entry h2 h1 he)
        (fun _ _ => rfl) hin
    · exact entry_clear_of_apply _ _ entry L
        (ClearPlayerGossipEvents_entry_apply L entry h2 h1 he) (fun _ _ => rfl) hin
    · exact entry_clear_of_apply _ _ entry L (ClearMapEvents_entry_apply L entry h2 h1 he)
        (fun _ _ => rfl) hin
    · exact entry_clear_of_apply _ _ entry L
        (ClearInstanceEvents_entry_apply L entry h2 h1 he) (fun _ _ => rfl) hin
    · exact entry_clear_of_apply _ _ entry L (ClearSpellEvents_entry_apply L entry h2 h1 he)
        (fun _ _ => rfl) hin
  · intro guid instanceId h1 h2 hi h3
    have hb := clear_loop_unique_bindings (fun E => E.CreatureUniqueBindings)
      (fun i E => { E with
        CreatureUniqueBindings := E.CreatureUniqueBindings.Clear ⟨i, guid, instanceId⟩ })
      guid instanceId Hooks.CREATURE_EVENT_COUNT (fun _ _ => rfl) L.eluna
    have hl := lookup_after_clear_loop_unique L.eluna.CreatureUniqueBindings _ guid instanceId
      Hooks.CREATURE_EVENT_COUNT hb
    refine ⟨_, ClearUniqueCreatureEvents_entry_apply L guid instanceId h3 h1 h2 hi, hb, hl, ?_⟩
    intro k hk
    have hr : 1 ≤ k ∧ k < Hooks.CREATURE_EVENT_COUNT := by
      revert k
      decide
    exact hl k hr.1 hr.2

theorem clear_entry_without_kind_clears_every_kind_witness :
    ∃ L1, ClearCreatureEvents
        { stack := [.number 1234], registry := emptyRegistry, eluna := creatureEluna } =
        .ok 0 L1 ∧
      (∀ k ∈ Hooks.CreatureEvents, L1.eluna.CreatureEventBindings.lookup ⟨k, 1234⟩ = []) ∧
      (∀ b ∈ L1.eluna.CreatureEventBindings.bindings, b.1.entry ≠ 1234) :=
  let ⟨L1, hrun, _, _, hev, hnone⟩ :=
    (clear_entry_without_kind_clears_every_kind
      { stack := [.number 1234], registry := emptyRegistry, eluna := creatureEluna }).1
      ⟨ClearCreatureEvents, fun E => E.CreatureEventBindings, Hooks.CREATURE_EVENT_COUNT,
        Hooks.CreatureEvents⟩
      (by simp [entryFamilies]) 1234 rfl (by decide) (Or.inl rfl)
  ⟨L1, hrun, hev, hnone (by decide)⟩

/-! ## Clearing one key, and clearing a global family -/

/-- A keyed clear leaves the handles of every other key as they are. -/
theorem lookup_Clear_other {K : Type} [DecidableEq K] (B : BindingMap K) (key other : K)
    (h : other ≠ key) : (B.Clear key).lookup other = B.lookup other := by
  unfold BindingMap.lookup BindingMap.Clear
  rw [List.filter_filter]
  congr 1
  apply List.filter_congr
  intro b _
  by_cases hb : b.1 = other
  · simp [hb, h]
  · simp [hb]

/-- A keyed clear leaves no handle under its key. -/
theorem lookup_Clear_self {K : Type} [DecidableEq K] (B : BindingMap K) (key : K) :
    (B.Clear key).lookup key = [] := by
  unfold BindingMap.lookup BindingMap.Clear
  rw [List.filter_filter, List.map_eq_nil_iff, List.filter_eq_nil_iff]
  intro b _
  by_cases hb : b.1 = key <;> simp [hb]

/-- After a whole-registry clear every lookup is empty. -/
theorem lookup_ClearAll {K : Type} [DecidableEq K] (B : BindingMap K) (key : K) :
    B.ClearAll.lookup key = [] := rfl

theorem ClearCreatureEvents_kind_apply (L : lua_State) (entry event_type : Nat)
    (h1 : slot L 1 = some (.number entry)) (he : entry ≤ 4294967295)
    (h2 : slot L 2 = some (.number event_type)) (hk : event_type ≤ 4294967295) :
    ClearCreatureEvents L = .ok 0
      { L with
        eluna := { L.eluna with
          CreatureEventBindings := L.eluna.CreatureEventBindings.Clear ⟨event_type, entry⟩ } } := by
  simp [ClearCreatureEvents, lua_isnoneornil, h2, CHECKVAL_uint32_apply, h1, natCast_not_neg,
    Nat.not_lt.mpr he, Nat.not_lt.mpr hk, modifyEluna]

theorem ClearCreatureGossipEvents_kind_apply (L : lua_State) (entry event_type : Nat)
    (h1 : slot L 1 = some (.number entry)) (he : entry ≤ 4294967295)
    (h2 : slot L 2 = some (.number event_type)) (hk : event_type ≤ 4294967295) :
    ClearCreatureGossipEvents L = .ok 0
      { L with
        eluna := { L.eluna with
          CreatureGossipBindings := L.eluna.CreatureGossipBindings.Clear ⟨event_type, entry⟩ } } := by
  simp [ClearCreatureGossipEvents, lua_isnoneornil, h2, CHECKVAL_uint32_apply, h1, natCast_not_neg,
    Nat.not_lt.mpr he, Nat.not_lt.mpr hk, modifyEluna]

theorem ClearGameObjectEvents_kind_apply (L : lua_State) (entry event_type : Nat)
    (h1 : slot L 1 = some (.number entry)) (he : entry ≤ 4294967295)
    (h2 : slot L 2 = some (.number event_type)) (hk : event_type ≤ 4294967295) :
    ClearGameObjectEvents L = .ok 0
      { L with
        eluna := { L.eluna with
          GameObjectEventBindings := L.eluna.GameObjectEventBindings.Clear ⟨event_type, entry⟩ } } := by
  simp [ClearGameObjectEvents, lua_isnoneornil, h2, CHECKVAL_uint32_apply, h1, natCast_not_neg,
    Nat.not_lt.mpr he, Nat.not_lt.mpr hk, modifyEluna]

theorem ClearGameObjectGossipEvents_kind_apply (L : lua_State) (entry event_type : Nat)
    (h1 : slot L 1 = some (.number entry)) (he : entry ≤ 4294967295)
    (h2 : slot L 2 = some (.number event_type)) (hk : event_type ≤ 4294967295) :
    ClearGameObjectGossipEvents L = .ok 0
      { L with
        eluna := { L.eluna with
          GameObjectGossipBindings := L.eluna.GameObjectGossipBindings.Clear ⟨event_type, entry⟩ } } := by
  simp [ClearGameObjectGossipEvents, lua_isnoneornil, h2, CHECKVAL_uint32_apply, h1, natCast_not_neg,
    Nat.not_lt.mpr he, Nat.not_lt.mpr hk, modifyEluna]

theorem ClearItemEvents_kind_apply (L : lua_State) (entry event_type : Nat)
    (h1 : slot L 1 = some (.number entry)) (he : entry ≤ 4294967295)
    (h2 : slot L 2 = some (.number event_type)) (hk : event_type ≤ 4294967295) :
    ClearItemEvents L = .ok 0
      { L with
        eluna := { L.eluna with
          ItemEventBindings := L.eluna.ItemEventBindings.Clear ⟨event_type, entry⟩ } } := by
  simp [ClearItemEvents, lua_isnoneornil, h2, CHECKVAL_uint32_apply, h1, natCast_not_neg,
    Nat.not_lt.mpr he, Nat.not_lt.mpr hk, modifyEluna]

theorem ClearItemGossipEvents_kind_apply (L : lua_State) (entry event_type : Nat)
    (h1 : slot L 1 = some (.number entry)) (he : entry ≤ 4294967295)
    (h2 : slot L 2 = some (.number event_type)) (hk : event_type ≤ 4294967295) :
    ClearItemGossipEvents L = .ok 0
      { L with
        eluna := { L.eluna with
          ItemGossipBindings := L.eluna.ItemGossipBindings.Clear ⟨event_type, entry⟩ } } := by
  simp [ClearItemGossipEvents, lua_isnoneornil, h2, CHECKVAL_uint32_apply, h1, natCast_not_neg,
    Nat.not_lt.mpr he, Nat.not_lt.mpr hk, modifyEluna]

theorem ClearPacketEvents_kind_apply (L : lua_State) (entry event_type : Nat)
    (h1 : slot L 1 = some (.number entry)) (he : entry ≤ 4294967295)
    (h2 : slot L 2 = some (.number event_type)) (hk : event_type ≤ 4294967295) :
    ClearPacketEvents L = .ok 0
      { L with
        eluna := { L.eluna with
          PacketEventBindings := L.eluna.PacketEventBindings.Clear ⟨event_type, entry⟩ } } := by
  simp [ClearPacketEvents, lua_isnoneornil, h2, CHECKVAL_uint32_apply, h1, natCast_not_neg,
    Nat.not_lt.mpr he, Nat.not_lt.mpr hk, modifyEluna]

theorem ClearPlayerGossipEvents_kind_apply (L : lua_State) (entry event_type : Nat)
    (h1 : slot L 1 = some (.number entry)) (he : entry ≤ 4294967295)
    (h2 : slot L 2 = some (.number event_type)) (hk : event_type ≤ 4294967295) :
    ClearPlayerGossipEvents L = .ok 0
      { L with
        eluna := { L.eluna with
          PlayerGossipBindings := L.eluna.PlayerGossipBindings.Clear ⟨event_type, entry⟩ } } := by
  simp [ClearPlayerGossipEvents, lua_isnoneornil, h2, CHECKVAL_uint32_apply, h1, natCast_not_neg,
    Nat.not_lt.mpr he, Nat.not_lt.mpr hk, modifyEluna]

theorem ClearMapEvents_kind_apply (L : lua_State) (entry event_type : Nat)
    (h1 : slot L 1 = some (.number entry)) (he : entry ≤ 4294967295)
    (h2 : slot L 2 = some (.number event_type)) (hk : event_type ≤ 4294967295) :
    ClearMapEvents L = .ok 0
      { L with
        eluna := { L.eluna with
          MapEventBindings := L.eluna.MapEventBindings.Clear ⟨event_type, entry⟩ } } := by
  simp [ClearMapEvents, lua_isnoneornil, h2, CHECKVAL_uint32_apply, h1, natCast_not_neg,
    Nat.not_lt.mpr he, Nat.not_lt.mpr hk, modifyEluna]

theorem ClearInstanceEvents_kind_apply (L : lua_State) (entry event_type : Nat)
    (h1 : slot L 1 = some (.number entry)) (he : entry ≤ 4294967295)
    (h2 : slot L 2 = some (.number event_type)) (hk : event_type ≤ 4294967295) :
    ClearInstanceEvents L = .ok 0
      { L with
        eluna := { L.eluna with
          InstanceEventBindings := L.eluna.InstanceEventBindings.Clear ⟨event_type, entry⟩ } } := by
  simp [ClearInstanceEvents, lua_isnoneornil, h2, CHECKVAL_uint32_apply, h1, natCast_not_neg,
    Nat.not_lt.mpr he, Nat.not_lt.mpr hk, modifyEluna]

theorem ClearSpellEvents_kind_apply (L : lua_State) (entry event_type : Nat)
    (h1 : slot L 1 = some (.number entry)) (he : entry ≤ 4294967295)
    (h2 : slot L 2 = some (.number event_type)) (hk : event_type ≤ 4294967295) :
    ClearSpellEvents L = .ok 0
      { L with
        eluna := { L.eluna with
          SpellEventBindings := L.eluna.SpellEventBindings.Clear ⟨event_type, entry⟩ } } := by
  simp [ClearSpellEvents, lua_isnoneornil, h2, CHECKVAL_uint32_apply, h1, natCast_not_neg,
    Nat.not_lt.mpr he, Nat.not_lt.mpr hk, modifyEluna]

theorem ClearUniqueCreatureEvents_kind_apply (L : lua_State) (guid instanceId event_type : Nat)
    (h1 : slot L 1 = some (.userdata guid))
    (h2 : slot L 2 = some (.number instanceId)) (hi : instanceId ≤ 4294967295)
    (h3 : slot L 3 = some (.number event_type)) (hk : event_type ≤ 4294967295) :
    ClearUniqueCreatureEvents L = .ok 0
      { L with
        eluna := { L.eluna with
          CreatureUniqueBindings :=
            L.eluna.CreatureUniqueBindings.Clear ⟨event_type, guid, instanceId⟩ } } := by
  simp [ClearUniqueCreatureEvents, lua_isnoneornil, h3, CHECKVAL_uint32_apply, CHECKVAL_ObjectGuid,
    h1, h2, natCast_not_neg, Nat.not_lt.mpr hi, Nat.not_lt.mpr hk, modifyEluna]

theorem ClearBattleGroundEvents_all_apply (L : lua_State)
    (h1 : slot L 1 = none ∨ slot L 1 = some .nil) :
    ClearBattleGroundEvents L = .ok 0
      { L with eluna := { L.eluna with BGEventBindings := L.eluna.BGEventBindings.ClearAll } } := by
  rcases h1 with h1 | h1 <;> simp [ClearBattleGroundEvents, lua_isnoneornil, h1, modifyEluna]

theorem ClearBattleGroundEvents_kind_apply (L : lua_State) (event_type : Nat)
    (h1 : slot L 1 = some (.number event_type)) (hk : event_type ≤ 4294967295) :
    ClearBattleGroundEvents L = .ok 0
      { L with
        eluna := { L.eluna with
          BGEventBindings := L.eluna.BGEventBindings.Clear ⟨event_type⟩ } } := by
  simp [ClearBattleGroundEvents, lua_isnoneornil, h1, CHECKVAL_uint32_apply, natCast_not_neg,
    Nat.not_lt.mpr hk, modifyEluna]

theorem ClearGroupEvents_all_apply (L : lua_State)
    (h1 : slot L 1 = none ∨ slot L 1 = some .nil) :
    ClearGroupEvents L = .ok 0
      { L with eluna := { L.eluna with GroupEventBindings := L.eluna.GroupEventBindings.ClearAll } } := by
  rcases h1 with h1 | h1 <;> simp [ClearGroupEvents, lua_isnoneornil, h1, modifyEluna]

theorem ClearGroupEvents_kind_apply (L : lua_State) (event_type : Nat)
    (h1 : slot L 1 = some (.number event_type)) (hk : event_type ≤ 4294967295) :
    ClearGroupEvents L = .ok 0
      { L with
        eluna := { L.eluna with
          GroupEventBindings := L.eluna.GroupEventBindings.Clear ⟨event_type⟩ } } := by
  simp [ClearGroupEvents, lua_isnoneornil, h1, CHECKVAL_uint32_apply, natCast_not_neg,
    Nat.not_lt.mpr hk, modifyEluna]

theorem ClearGuildEvents_all_apply (L : lua_State)
    (h1 : slot L 1 = none ∨ slot L 1 = some .nil) :
    ClearGuildEvents L = .ok 0
      { L with eluna := { L.eluna with GuildEventBindings := L.eluna.GuildEventBindings.ClearAll } } := by
  rcases h1 with h1 | h1 <;> simp [ClearGuildEvents, lua_isnoneornil, h1, modifyEluna]

theorem ClearGuildEvents_kind_apply (L : lua_State) (event_type : Nat)
    (h1 : slot L 1 = some (.number event_type)) (hk : event_type ≤ 4294967295) :
    ClearGuildEvents L = .ok 0
      { L with
        eluna := { L.eluna with
          GuildEventBindings := L.eluna.GuildEventBindings.Clear ⟨event_type⟩ } } := by
  simp [ClearGuildEvents, lua_isnoneornil, h1, CHECKVAL_uint32_apply, natCast_not_neg,
    Nat.not_lt.mpr hk, modifyEluna]

theorem ClearPlayerEvents_all_apply (L : lua_State)
    (h1 : slot L 1 = none ∨ slot L 1 = some .nil) :
    ClearPlayerEvents L = .ok 0
      { L with eluna := { L.eluna with PlayerEventBindings := L.eluna.PlayerEventBindings.ClearAll } } := by
  rcases h1 with h1 | h1 <;> simp [ClearPlayerEvents, lua_isnoneornil, h1, modifyEluna]

theorem ClearPlayerEvents_kind_apply (L : lua_State) (event_type : Nat)
    (h1 : slot L 1 = some (.number event_type)) (hk : event_type ≤ 4294967295) :
    ClearPlayerEvents L = .ok 0
      { L with
        eluna := { L.eluna with
          PlayerEventBindings := L.eluna.PlayerEventBindings.Clear ⟨event_type⟩ } } := by
  simp [ClearPlayerEvents, lua_isnoneornil, h1, CHECKVAL_uint32_apply, natCast_not_neg,
    Nat.not_lt.mpr hk, modifyEluna]

theorem ClearServerEvents_all_apply (L : lua_State)
    (h1 : slot L 1 = none ∨ slot L 1 = some .nil) :
    ClearServerEvents L = .ok 0
      { L with eluna := { L.eluna with ServerEventBindings := L.eluna.ServerEventBindings.ClearAll } } := by
  rcases h1 with h1 | h1 <;> simp [ClearServerEvents, lua_isnoneornil, h1, modifyEluna]

theorem ClearServerEvents_kind_apply (L : lua_State) (event_type : Nat)
    (h1 : slot L 1 = some (.number event_type)) (hk : event_type ≤ 4294967295) :
    ClearServerEvents L = .ok 0
      { L with
        eluna := { L.eluna with
          ServerEventBindings := L.eluna.ServerEventBindings.Clear ⟨event_type⟩ } } := by
  simp [ClearServerEvents, lua_isnoneornil, h1, CHECKVAL_uint32_apply, natCast_not_neg,
    Nat.not_lt.mpr hk, modifyEluna]

theorem ClearTicketEvents_all_apply (L : lua_State)
    (h1 : slot L 1 = none ∨ slot L 1 = some .nil) :
    ClearTicketEvents L = .ok 0
      { L with eluna := { L.eluna with TicketEventBindings := L.eluna.TicketEventBindings.ClearAll } } := by
  rcases h1 with h1 | h1 <;> simp [ClearTicketEvents, lua_isnoneornil, h1, modifyEluna]

theorem ClearTicketEvents_kind_apply (L : lua_State) (event_type : Nat)
    (h1 : slot L 1 = some (.number event_type)) (hk : event_type ≤ 4294967295) :
    ClearTicketEvents L = .ok 0
      { L with
        eluna := { L.eluna with
          TicketEventBindings := L.eluna.TicketEventBindings.Clear ⟨event_type⟩ } } := by
  simp [ClearTicketEvents, lua_isnoneornil, h1, CHECKVAL_uint32_apply, natCast_not_neg,
    Nat.not_lt.mpr hk, modifyEluna]

/-- C11: clearing an entry for one kind touches exactly one key.  For each entry-keyed
family, `Clear<Family>Events(entry, event_type)` with a number `event_type` returns no
value and leaves the stack, the reference table and the engine as they were except for
the family's own registry, in which exactly the key `(event_type, entry)` is cleared:
that key is left without handles, and the handles of every other key (the same entry
under another kind, another entry) are the ones it had.
`ClearUniqueCreatureEvents(guid, instance_id, event_type)` does the same for the key
`(event_type, guid, instance_id)`. -/
theorem clear_entry_kind_touches_one_key (L : lua_State) :
    (∀ entry event_type : Nat,
      slot L 1 = some (.number entry) → entry ≤ 4294967295 →
      slot L 2 = some (.number event_type) → event_type ≤ 4294967295 →
      ClearCreatureEvents L = .ok 0
        { L with
          eluna := { L.eluna with
            CreatureEventBindings := L.eluna.CreatureEventBindings.Clear ⟨event_type, entry⟩ } } ∧
      ClearCreatureGossipEvents L = .ok 0
        { L with
          eluna := { L.eluna with
            CreatureGossipBindings := L.eluna.CreatureGossipBindings.Clear ⟨event_type, entry⟩ } } ∧
      ClearGameObjectEvents L = .ok 0
        { L with
          eluna := { L.eluna with
            GameObjectEventBindings := L.eluna.GameObjectEventBindings.Clear ⟨event_type, entry⟩ } } ∧
      ClearGameObjectGossipEvents L = .ok 0
        { L with
          eluna := { L.eluna with
            GameObjectGossipBindings := L.eluna.GameObjectGossipBindings.Clear ⟨event_type, entry⟩ } } ∧
      ClearItemEvents L = .ok 0
        { L with
          eluna := { L.eluna with
            ItemEventBindings := L.eluna.ItemEventBindings.Clear ⟨event_type, entry⟩ } } ∧
      ClearItemGossipEvents L = .ok 0
        { L with
          eluna := { L.eluna with
            ItemGossipBindings := L.eluna.ItemGossipBindings.Clear ⟨event_type, entry⟩ } } ∧
      ClearPacketEvents L = .ok 0
        { L with
          eluna := { L.eluna with
            PacketEventBindings := L.eluna.PacketEventBindings.Clear ⟨event_type, entry⟩ } } ∧
      ClearPlayerGossipEvents L = .ok 0
        { L with
          eluna := { L.eluna with
            PlayerGossipBindings := L.eluna.PlayerGossipBindings.Clear ⟨event_type, entry⟩ } } ∧
      ClearMapEvents L = .ok 0
        { L with
          eluna := { L.eluna with
            MapEventBindings := L.eluna.MapEventBindings.Clear ⟨event_type, entry⟩ } } ∧
      ClearInstanceEvents L = .ok 0
        { L with
          eluna := { L.eluna with
            InstanceEventBindings := L.eluna.InstanceEventBindings.Clear ⟨event_type, entry⟩ } } ∧
      ClearSpellEvents L = .ok 0
        { L with
          eluna := { L.eluna with
            SpellEventBindings := L.eluna.SpellEventBindings.Clear ⟨event_type, entry⟩ } }) ∧
    (∀ guid instanceId event_type : Nat,
      slot L 1 = some (.userdata guid) →
      slot L 2 = some (.number instanceId) → instanceId ≤ 4294967295 →
      slot L 3 = some (.number event_type) → event_type ≤ 4294967295 →
      ClearUniqueCreatureEvents L = .ok 0
        { L with
          eluna := { L.eluna with
            CreatureUniqueBindings :=
              L.eluna.CreatureUniqueBindings.Clear ⟨event_type, guid, instanceId⟩ } }) ∧
    (∀ (B : BindingMap EntryKey) (key other : EntryKey),
      (B.Clear key).lookup key = [] ∧
      (other ≠ key → (B.Clear key).lookup other = B.lookup other)) ∧
    (∀ (B : BindingMap UniqueObjectKey) (key other : UniqueObjectKey),
      (B.Clear key).lookup key = [] ∧
      (other ≠ key → (B.Clear key).lookup other = B.lookup other)) := by
  refine ⟨?_, ?_, ?_, ?_⟩
  · intro entry event_type h1 he h2 hk
    exact ⟨ClearCreatureEvents_kind_apply L entry event_type h1 he h2 hk,
      ClearCreatureGossipEvents_kind_apply L entry event_type h1 he h2 hk,
      ClearGameObjectEvents_kind_apply L entry event_type h1 he h2 hk,
      ClearGameObjectGossipEvents_kind_apply L entry event_type h1 he h2 hk,
      ClearItemEvents_kind_apply L entry event_type h1 he h2 hk,
      ClearItemGossipEvents_kind_apply L entry event_type h1 he h2 hk,
      ClearPacketEvents_kind_apply L entry event_type h1 he h2 hk,
      ClearPlayerGossipEvents_kind_apply L entry event_type h1 he h2 hk,
      ClearMapEvents_kind_apply L entry event_type h1 he h2 hk,
      ClearInstanceEvents_kind_apply L entry event_type h1 he h2 hk,
      ClearSpellEvents_kind_apply L entry event_type h1 he h2 hk⟩
  · intro guid instanceId event_type h1 h2 hi h3 hk
    exact ClearUniqueCreatureEvents_kind_apply L guid instanceId event_type h1 h2 hi h3 hk
  · intro B key other
    exact ⟨lookup_Clear_self B key, lookup_Clear_other B key other⟩
  · intro B key other
    exact ⟨lookup_Clear_self B key, lookup_Clear_other B key other⟩

theorem clear_entry_kind_touches_one_key_witness :
    ClearCreatureEvents
        { stack := [.number 1234, .number 9], registry := emptyRegistry,
          eluna := creatureEluna } =
      .ok 0
        { stack := [.number 1234, .number 9], registry := emptyRegistry,
          eluna := sampleEluna { globalProcessor := idleProcessor, processors := [] }
            { bindings := [(⟨9, 5678⟩, sampleBinding 2), (⟨37, 1234⟩, sampleBinding 3)] } } :=
  ((clear_entry_kind_touches_one_key
      { stack := [.number 1234, .number 9], registry := emptyRegistry,
        eluna := creatureEluna }).1 1234 9 rfl (by decide) rfl (by decide)).1

/-- C12: for each global family, `Clear<Family>Events()` with `event_type` absent or
`nil` empties the whole registry of the family, and `Clear<Family>Events(event_type)`
with a number clears exactly the key of that kind; in both cases no value is returned
and the stack, the reference table, the timed events and the registries of all other
families are left as they were. -/
theorem clear_global_family (L : lua_State) :
    ((slot L 1 = none ∨ slot L 1 = some .nil) →
      ClearBattleGroundEvents L = .ok 0
        { L with eluna := { L.eluna with BGEventBindings := L.eluna.BGEventBindings.ClearAll } } ∧
      ClearGroupEvents L = .ok 0
        { L with eluna := { L.eluna with GroupEventBindings := L.eluna.GroupEventBindings.ClearAll } } ∧
      ClearGuildEvents L = .ok 0
        { L with eluna := { L.eluna with GuildEventBindings := L.eluna.GuildEventBindings.ClearAll } } ∧
      ClearPlayerEvents L = .ok 0
        { L with eluna := { L.eluna with PlayerEventBindings := L.eluna.PlayerEventBindings.ClearAll } } ∧
      ClearServerEvents L = .ok 0
        { L with eluna := { L.eluna with ServerEventBindings := L.eluna.ServerEventBindings.ClearAll } } ∧
      ClearTicketEvents L = .ok 0
        { L with eluna := { L.eluna with TicketEventBindings := L.eluna.TicketEventBindings.ClearAll } }) ∧
    (∀ event_type : Nat, slot L 1 = some (.number event_type) → event_type ≤ 4294967295 →
      ClearBattleGroundEvents L = .ok 0
        { L with
          eluna := { L.eluna with
            BGEventBindings := L.eluna.BGEventBindings.Clear ⟨event_type⟩ } } ∧
      ClearGroupEvents L = .ok 0
        { L with
          eluna := { L.eluna with
            GroupEventBindings := L.eluna.GroupEventBindings.Clear ⟨event_type⟩ } } ∧
      ClearGuildEvents L = .ok 0
        { L with
          eluna := { L.eluna with
            GuildEventBindings := L.eluna.GuildEventBindings.Clear ⟨event_type⟩ } } ∧
      ClearPlayerEvents L = .ok 0
        { L with
          eluna := { L.eluna with
            PlayerEventBindings := L.eluna.PlayerEventBindings.Clear ⟨event_type⟩ } } ∧
      ClearServerEvents L = .ok 0
        { L with
          eluna := { L.eluna with
            ServerEventBindings := L.eluna.ServerEventBindings.Clear ⟨event_type⟩ } } ∧
      ClearTicketEvents L = .ok 0
        { L with
          eluna := { L.eluna with
            TicketEventBindings := L.eluna.TicketEventBindings.Clear ⟨event_type⟩ } }) ∧
    (∀ (B : BindingMap EventKey) (key other : EventKey),
      B.ClearAll.lookup key = [] ∧
      (B.Clear key).lookup key = [] ∧
      (other ≠ key → (B.Clear key).lookup other = B.lookup other)) := by
  refine ⟨?_, ?_, ?_⟩
  · intro h1
    exact ⟨ClearBattleGroundEvents_all_apply L h1,
      ClearGroupEvents_all_apply L h1,
      ClearGuildEvents_all_apply L h1,
      ClearPlayerEvents_all_apply L h1,
      ClearServerEvents_all_apply L h1,
      ClearTicketEvents_all_apply L h1⟩
  · intro event_type h1 hk
    exact ⟨ClearBattleGroundEvents_kind_apply L event_type h1 hk,
      ClearGroupEvents_kind_apply L event_type h1 hk,
      ClearGuildEvents_kind_apply L event_type h1 hk,
      ClearPlayerEvents_kind_apply L event_type h1 hk,
      ClearServerEvents_kind_apply L event_type h1 hk,
      ClearTicketEvents_kind_apply L event_type h1 hk⟩
  · intro B key other
    exact ⟨lookup_ClearAll B key, lookup_Clear_self B key, lookup_Clear_other B key other⟩

theorem clear_global_family_witness :
    ClearServerEvents { stack := [], registry := emptyRegistry, eluna := serverEluna } =
      .ok 0
        { stack := [], registry := emptyRegistry,
          eluna := { serverEluna with ServerEventBindings := BindingMap.empty } } ∧
    ClearServerEvents
        { stack := [.number 14], registry := emptyRegistry, eluna := serverEluna } =
      .ok 0
        { stack := [.number 14], registry := emptyRegistry,
          eluna := { serverEluna with
            ServerEventBindings := { bindings := [(⟨13⟩, sampleBinding 2)] } } } :=
  ⟨((clear_global_family
      { stack := [], registry := emptyRegistry, eluna := serverEluna }).1
      (Or.inl rfl)).2.2.2.2.1,
   ((clear_global_family
      { stack := [.number 14], registry := emptyRegistry, eluna := serverEluna }).2.1
      14 rfl (by decide)).2.2.2.2.1⟩

/-! ## Clearing twice, and clearing what is not there -/

theorem BindingMap.eq_of_bindings {K : Type} (B B1 : BindingMap K)
    (h : B.bindings = B1.bindings) : B = B1 := by
  cases B
  cases B1
  simp_all

theorem Clear_idem {K : Type} [DecidableEq K] (B : BindingMap K) (key : K) :
    (B.Clear key).Clear key = B.Clear key := by
  apply BindingMap.eq_of_bindings
  simp [BindingMap.Clear, List.filter_filter]

theorem Clear_of_lookup_nil {K : Type} [DecidableEq K] (B : BindingMap K) (key : K)
    (h : B.lookup key = []) : B.Clear key = B := by
  apply BindingMap.eq_of_bindings
  unfold BindingMap.lookup at h
  rw [List.map_eq_nil_iff, List.filter_eq_nil_iff] at h
  simp only [BindingMap.Clear, List.filter_eq_self]
  intro b hb
  simpa using h b hb

theorem ClearAll_of_empty {K : Type} (B : BindingMap K) (h : B.bindings = []) :
    B.ClearAll = B :=
  BindingMap.eq_of_bindings _ _ h.symm

theorem foldl_Clear_idem {K : Type} [DecidableEq K] (key : Nat → K) (values : List Nat)
    (B : BindingMap K) :
    values.foldl (fun B i => B.Clear (key i)) (values.foldl (fun B i => B.Clear (key i)) B) =
      values.foldl (fun B i => B.Clear (key i)) B := by
  apply BindingMap.eq_of_bindings
  rw [foldl_Clear_bindings, foldl_Clear_bindings, List.filter_filter]
  simp

theorem foldl_Clear_of_lookup_nil {K : Type} [DecidableEq K] (key : Nat → K)
    (values : List Nat) (B : BindingMap K) (h : ∀ i ∈ values, B.lookup (key i) = []) :
    values.foldl (fun B i => B.Clear (key i)) B = B := by
  apply BindingMap.eq_of_bindings
  rw [foldl_Clear_bindings, List.filter_eq_self]
  intro b hb
  simp only [ne_eq, decide_eq_true_eq]
  intro i hi hkey
  have hnil := h i hi
  unfold BindingMap.lookup at hnil
  rw [List.map_eq_nil_iff, List.filter_eq_nil_iff] at hnil
  simpa [hkey] using hnil b hb

/-- A fold of updates that each clear one key of one registry is one update of that
registry. -/
theorem foldl_put {K : Type} [DecidableEq K] (get : Eluna → BindingMap K)
    (put : Eluna → BindingMap K → Eluna)
    (hgp : ∀ E B, get (put E B) = B) (hpp : ∀ E B B1, put (put E B) B1 = put E B1)
    (hpg : ∀ E, put E (get E) = E) (key : Nat → K) (values : List Nat) :
    ∀ E : Eluna, values.foldl (fun E i => put E ((get E).Clear (key i))) E =
      put E (values.foldl (fun B i => B.Clear (key i)) (get E)) := by
  induction values with
  | nil => intro E; exact (hpg E).symm
  | cons i rest ih => intro E; simp only [List.foldl_cons, ih, hgp, hpp]

/-- A binding that replaces one registry `B` of the engine by `g B`, for an idempotent
`g`, returns no value, leaves the stack and the reference table alone, changes nothing
when run again, and changes nothing at all when `g B = B`. -/
theorem clear_twice {K : Type} (clear : LuaM Nat) (get : Eluna → BindingMap K)
    (put : Eluna → BindingMap K → Eluna) (g : BindingMap K → BindingMap K)
    (hgp : ∀ E B, get (put E B) = B) (hpp : ∀ E B B1, put (put E B) B1 = put E B1)
    (hpg : ∀ E, put E (get E) = E) (hg : ∀ B, g (g B) = g B) (L : lua_State)
    (hrun : ∀ E, clear { L with eluna := E } = .ok 0 { L with eluna := put E (g (get E)) }) :
    ∃ L1, clear L = .ok 0 L1 ∧ L1.stack = L.stack ∧ L1.registry = L.registry ∧
      clear L1 = .ok 0 L1 ∧ (g (get L.eluna) = get L.eluna → L1 = L) := by
  refine ⟨{ L with eluna := put L.eluna (g (get L.eluna)) }, hrun L.eluna, rfl, rfl, ?_, ?_⟩
  · have h := hrun (put L.eluna (g (get L.eluna)))
    rw [hgp, hg, hpp] at h
    exact h
  · intro h
    rw [h, hpg]

theorem clear_twice_kind {K : Type} [DecidableEq K] (clear : LuaM Nat)
    (get : Eluna → BindingMap K) (put : Eluna → BindingMap K → Eluna) (key : K)
    (hgp : ∀ E B, get (put E B) = B) (hpp : ∀ E B B1, put (put E B) B1 = put E B1)
    (hpg : ∀ E, put E (get E) = E) (L : lua_State)
    (hrun : ∀ E, clear { L with eluna := E } =
      .ok 0 { L with eluna := put E ((get E).Clear key) }) :
    ∃ L1, clear L = .ok 0 L1 ∧ L1.stack = L.stack ∧ L1.registry = L.registry ∧
      clear L1 = .ok 0 L1 ∧ ((get L.eluna).lookup key = [] → L1 = L) := by
  obtain ⟨L1, h1, h2, h3, h4, h5⟩ :=
    clear_twice clear get put (fun B => B.Clear key) hgp hpp hpg (fun B => Clear_idem B key) L hrun
  exact ⟨L1, h1, h2, h3, h4, fun h => h5 (Clear_of_lookup_nil _ key h)⟩

theorem clear_twice_all {K : Type} (clear : LuaM Nat)
    (get : Eluna → BindingMap K) (put : Eluna → BindingMap K → Eluna)
    (hgp : ∀ E B, get (put E B) = B) (hpp : ∀ E B B1, put (put E B) B1 = put E B1)
    (hpg : ∀ E, put E (get E) = E) (L : lua_State)
    (hrun : ∀ E, clear { L with eluna := E } = .ok 0 { L with eluna := put E (get E).ClearAll }) :
    ∃ L1, clear L = .ok 0 L1 ∧ L1.stack = L.stack ∧ L1.registry = L.registry ∧
      clear L1 = .ok 0 L1 ∧ ((get L.eluna).bindings = [] → L1 = L) := by
  obtain ⟨L1, h1, h2, h3, h4, h5⟩ :=
    clear_twice clear get put (fun B => B.ClearAll) hgp hpp hpg (fun _ => rfl) L hrun
  exact ⟨L1, h1, h2, h3, h4, fun h => h5 (ClearAll_of_empty _ h)⟩

theorem clear_twice_loop {K : Type} [DecidableEq K] (clear : LuaM Nat)
    (get : Eluna → BindingMap K) (put : Eluna → BindingMap K → Eluna) (key : Nat → K)
    (count : Nat)
    (hgp : ∀ E B, get (put E B) = B) (hpp : ∀ E B B1, put (put E B) B1 = put E B1)
    (hpg : ∀ E, put E (get E) = E) (L : lua_State)
    (hrun : ∀ E, clear { L with eluna := E } =
      .ok 0
        { L with
          eluna := (List.range' 1 (count - 1)).foldl
            (fun E i => put E ((get E).Clear (key i))) E }) :
    ∃ L1, clear L = .ok 0 L1 ∧ L1.stack = L.stack ∧ L1.registry = L.registry ∧
      clear L1 = .ok 0 L1 ∧
      ((∀ k, 1 ≤ k → k < count → (get L.eluna).lookup (key k) = []) → L1 = L) := by
  obtain ⟨L1, h1, h2, h3, h4, h5⟩ :=
    clear_twice clear get put
      (fun B => (List.range' 1 (count - 1)).foldl (fun B i => B.Clear (key i)) B)
      hgp hpp hpg (fun B => foldl_Clear_idem key _ B) L
      (fun E => by rw [hrun E, foldl_put get put hgp hpp hpg])
  refine ⟨L1, h1, h2, h3, h4, fun h => h5 (foldl_Clear_of_lookup_nil key _ _ ?_)⟩
  intro i hi
  rw [List.mem_range'_1] at hi
  exact h i hi.1 (by omega)

/-- C13: clearing is idempotent and never an error.  Every `Clear*Events` binding, called
with well-formed arguments (the entry or the GUID and instance id where the family has
one, and `event_type` absent, `nil` or any unsigned 32-bit number, inside the family's
enumeration or not), raises nothing and returns no value, leaves the stack and the
reference table as they were, changes nothing when it is called a second time in a row,
and changes nothing at all when the keys it clears hold no handles. -/
theorem clearing_is_idempotent (L : lua_State) :
    (∀ F ∈ globalFamilies, (slot L 1 = none ∨ slot L 1 = some .nil) →
      ∃ L1, F.clear L = .ok 0 L1 ∧ L1.stack = L.stack ∧ L1.registry = L.registry ∧
        F.clear L1 = .ok 0 L1 ∧ ((F.registry L.eluna).bindings = [] → L1 = L)) ∧
    (∀ F ∈ globalFamilies, ∀ event_type : Nat,
      slot L 1 = some (.number event_type) → event_type ≤ 4294967295 →
      ∃ L1, F.clear L = .ok 0 L1 ∧ L1.stack = L.stack ∧ L1.registry = L.registry ∧
        F.clear L1 = .ok 0 L1 ∧ ((F.registry L.eluna).lookup ⟨event_type⟩ = [] → L1 = L)) ∧
    (∀ F ∈ entryFamilies, ∀ entry : Nat,
      slot L 1 = some (.number entry) → entry ≤ 4294967295 →
      (slot L 2 = none ∨ slot L 2 = some .nil) →
      ∃ L1, F.clear L = .ok 0 L1 ∧ L1.stack = L.stack ∧ L1.registry = L.registry ∧
        F.clear L1 = .ok 0 L1 ∧
        ((∀ k, 1 ≤ k → k < F.count → (F.registry L.eluna).lookup ⟨k, entry⟩ = []) → L1 = L)) ∧
    (∀ F ∈ entryFamilies, ∀ entry event_type : Nat,
      slot L 1 = some (.number entry) → entry ≤ 4294967295 →
      slot L 2 = some (.number event_type) → event_type ≤ 4294967295 →
      ∃ L1, F.clear L = .ok 0 L1 ∧ L1.stack = L.stack ∧ L1.registry = L.registry ∧
        F.clear L1 = .ok 0 L1 ∧
        ((F.registry L.eluna).lookup ⟨event_type, entry⟩ = [] → L1 = L)) ∧
    (∀ guid instanceId : Nat,
      slot L 1 = some (.userdata guid) →
      slot L 2 = some (.number instanceId) → instanceId ≤ 4294967295 →
      (slot L 3 = none ∨ slot L 3 = some .nil) →
      ∃ L1, ClearUniqueCreatureEvents L = .ok 0 L1 ∧ L1.stack = L.stack ∧
        L1.registry = L.registry ∧ ClearUniqueCreatureEvents L1 = .ok 0 L1 ∧
        ((∀ k, 1 ≤ k → k < Hooks.CREATURE_EVENT_COUNT →
            L.eluna.CreatureUniqueBindings.lookup ⟨k, guid, instanceId⟩ = []) → L1 = L)) ∧
    (∀ guid instanceId event_type : Nat,
      slot L 1 = some (.userdata guid) →
      slot L 2 = some (.number instanceId) → instanceId ≤ 4294967295 →
      slot L 3 = some (.number event_type) → event_type ≤ 4294967295 →
      ∃ L1, ClearUniqueCreatureEvents L = .ok 0 L1 ∧ L1.stack = L.stack ∧
        L1.registry = L.registry ∧ ClearUniqueCreatureEvents L1 = .ok 0 L1 ∧
        (L.eluna.CreatureUniqueBindings.lookup ⟨event_type, guid, instanceId⟩ = [] →
          L1 = L)) := by
  refine ⟨?_, ?_, ?_, ?_, ?_, ?_⟩
  · intro F hF h1
    simp only [globalFamilies, List.mem_cons, List.mem_singleton, List.not_mem_nil,
      or_false] at hF
    rcases hF with rfl | rfl | rfl | rfl | rfl | rfl
    · exact clear_twice_all _ (fun E => E.BGEventBindings)
        (fun E B => { E with BGEventBindings := B })
        (fun _ _ => rfl) (fun _ _ _ => rfl) (fun _ => rfl) L
        (fun E => ClearBattleGroundEvents_all_apply { L with eluna := E } h1)
    · exact clear_twice_all _ (fun E => E.GroupEventBindings)
        (fun E B => { E with GroupEventBindings := B })
        (fun _ _ => rfl) (fun _ _ _ => rfl) (fun _ => rfl) L
        (fun E => ClearGroupEvents_all_apply { L with eluna := E } h1)
    · exact clear_twice_all _ (fun E => E.GuildEventBindings)
        (fun E B => { E with GuildEventBindings := B })
        (fun _ _ => rfl) (fun _ _ _ => rfl) (fun _ => rfl) L
        (fun E => ClearGuildEvents_all_apply { L with eluna := E } h1)
    · exact clear_twice_all _ (fun E => E.PlayerEventBindings)
        (fun E B => { E with PlayerEventBindings := B })
        (fun _ _ => rfl) (fun _ _ _ => rfl) (fun _ => rfl) L
        (fun E => ClearPlayerEvents_all_apply { L with eluna := E } h1)
    · exact clear_twice_all _ (fun E => E.ServerEventBindings)
        (fun E B => { E with ServerEventBindings := B })
        (fun _ _ => rfl) (fun _ _ _ => rfl) (fun _ => rfl) L
        (fun E => ClearServerEvents_all_apply { L with eluna := E } h1)
    · exact clear_twice_all _ (fun E => E.TicketEventBindings)
        (fun E B => { E with TicketEventBindings := B })
        (fun _ _ => rfl) (fun _ _ _ => rfl) (fun _ => rfl) L
        (fun E => ClearTicketEvents_all_apply { L with eluna := E } h1)
  · intro F hF event_type h1 hk
    simp only [globalFamilies, List.mem_cons, List.mem_singleton, List.not_mem_nil,
      or_false] at hF
    rcases hF with rfl | rfl | rfl | rfl | rfl | rfl
    · exact clear_twice_kind _ (fun E => E.BGEventBindings)
        (fun E B => { E with BGEventBindings := B }) ⟨event_type⟩
        (fun _ _ => rfl) (fun _ _ _ => rfl) (fun _ => rfl) L
        (fun E => ClearBattleGroundEvents_kind_apply { L with eluna := E } event_type h1 hk)
    · exact clear_twice_kind _ (fun E => E.GroupEventBindings)
        (fun E B => { E with GroupEventBindings := B }) ⟨event_type⟩
        (fun _ _ => rfl) (fun _ _ _ => rfl) (fun _ => rfl) L
        (fun E => ClearGroupEvents_kind_apply { L with eluna := E } event_type h1 hk)
    · exact clear_twice_kind _ (fun E => E.GuildEventBindings)
        (fun E B => { E with GuildEventBindings := B }) ⟨event_type⟩
        (fun _ _ => rfl) (fun _ _ _ => rfl) (fun _ => rfl) L
        (fun E => ClearGuildEvents_kind_apply { L with eluna := E } event_type h1 hk)
    · exact clear_twice_kind _ (fun E => E.PlayerEventBindings)
        (fun E B => { E with PlayerEventBindings := B }) ⟨event_type⟩
        (fun _ _ => rfl) (fun _ _ _ => rfl) (fun _ => rfl) L
        (fun E => ClearPlayerEvents_kind_apply { L with eluna := E } event_type h1 hk)
    · exact clear_twice_kind _ (fun E => E.ServerEventBindings)
        (fun E B => { E with ServerEventBindings := B }) ⟨event_type⟩
        (fun _ _ => rfl) (fun _ _ _ => rfl) (fun _ => rfl) L
        (fun E => ClearServerEvents_kind_apply { L with eluna := E } event_type h1 hk)
    · exact clear_twice_kind _ (fun E => E.TicketEventBindings)
        (fun E B => { E with TicketEventBindings := B }) ⟨event_type⟩
        (fun _ _ => rfl) (fun _ _ _ => rfl) (fun _ => rfl) L
        (fun E => ClearTicketEvents_kind_apply { L with eluna := E } event_type h1 hk)
  · intro F hF entry h1 he h2
    simp only [entryFamilies, List.mem_cons, List.mem_singleton, List.not_mem_nil,
      or_false] at hF
    rcases hF with rfl | rfl | rfl | rfl | rfl | rfl | rfl | rfl | rfl | rfl | rfl
    · exact clear_twice_loop _ (fun E => E.CreatureEventBindings)
        (fun E B => { E with CreatureEventBindings := B }) (fun i => ⟨i, entry⟩) _
        (fun _ _ => rfl) (fun _ _ _ => rfl) (fun _ => rfl) L
        (fun E => ClearCreatureEvents_entry_apply { L with eluna := E } entry h2 h1 he)
    · exact clear_twice_loop _ (fun E => E.CreatureGossipBindings)
        (fun E B => { E with CreatureGossipBindings := B }) (fun i => ⟨i, entry⟩) _
        (fun _ _ => rfl) (fun _ _ _ => rfl) (fun _ => rfl) L
        (fun E => ClearCreatureGossipEvents_entry_apply { L with eluna := E } entry h2 h1 he)
    · exact clear_twice_loop _ (fun E => E.GameObjectEventBindings)
        (fun E B => { E with GameObjectEventBindings := B }) (fun i => ⟨i, entry⟩) _
        (fun _ _ => rfl) (fun _ _ _ => rfl) (fun _ => rfl) L
        (fun E => ClearGameObjectEvents_entry_apply { L with eluna := E } entry h2 h1 he)
    · exact clear_twice_loop _ (fun E => E.GameObjectGossipBindings)
        (fun E B => { E with GameObjectGossipBindings := B }) (fun i => ⟨i, entry⟩) _
        (fun _ _ => rfl) (fun _ _ _ => rfl) (fun _ => rfl) L
        (fun E => ClearGameObjectGossipEvents_entry_apply { L with eluna := E } entry h2 h1 he)
    · exact clear_twice_loop _ (fun E => E.ItemEventBindings)
        (fun E B => { E with ItemEventBindings := B }) (fun i => ⟨i, entry⟩) _
        (fun _ _ => rfl) (fun _ _ _ => rfl) (fun _ => rfl) L
        (fun E => ClearItemEvents_entry_apply { L with eluna := E } entry h2 h1 he)
    · exact clear_twice_loop _ (fun E => E.ItemGossipBindings)
        (fun E B => { E with ItemGossipBindings := B }) (fun i => ⟨i, entry⟩) _
        (fun _ _ => rfl) (fun _ _ _ => rfl) (fun _ => rfl) L
        (fun E => ClearItemGossipEvents_entry_apply { L with eluna := E } entry h2 h1 he)
    · exact clear_twice_loop _ (fun E => E.PacketEventBindings)
        (fun E B => { E with PacketEventBindings := B }) (fun i => ⟨i, entry⟩) _
        (fun _ _ => rfl) (fun _ _ _ => rfl) (fun _ => rfl) L
        (fun E => ClearPacketEvents_entry_apply { L with eluna := E } entry h2 h1 he)
    · exact clear_twice_loop _ (fun E => E.PlayerGossipBindings)
        (fun E B => { E with PlayerGossipBindings := B }) (fun i => ⟨i, entry⟩) _
        (fun _ _ => rfl) (fun _ _ _ => rfl) (fun _ => rfl) L
        (fun E => ClearPlayerGossipEvents_entry_apply { L with eluna := E } entry h2 h1 he)
    · exact clear_twice_loop _ (fun E => E.MapEventBindings)
        (fun E B => { E with MapEventBindings := B }) (fun i => ⟨i, entry⟩) _
        (fun _ _ => rfl) (fun _ _ _ => rfl) (fun _ => rfl) L
        (fun E => ClearMapEvents_entry_apply { L with eluna := E } entry h2 h1 he)
    · exact clear_twice_loop _ (fun E => E.InstanceEventBindings)
        (fun E B => { E with InstanceEventBindings := B }) (fun i => ⟨i, entry⟩) _
        (fun _ _ => rfl) (fun _ _ _ => rfl) (fun _ => rfl) L
        (fun E => ClearInstanceEvents_entry_apply { L with eluna := E } entry h2 h1 he)
    · exact clear_twice_loop _ (fun E => E.SpellEventBindings)
        (fun E B => { E with SpellEventBindings := B }) (fun i => ⟨i, entry⟩) _
        (fun _ _ => rfl) (fun _ _ _ => rfl) (fun _ => rfl) L
        (fun E => ClearSpellEvents_entry_apply { L with eluna := E } entry h2 h1 he)
  · intro F hF entry event_type h1 he h2 hk
    simp only [entryFamilies, List.mem_cons, List.mem_singleton, List.not_mem_nil,
      or_false] at hF
    rcases hF with rfl | rfl | rfl | rfl | rfl | rfl | rfl | rfl | rfl | rfl | rfl
    · exact clear_twice_kind _ (fun E => E.CreatureEventBindings)
        (fun E B => { E with CreatureEventBindings := B }) ⟨event_type, entry⟩
        (fun _ _ => rfl) (fun _ _ _ => rfl) (fun _ => rfl) L
        (fun E => ClearCreatureEvents_kind_apply { L with eluna := E } entry event_type h1 he h2 hk)
    · exact clear_twice_kind _ (fun E => E.CreatureGossipBindings)
        (fun E B => { E with CreatureGossipBindings := B }) ⟨event_type, entry⟩
        (fun _ _ => rfl) (fun _ _ _ => rfl) (fun _ => rfl) L
        (fun E => ClearCreatureGossipEvents_kind_apply { L with eluna := E } entry event_type h1 he h2 hk)
    · exact clear_twice_kind _ (fun E => E.GameObjectEventBindings)
        (fun E B => { E with GameObjectEventBindings := B }) ⟨event_type, entry⟩
        (fun _ _ => rfl) (fun _ _ _ => rfl) (fun _ => rfl) L
        (fun E => ClearGameObjectEvents_kind_apply { L with eluna := E } entry event_type h1 he h2 hk)
    · exact clear_twice_kind _ (fun E => E.GameObjectGossipBindings)
        (fun E B => { E with GameObjectGossipBindings := B }) ⟨event_type, entry⟩
        (fun _ _ => rfl) (fun _ _ _ => rfl) (fun _ => rfl) L
        (fun E => ClearGameObjectGossipEvents_kind_apply { L with eluna := E } entry event_type h1 he h2 hk)
    · exact clear_twice_kind _ (fun E => E.ItemEventBindings)
        (fun E B => { E with ItemEventBindings := B }) ⟨event_type, entry⟩
        (fun _ _ => rfl) (fun _ _ _ => rfl) (fun _ => rfl) L
        (fun E => ClearItemEvents_kind_apply { L with eluna := E } entry event_type h1 he h2 hk)
    · exact clear_twice_kind _ (fun E => E.ItemGossipBindings)
        (fun E B => { E with ItemGossipBindings := B }) ⟨event_type, entry⟩
        (fun _ _ => rfl) (fun _ _ _ => rfl) (fun _ => rfl) L
        (fun E => ClearItemGossipEvents_kind_apply { L with eluna := E } entry event_type h1 he h2 hk)
    · exact clear_twice_kind _ (fun E => E.PacketEventBindings)
        (fun E B => { E with PacketEventBindings := B }) ⟨event_type, entry⟩
        (fun _ _ => rfl) (fun _ _ _ => rfl) (fun _ => rfl) L
        (fun E => ClearPacketEvents_kind_apply { L with eluna := E } entry event_type h1 he h2 hk)
    · exact clear_twice_kind _ (fun E => E.PlayerGossipBindings)
        (fun E B => { E with PlayerGossipBindings := B }) ⟨event_type, entry⟩
        (fun _ _ => rfl) (fun _ _ _ => rfl) (fun _ => rfl) L
        (fun E => ClearPlayerGossipEvents_kind_apply { L with eluna := E } entry event_type h1 he h2 hk)
    · exact clear_twice_kind _ (fun E => E.MapEventBindings)
        (fun E B => { E with MapEventBindings := B }) ⟨event_type, entry⟩
        (fun _ _ => rfl) (fun _ _ _ => rfl) (fun _ => rfl) L
        (fun E => ClearMapEvents_kind_apply { L with eluna := E } entry event_type h1 he h2 hk)
    · exact clear_twice_kind _ (fun E => E.InstanceEventBindings)
        (fun E B => { E with InstanceEventBindings := B }) ⟨event_type, entry⟩
        (fun _ _ => rfl) (fun _ _ _ => rfl) (fun _ => rfl) L
        (fun E => ClearInstanceEvents_kind_apply { L with eluna := E } entry event_type h1 he h2 hk)
    · exact clear_twice_kind _ (fun E => E.SpellEventBindings)
        (fun E B => { E with SpellEventBindings := B }) ⟨event_type, entry⟩
        (fun _ _ => rfl) (fun _ _ _ => rfl) (fun _ => rfl) L
        (fun E => ClearSpellEvents_kind_apply { L with eluna := E } entry event_type h1 he h2 hk)
  · intro guid instanceId h1 h2 hi h3
    exact clear_twice_loop _ (fun E => E.CreatureUniqueBindings)
      (fun E B => { E with CreatureUniqueBindings := B }) (fun i => ⟨i, guid, instanceId⟩) _
      (fun _ _ => rfl) (fun _ _ _ => rfl) (fun _ => rfl) L
      (fun E => ClearUniqueCreatureEvents_entry_apply { L with eluna := E } guid instanceId
        h3 h1 h2 hi)
  · intro guid instanceId event_type h1 h2 hi h3 hk
    exact clear_twice_kind _ (fun E => E.CreatureUniqueBindings)
      (fun E B => { E with CreatureUniqueBindings := B }) ⟨event_type, guid, instanceId⟩
      (fun _ _ => rfl) (fun _ _ _ => rfl) (fun _ => rfl) L
      (fun E => ClearUniqueCreatureEvents_kind_apply { L with eluna := E } guid instanceId
        event_type h1 h2 hi h3 hk)

theorem clearing_is_idempotent_witness :
    ∃ L1, ClearCreatureEvents
        { stack := [.number 9999, .number 50], registry := emptyRegistry,
          eluna := creatureEluna } = .ok 0 L1 ∧
      ClearCreatureEvents L1 = .ok 0 L1 ∧
      L1 = { stack := [.number 9999, .number 50], registry := emptyRegistry,
             eluna := creatureEluna } :=
  let ⟨L1, h1, _, _, h4, h5⟩ :=
    (clearing_is_idempotent
      { stack := [.number 9999, .number 50], registry := emptyRegistry,
        eluna := creatureEluna }).2.2.2.1
      ⟨ClearCreatureEvents, fun E => E.CreatureEventBindings, Hooks.CREATURE_EVENT_COUNT,
        Hooks.CreatureEvents⟩
      (by simp [entryFamilies]) 9999 50 rfl (by decide) rfl (by decide)
  ⟨L1, h1, h4, h5 (by decide)⟩

/-! ## Dispatch order -/

theorem Binding.fire_invoked (b : Binding) :
    b.fire.2 = if b.aborted then none else some b.functionReference := by
  unfold Binding.fire
  split_ifs <;> rfl

/-- A fire of a key invokes the live handles of the key, in registration order. -/
theorem BindingMap.fire_invokes_live {K : Type} [DecidableEq K] (B : BindingMap K) (key : K) :
    (B.fire key).2 = (B.liveHandles key).map fun b => b.functionReference := by
  obtain ⟨bs⟩ := B
  simp only [BindingMap.fire, BindingMap.liveHandles, BindingMap.lookup, Binding.fire_invoked]
  induction bs with
  | nil => rfl
  | cons kb rest ih =>
    by_cases hk : kb.1 = key
    · by_cases ha : kb.2.aborted = true
      · simp [List.filterMap_cons, List.filter_cons, hk, ha, ih]
      · simp [List.filterMap_cons, List.filter_cons, hk, ha, ih]
    · simp [List.filterMap_cons, List.filter_cons, hk, ih]

theorem BindingMap.liveHandles_Insert {K : Type} [DecidableEq K] (B : BindingMap K)
    (key other : K) (functionReference : Int) (shots : Nat) :
    (B.Insert other functionReference shots).liveHandles key =
      B.liveHandles key ++
        (if other = key then
          [{ functionReference := functionReference, remainingShots := shots,
             aborted := false }]
        else []) := by
  simp only [BindingMap.liveHandles, BindingMap.lookup, BindingMap.Insert, List.filter_append,
    List.map_append]
  by_cases h : other = key <;> simp [h]

/-- The callbacks a fire invokes after a run of registrations: those the fire invoked
before, then the registered callbacks of each key in registration order. -/
theorem registrations_live (regs : List Registration) (kind entryId : Nat)
    (identity : ObjectGuid) (scopeId : Nat) :
    ∀ D : Dispatcher,
      (((regs.foldl Dispatcher.register D).globalBindings.liveHandles ⟨kind⟩).map
          (fun b => b.functionReference) =
        (D.globalBindings.liveHandles ⟨kind⟩).map (fun b => b.functionReference) ++
          (regs.filter (fun r => r.key = .GlobalKey kind)).map (fun r => r.callback)) ∧
      (((regs.foldl Dispatcher.register D).entryBindings.liveHandles ⟨kind, entryId⟩).map
          (fun b => b.functionReference) =
        (D.entryBindings.liveHandles ⟨kind, entryId⟩).map (fun b => b.functionReference) ++
          (regs.filter (fun r => r.key = .EntryKey kind entryId)).map (fun r => r.callback)) ∧
      (((regs.foldl Dispatcher.register D).uniqueBindings.liveHandles
            ⟨kind, identity, scopeId⟩).map (fun b => b.functionReference) =
        (D.uniqueBindings.liveHandles ⟨kind, identity, scopeId⟩).map
            (fun b => b.functionReference) ++
          (regs.filter (fun r => r.key = .UniqueKey kind identity scopeId)).map
            (fun r => r.callback)) := by
  induction regs with
  | nil => intro D; simp
  | cons r rest ih =>
    intro D
    obtain ⟨hg, he, hu⟩ := ih (D.register r)
    rw [List.foldl_cons, hg, he, hu]
    obtain ⟨key, callback, shots⟩ := r
    cases key with
    | GlobalKey k =>
      by_cases h : k = kind <;>
      simp [Dispatcher.register, BindingMap.liveHandles_Insert, List.filter_cons, h]
    | EntryKey k e =>
      by_cases h : k = kind ∧ e = entryId <;>
      simp [Dispatcher.register, BindingMap.liveHandles_Insert, List.filter_cons, h]
    | UniqueKey k g s =>
      by_cases h : k = kind ∧ g = identity ∧ s = scopeId <;>
      simp [Dispatcher.register, BindingMap.liveHandles_Insert, List.filter_cons, h]

/-- C14: dispatch order.  A fire of `kind` for an entry and a unique identity invokes the
live global handles of the kind in registration order, then the live entry handles, then
the live unique handles; and after any run of registrations on an empty dispatcher,
however the keys are interleaved, the callbacks invoked are the `N` registered under
`GlobalKey(kind)` in the order of their registration, then the `M` under
`EntryKey(kind, entryId)`, then the `K` under `UniqueKey(kind, identity, scopeId)`. -/
theorem dispatch_order (D : Dispatcher) (regs : List Registration) (kind entryId : Nat)
    (identity : ObjectGuid) (scopeId : Nat) :
    (D.fire kind entryId identity scopeId).2 =
      (D.globalBindings.liveHandles ⟨kind⟩).map (fun b => b.functionReference) ++
      (D.entryBindings.liveHandles ⟨kind, entryId⟩).map (fun b => b.functionReference) ++
      (D.uniqueBindings.liveHandles ⟨kind, identity, scopeId⟩).map
        (fun b => b.functionReference) ∧
    ((regs.foldl Dispatcher.register Dispatcher.empty).fire kind entryId identity scopeId).2 =
      (regs.filter (fun r => r.key = .GlobalKey kind)).map (fun r => r.callback) ++
      (regs.filter (fun r => r.key = .EntryKey kind entryId)).map (fun r => r.callback) ++
      (regs.filter (fun r => r.key = .UniqueKey kind identity scopeId)).map
        (fun r => r.callback) := by
  have hfire : ∀ D : Dispatcher, (D.fire kind entryId identity scopeId).2 =
      (D.globalBindings.liveHandles ⟨kind⟩).map (fun b => b.functionReference) ++
      (D.entryBindings.liveHandles ⟨kind, entryId⟩).map (fun b => b.functionReference) ++
      (D.uniqueBindings.liveHandles ⟨kind, identity, scopeId⟩).map
        (fun b => b.functionReference) := by
    intro D
    simp only [Dispatcher.fire, BindingMap.fire_invokes_live]
  refine ⟨hfire D, ?_⟩
  obtain ⟨hg, he, hu⟩ := registrations_live regs kind entryId identity scopeId Dispatcher.empty
  rw [hfire, hg, he, hu]
  simp [Dispatcher.empty, BindingMap.empty, BindingMap.liveHandles, BindingMap.lookup]

theorem dispatch_order_example :
    ((List.foldl Dispatcher.register Dispatcher.empty
        [⟨.UniqueKey 9 77 2, 1, 0⟩, ⟨.GlobalKey 9, 2, 1⟩, ⟨.EntryKey 9 1234, 3, 0⟩,
         ⟨.GlobalKey 9, 4, 0⟩, ⟨.EntryKey 9 5678, 5, 0⟩, ⟨.UniqueKey 9 77 2, 6, 2⟩]).fire
      9 1234 77 2).2 = [2, 4, 3, 1, 6] := by
  decide

/-! ## Shot exhaustion -/

theorem BindingMap.fire_append {K : Type} [DecidableEq K] (xs ys : List (K × Binding))
    (k : K) :
    (BindingMap.fire { bindings := xs ++ ys } k) =
      ({ bindings := (BindingMap.fire { bindings := xs } k).1.bindings ++
          (BindingMap.fire { bindings := ys } k).1.bindings },
       (BindingMap.fire { bindings := xs } k).2 ++ (BindingMap.fire { bindings := ys } k).2) := by
  simp [BindingMap.fire, List.filterMap_append]

theorem BindingMap.fire_Insert_other {K : Type} [DecidableEq K] (B0 : BindingMap K)
    (key k : K) (r : Int) (S : Nat) (hk : k ≠ key) :
    (B0.Insert key r S).fire k = ((B0.fire k).1.Insert key r S, (B0.fire k).2) := by
  obtain ⟨bs⟩ := B0
  have hk1 : ¬ key = k := fun h => hk h.symm
  simp [BindingMap.Insert, BindingMap.fire_append]
  simp [BindingMap.fire, hk1]

theorem BindingMap.fire_Insert_unlimited {K : Type} [DecidableEq K] (B0 : BindingMap K)
    (key : K) (r : Int) :
    (B0.Insert key r 0).fire key = ((B0.fire key).1.Insert key r 0, (B0.fire key).2 ++ [r]) := by
  obtain ⟨bs⟩ := B0
  simp [BindingMap.Insert, BindingMap.fire_append]
  simp [BindingMap.fire, Binding.fire]

theorem BindingMap.fire_Insert_last {K : Type} [DecidableEq K] (B0 : BindingMap K)
    (key : K) (r : Int) :
    (B0.Insert key r 1).fire key = ((B0.fire key).1, (B0.fire key).2 ++ [r]) := by
  obtain ⟨bs⟩ := B0
  simp [BindingMap.Insert, BindingMap.fire_append]
  simp [BindingMap.fire, Binding.fire]

theorem BindingMap.fire_Insert_more {K : Type} [DecidableEq K] (B0 : BindingMap K)
    (key : K) (r : Int) (n : Nat) :
    (B0.Insert key r (n + 2)).fire key =
      ((B0.fire key).1.Insert key r (n + 1), (B0.fire key).2 ++ [r]) := by
  obtain ⟨bs⟩ := B0
  simp [BindingMap.Insert, BindingMap.fire_append]
  simp [BindingMap.fire, Binding.fire]

theorem Binding.fire_kept_reference (b b1 : Binding) (h : b.fire.1 = some b1) :
    b1.functionReference = b.functionReference := by
  unfold Binding.fire at h
  split_ifs at h <;> simp at h <;> subst h <;> rfl

/-- A fire keeps a callback reference out of a registry that does not hold it, and does
not invoke it. -/
theorem BindingMap.fire_fresh {K : Type} [DecidableEq K] (B0 : BindingMap K) (k : K) (r : Int)
    (h : ∀ kb ∈ B0.bindings, kb.2.functionReference ≠ r) :
    (∀ kb ∈ (B0.fire k).1.bindings, kb.2.functionReference ≠ r) ∧ r ∉ (B0.fire k).2 := by
  constructor
  · intro kb hkb
    simp only [BindingMap.fire, List.mem_filterMap] at hkb
    obtain ⟨kb0, hmem, hsome⟩ := hkb
    by_cases hk : kb0.1 = k
    · rw [if_pos hk] at hsome
      simp only [Option.map_eq_some'] at hsome
      obtain ⟨b1, hb1, rfl⟩ := hsome
      rw [Binding.fire_kept_reference _ _ hb1]
      exact h kb0 hmem
    · rw [if_neg hk] at hsome
      cases hsome
      exact h _ hmem
  · intro hr
    simp only [BindingMap.fire, List.mem_filterMap] at hr
    obtain ⟨kb0, hmem, hsome⟩ := hr
    by_cases hk : kb0.1 = k
    · rw [if_pos hk, Binding.fire_invoked] at hsome
      split_ifs at hsome
      injection hsome with hsome
      exact h kb0 hmem hsome
    · rw [if_neg hk] at hsome
      cases hsome

theorem BindingMap.fires_fresh {K : Type} [DecidableEq K] (r : Int) (keys : List K) :
    ∀ B0 : BindingMap K, (∀ kb ∈ B0.bindings, kb.2.functionReference ≠ r) →
      (B0.fires keys).2.length = keys.length ∧
      (∀ invs ∈ (B0.fires keys).2, r ∉ invs) ∧
      (∀ kb ∈ (B0.fires keys).1.bindings, kb.2.functionReference ≠ r) := by
  induction keys with
  | nil => intro B0 h; exact ⟨rfl, by simp [BindingMap.fires], h⟩
  | cons k rest ih =>
    intro B0 h
    obtain ⟨hstate, hinv⟩ := BindingMap.fire_fresh B0 k r h
    obtain ⟨hlen, h1, h2⟩ := ih (B0.fire k).1 hstate
    simp only [BindingMap.fires, List.length_cons, hlen, List.mem_cons, true_and]
    refine ⟨?_, h2⟩
    rintro invs (rfl | hmem)
    · exact hinv
    · exact h1 invs hmem

theorem shot_exhaustion_aux {K : Type} [DecidableEq K] (key : K) (r : Int) (keys : List K) :
    ∀ (B0 : BindingMap K) (S : Nat), (∀ kb ∈ B0.bindings, kb.2.functionReference ≠ r) →
      ((B0.Insert key r S).fires keys).2.length = keys.length ∧
      (∀ j invs, ((B0.Insert key r S).fires keys).2[j]? = some invs →
        invs.count r =
          if keys[j]? = some key ∧ (S = 0 ∨ (keys.take j).count key < S) then 1 else 0) ∧
      (0 < S → S ≤ keys.count key →
        ∀ kb ∈ ((B0.Insert key r S).fires keys).1.bindings, kb.2.functionReference ≠ r) ∧
      (S = 0 →
        (key, { functionReference := r, remainingShots := 0, aborted := false }) ∈
          ((B0.Insert key r S).fires keys).1.bindings) := by
  induction keys with
  | nil =>
    intro B0 S h
    refine ⟨rfl, ?_, ?_, ?_⟩
    · intro j invs hj
      simp [BindingMap.fires] at hj
    · intro h0 hS
      simp at hS
      omega
    · rintro rfl
      simp [BindingMap.fires, BindingMap.Insert]
  | cons k rest ih =>
    intro B0 S h
    obtain ⟨hstate, hinv⟩ := BindingMap.fire_fresh B0 k r h
    have hcount0 : (B0.fire k).2.count r = 0 := List.count_eq_zero.mpr hinv
    by_cases hk : k = key
    · subst hk
      obtain rfl | rfl | ⟨n, rfl⟩ : S = 0 ∨ S = 1 ∨ ∃ n, S = n + 2 := by
        rcases S with _ | _ | n
        · exact Or.inl rfl
        · exact Or.inr (Or.inl rfl)
        · exact Or.inr (Or.inr ⟨n, rfl⟩)
      · -- unlimited
        obtain ⟨hlen, hidx, _, hin⟩ := ih (B0.fire k).1 0 hstate
        simp only [BindingMap.fires, BindingMap.fire_Insert_unlimited, List.length_cons, hlen,
          true_and]
        refine ⟨?_, ?_, fun _ => hin rfl⟩
        · intro j invs hj
          cases j with
          | zero =>
            simp only [List.getElem?_cons_zero, Option.some.injEq] at hj
            subst hj
            simp [hcount0]
          | succ j =>
            simp only [List.getElem?_cons_succ] at hj
            rw [hidx j invs hj]
            simp
        · intro h0
          omega
      · -- last shot
        obtain ⟨hlen, hnever, hgone⟩ := BindingMap.fires_fresh r rest (B0.fire k).1 hstate
        simp only [BindingMap.fires, BindingMap.fire_Insert_last, List.length_cons, hlen,
          true_and]
        refine ⟨?_, fun _ _ => hgone, ?_⟩
        · intro j invs hj
          cases j with
          | zero =>
            simp only [List.getElem?_cons_zero, Option.some.injEq] at hj
            subst hj
            simp [hcount0]
          | succ j =>
            simp only [List.getElem?_cons_succ] at hj
            have hmem := List.mem_iff_getElem?.mpr ⟨j, hj⟩
            rw [List.count_eq_zero.mpr (hnever invs hmem)]
            simp
        · intro h0
          omega
      · -- more shots left
        obtain ⟨hlen, hidx, hgone, _⟩ := ih (B0.fire k).1 (n + 1) hstate
        simp only [BindingMap.fires, BindingMap.fire_Insert_more, List.length_cons, hlen,
          true_and]
        refine ⟨?_, ?_, ?_⟩
        · intro j invs hj
          cases j with
          | zero =>
            simp only [List.getElem?_cons_zero, Option.some.injEq] at hj
            subst hj
            simp [hcount0]
          | succ j =>
            simp only [List.getElem?_cons_succ] at hj
            rw [hidx j invs hj]
            simp
        · intro _ hS
          apply hgone (by omega)
          simp at hS
          omega
        · intro h0
          omega
    · have hk1 : key ≠ k := fun h => hk h.symm
      obtain ⟨hlen, hidx, hgone, hin⟩ := ih (B0.fire k).1 S hstate
      simp only [BindingMap.fires, BindingMap.fire_Insert_other _ _ _ _ _ hk, List.length_cons,
        hlen, true_and]
      refine ⟨?_, ?_, hin⟩
      · intro j invs hj
        cases j with
        | zero =>
          simp only [List.getElem?_cons_zero, Option.some.injEq] at hj
          subst hj
          simp [hcount0, hk]
        | succ j =>
          simp only [List.getElem?_cons_succ] at hj
          rw [hidx j invs hj]
          simp [List.count_cons_of_ne hk1]
      · intro h0 hS
        apply hgone h0
        simpa [List.count_cons_of_ne hk1] using hS

/-- C15: shot exhaustion.  Take a registry that does not hold the callback reference `r`
and register `r` under `key` with `shots = S`.  Over any run of fires, of this key and of
others, each fire gives one list of invoked callbacks, and `r` is invoked by a fire,
once, exactly when it is a fire of `key` and either `S = 0` or fewer than `S` fires of
`key` came before it: with `S > 0` on the first `S` fires of its key and on no other,
with `S = 0` (the default of the `Register*Event` bindings) on every fire of its key.
Once `key` has been fired `S > 0` times the registry holds no handle of `r`; with `S = 0`
the handle stays as it was registered. -/
theorem shot_exhaustion {K : Type} [DecidableEq K] (B0 : BindingMap K) (key : K) (r : Int)
    (S : Nat) (keys : List K) (hfresh : ∀ kb ∈ B0.bindings, kb.2.functionReference ≠ r) :
    ((B0.Insert key r S).fires keys).2.length = keys.length ∧
    (∀ j invs, ((B0.Insert key r S).fires keys).2[j]? = some invs →
      invs.count r =
        if keys[j]? = some key ∧ (S = 0 ∨ (keys.take j).count key < S) then 1 else 0) ∧
    (0 < S → S ≤ keys.count key →
      ∀ kb ∈ ((B0.Insert key r S).fires keys).1.bindings, kb.2.functionReference ≠ r) ∧
    (S = 0 →
      (key, { functionReference := r, remainingShots := 0, aborted := false }) ∈
        ((B0.Insert key r S).fires keys).1.bindings) :=
  shot_exhaustion_aux key r keys B0 S hfresh

theorem shot_exhaustion_witness :
    ((BindingMap.empty.Insert (5 : Nat) 1 2).fires [5, 6, 5, 5]).2 = [[1], [], [1], []] ∧
    ((BindingMap.empty.Insert (5 : Nat) 1 2).fires [5, 6, 5, 5]).2.length = 4 ∧
    (∀ kb ∈ ((BindingMap.empty.Insert (5 : Nat) 1 2).fires [5, 6, 5, 5]).1.bindings,
      kb.2.functionReference ≠ 1) ∧
    ((BindingMap.empty.Insert (5 : Nat) 1 0).fires [5, 6, 5, 5]).2 = [[1], [], [1], [1]] :=
  ⟨by decide,
   (shot_exhaustion BindingMap.empty 5 1 2 [5, 6, 5, 5] (by simp [BindingMap.empty])).1,
   (shot_exhaustion BindingMap.empty 5 1 2 [5, 6, 5, 5] (by simp [BindingMap.empty])).2.2.1
     (by decide) (by decide),
   by decide⟩

/-! ## Power type selection -/

/-- What `CHECKVAL<int>(L, narg, def)` returns, by the argument it finds. -/
theorem CHECKVAL_int_or_apply (narg : Int) (dflt : Int) (L : lua_State) :
    CHECKVAL_int_or narg dflt L =
      match slot L narg with
      | none => .ok dflt L
      | some .nil => .ok dflt L
      | _ => CHECKVAL_int narg L := by
  simp only [CHECKVAL_int_or, lua_isnoneornil, LuaM.bind_apply]
  generalize hs : slot L narg = s
  rcases s with _ | v
  · rfl
  · cases v <;> simp

/-- How the optional power type argument reads: -1 when absent or `nil`, the number itself
when it is a signed 32-bit number. -/
theorem type_read (L : lua_State) (narg : Int) (t : Int)
    (h : (slot L narg = none ∨ slot L narg = some .nil) ∧ t = -1 ∨
      slot L narg = some (.number t) ∧ -2147483648 ≤ t ∧ t ≤ 2147483647) :
    CHECKVAL_int_or narg (-1) L = .ok t L := by
  rw [CHECKVAL_int_or_apply, CHECKVAL_int_apply]
  rcases h with ⟨h | h, rfl⟩ | ⟨h, hlo, hhi⟩
  · simp [h]
  · simp [h]
  · simp [h, not_lt.mpr hlo, not_lt.mpr hhi]

section

open LuaUnit

variable {U : Type} (unitApi : UnitPowers U)

theorem PowerSelectorHelper_current (unit : U) (L : lua_State) :
    PowerSelectorHelper unitApi unit (-1) L = .ok (unitApi.getPowerType unit) L := by
  simp [PowerSelectorHelper]

theorem PowerSelectorHelper_valid (unit : U) (L : lua_State) (t : Int)
    (h0 : 0 ≤ t) (h1 : t < (MAX_POWERS : Int)) :
    PowerSelectorHelper unitApi unit t L = .ok t.toNat L := by
  have hne : t ≠ -1 := by omega
  simp [PowerSelectorHelper, hne, not_lt.mpr h0, h1]

theorem PowerSelectorHelper_invalid (unit : U) (L : lua_State) (t : Int)
    (hne : t ≠ -1) (h : t < 0 ∨ (MAX_POWERS : Int) ≤ t) :
    PowerSelectorHelper unitApi unit t L =
      .raised (.argerror 2 "valid Powers expected") L := by
  simp [PowerSelectorHelper, hne, h, luaL_argerror_apply]

/-- The helper on a power type that it accepts. -/
theorem PowerSelectorHelper_selects (unit : U) (L : lua_State) (t : Int)
    (h : t = -1 ∨ (0 ≤ t ∧ t < (MAX_POWERS : Int))) :
    PowerSelectorHelper unitApi unit t L =
      .ok (if t = -1 then unitApi.getPowerType unit else t.toNat) L := by
  rcases h with rfl | ⟨h0, h1⟩
  · simp [PowerSelectorHelper_current]
  · have hne : t ≠ -1 := by omega
    simp [PowerSelectorHelper_valid unitApi unit L t h0 h1, hne]

theorem uint32_read (L : lua_State) (narg : Int) (amt : Nat)
    (h : slot L narg = some (.number amt)) (hlt : amt < 4294967296) :
    CHECKVAL_uint32 narg L = .ok amt L := by
  rw [CHECKVAL_uint32_apply, h]
  have h2 : ¬ (4294967295 < (amt : Int)) := by omega
  simp [natCast_not_neg, h2]

theorem int_read (L : lua_State) (narg : Int) (v : Int)
    (h : slot L narg = some (.number v)) (hlo : -2147483648 ≤ v) (hhi : v ≤ 2147483647) :
    CHECKVAL_int narg L = .ok v L := by
  rw [CHECKVAL_int_apply, h]
  simp [not_lt.mpr hlo, not_lt.mpr hhi]

/-- C16: power-type selection of `Unit:GetPower`, `GetMaxPower`, `GetPowerPct`,
`SetMaxPower` (type in argument 2) and `SetPower`, `ModifyPower` (type in argument 3),
on every unit of every server and every call state.  Let the type argument read as the
32-bit integer `t`, which is -1 when the argument is absent or `nil`.  When `t` is -1 or
`0 <= t < MAX_POWERS`, each binding works on the power type `sel`, which is the unit's
current power type for -1 and `t` itself otherwise: the getters push that power's value
and return 1, the setters apply the server's operation to that power and return 0.  For
every other `t` each binding ends in the argument error "valid Powers expected" with the
Lua state as the call found it: nothing is pushed, and no power operation of the unit
has run, so no power is read or changed. -/
theorem power_type_selection {U : Type} (unitApi : UnitPowers U) (unit : U)
    (L : lua_State) (t : Int) (hlo : -2147483648 ≤ t) (hhi : t ≤ 2147483647) :
    let sel : Nat := if t = -1 then unitApi.getPowerType unit else t.toNat
    let valid : Prop := t = -1 ∨ (0 ≤ t ∧ t < (MAX_POWERS : Int))
    let wrong : LuaError := .argerror 2 "valid Powers expected"
    (((slot L 2 = none ∨ slot L 2 = some .nil) ∧ t = -1 ∨ slot L 2 = some (.number t)) →
      (valid →
        GetPower unitApi unit L =
          .ok 1 { L with stack := L.stack ++ [.number (unitApi.GetPower unit sel)] } ∧
        GetMaxPower unitApi unit L =
          .ok 1 { L with stack := L.stack ++ [.number (unitApi.GetMaxPower unit sel)] } ∧
        GetPowerPct unitApi unit L =
          .ok 1 { L with
                  stack := L.stack ++
                    [unitApi.percent (unitApi.GetPower unit sel)
                      (unitApi.GetMaxPower unit sel)] } ∧
        ∀ amt : Nat, slot L 3 = some (.number amt) → amt < 4294967296 →
          SetMaxPower unitApi unit L = .ok (0, unitApi.SetMaxPower unit sel amt) L) ∧
      (¬ valid →
        GetPower unitApi unit L = .raised wrong L ∧
        GetMaxPower unitApi unit L = .raised wrong L ∧
        GetPowerPct unitApi unit L = .raised wrong L ∧
        ∀ amt : Nat, slot L 3 = some (.number amt) → amt < 4294967296 →
          SetMaxPower unitApi unit L = .raised wrong L)) ∧
    (((slot L 3 = none ∨ slot L 3 = some .nil) ∧ t = -1 ∨ slot L 3 = some (.number t)) →
      (valid →
        (∀ amt : Nat, slot L 2 = some (.number amt) → amt < 4294967296 →
          SetPower unitApi unit L = .ok (0, unitApi.SetPower unit sel amt) L) ∧
        (∀ amt : Int, slot L 2 = some (.number amt) →
          -2147483648 ≤ amt → amt ≤ 2147483647 →
          ModifyPower unitApi unit L = .ok (0, unitApi.ModifyPower unit sel amt) L)) ∧
      (¬ valid →
        (∀ amt : Nat, slot L 2 = some (.number amt) → amt < 4294967296 →
          SetPower unitApi unit L = .raised wrong L) ∧
        (∀ amt : Int, slot L 2 = some (.number amt) →
          -2147483648 ≤ amt → amt ≤ 2147483647 →
          ModifyPower unitApi unit L = .raised wrong L))) := by
  intro sel valid wrong
  have hread : ∀ narg : Int,
      ((slot L narg = none ∨ slot L narg = some .nil) ∧ t = -1 ∨
        slot L narg = some (.number t)) → CHECKVAL_int_or narg (-1) L = .ok t L := by
    intro narg h
    apply type_read
    rcases h with h | h
    · exact Or.inl h
    · exact Or.inr ⟨h, hlo, hhi⟩
  have hbad : ¬ valid → PowerSelectorHelper unitApi unit t L = .raised wrong L := by
    intro hv
    apply PowerSelectorHelper_invalid
    · exact fun h => hv (Or.inl h)
    · by_contra hc
      exact hv (Or.inr ⟨by omega, by omega⟩)
  refine ⟨fun h2 => ⟨fun hv => ?_, fun hv => ?_⟩, fun h3 => ⟨fun hv => ?_, fun hv => ?_⟩⟩
  · have hsel := PowerSelectorHelper_selects unitApi unit L t hv
    refine ⟨?_, ?_, ?_, fun amt ha hlt => ?_⟩
    · simp only [GetPower, LuaM.bind_apply, hread 2 h2, hsel]
      rfl
    · simp only [GetMaxPower, LuaM.bind_apply, hread 2 h2, hsel]
      rfl
    · simp only [GetPowerPct, LuaM.bind_apply, hread 2 h2, hsel]
      rfl
    · simp only [SetMaxPower, LuaM.bind_apply, hread 2 h2, uint32_read L 3 amt ha hlt, hsel]
      rfl
  · refine ⟨?_, ?_, ?_, fun amt ha hlt => ?_⟩
    · simp only [GetPower, LuaM.bind_apply, hread 2 h2, hbad hv]
    · simp only [GetMaxPower, LuaM.bind_apply, hread 2 h2, hbad hv]
    · simp only [GetPowerPct, LuaM.bind_apply, hread 2 h2, hbad hv]
    · simp only [SetMaxPower, LuaM.bind_apply, hread 2 h2, uint32_read L 3 amt ha hlt,
        hbad hv]
  · have hsel := PowerSelectorHelper_selects unitApi unit L t hv
    refine ⟨fun amt ha hlt => ?_, fun amt ha h0 h1 => ?_⟩
    · simp only [SetPower, LuaM.bind_apply, hread 3 h3, uint32_read L 2 amt ha hlt, hsel]
      rfl
    · simp only [ModifyPower, LuaM.bind_apply, hread 3 h3, int_read L 2 amt ha h0 h1, hsel]
      rfl
  · refine ⟨fun amt ha hlt => ?_, fun amt ha h0 h1 => ?_⟩
    · simp only [SetPower, LuaM.bind_apply, hread 3 h3, uint32_read L 2 amt ha hlt, hbad hv]
    · simp only [ModifyPower, LuaM.bind_apply, hread 3 h3, int_read L 2 amt ha h0 h1,
        hbad hv]

end

/-- On a unit with power type 3 holding 60 of that power: `GetPower()` reads power 3,
`GetPower(7)` is refused, `SetPower(25, 0)` sets power 0. -/
theorem power_type_selection_witness :
    LuaUnit.GetPower sampleUnitPowers sampleUnit (idleCall [.userdata 1]) =
        .ok 1 (idleCall [.userdata 1, .number 60]) ∧
      LuaUnit.GetPower sampleUnitPowers sampleUnit (idleCall [.userdata 1, .number 7]) =
        .raised (.argerror 2 "valid Powers expected") (idleCall [.userdata 1, .number 7]) ∧
      LuaUnit.SetPower sampleUnitPowers sampleUnit
          (idleCall [.userdata 1, .number 25, .number 0]) =
        .ok (0, { sampleUnit with power := [25, 0, 0, 60, 0, 0, 0] })
          (idleCall [.userdata 1, .number 25, .number 0]) :=
  ⟨(((power_type_selection sampleUnitPowers sampleUnit (idleCall [.userdata 1]) (-1)
        (by decide) (by decide)).1 (Or.inl ⟨Or.inl rfl, rfl⟩)).1 (Or.inl rfl)).1,
    (((power_type_selection sampleUnitPowers sampleUnit (idleCall [.userdata 1, .number 7]) 7
        (by decide) (by decide)).1 (Or.inr rfl)).2 (by decide)).1,
    (((power_type_selection sampleUnitPowers sampleUnit
        (idleCall [.userdata 1, .number 25, .number 0]) 0
        (by decide) (by decide)).2 (Or.inr rfl)).1 (Or.inr (by decide))).1 25 rfl (by decide)⟩

/-! ## Bit operations -/

/-- The complement of a 32-bit value as a number. -/
theorem not32_eq (a : Nat) (h : a < 4294967296) : not32 a = 4294967295 - a := by
  unfold not32
  apply Nat.eq_of_testBit_eq
  intro i
  have h1 : (4294967295 : Nat) = 2 ^ 32 - 1 := by norm_num
  have h2 : 4294967295 - a = 2 ^ 32 - (a + 1) := by omega
  have h3 : a < 2 ^ 32 := by omega
  rw [Nat.testBit_xor, h2, Nat.testBit_two_pow_sub_succ h3, h1, Nat.testBit_two_pow_sub_one]
  by_cases hi : i < 32
  · simp [hi]
  · have : a.testBit i = false := by
      apply Nat.testBit_lt_two_pow
      calc a < 2 ^ 32 := h3
        _ ≤ 2 ^ i := Nat.pow_le_pow_right (by decide) (by omega)
    simp [hi, this]

/-- C17: for all 32-bit unsigned `a` and `b` given as arguments 1 and 2, `bit_and`,
`bit_or` and `bit_xor` return one value, the number whose bit `i` is the AND, OR and
XOR of bit `i` of `a` and of `b`, for every `i`; `bit_not` returns the 32-bit complement
`2^32 - 1 - a`; and each of the four results lies in `[0, 2^32)`. -/
theorem bit_operations (L : lua_State) (a : Nat) (ha : slot L 1 = some (.number a))
    (hlt : a < 2 ^ 32) :
    (bit_not L = .ok 1 { L with stack := L.stack ++ [.number (2 ^ 32 - 1 - (a : Int))] } ∧
      0 ≤ 2 ^ 32 - 1 - (a : Int) ∧ 2 ^ 32 - 1 - (a : Int) < 2 ^ 32) ∧
    ∀ b : Nat, slot L 2 = some (.number b) → b < 2 ^ 32 →
      (bit_and L = .ok 1 { L with stack := L.stack ++ [.number ((a &&& b : Nat) : Int)] } ∧
        (∀ i, (a &&& b).testBit i = (a.testBit i && b.testBit i)) ∧ a &&& b < 2 ^ 32) ∧
      (bit_or L = .ok 1 { L with stack := L.stack ++ [.number ((a ||| b : Nat) : Int)] } ∧
        (∀ i, (a ||| b).testBit i = (a.testBit i || b.testBit i)) ∧ a ||| b < 2 ^ 32) ∧
      (bit_xor L = .ok 1 { L with stack := L.stack ++ [.number ((a ^^^ b : Nat) : Int)] } ∧
        (∀ i, (a ^^^ b).testBit i = xor (a.testBit i) (b.testBit i)) ∧
        a ^^^ b < 2 ^ 32) := by
  have hlt1 : a < 4294967296 := by norm_num at hlt; exact hlt
  have hra := uint32_read L 1 a ha hlt1
  refine ⟨⟨?_, by omega, by omega⟩, fun b hb hblt => ?_⟩
  · have hn : ((not32 a : Nat) : Int) = 2 ^ 32 - 1 - (a : Int) := by
      rw [not32_eq a hlt1]
      omega
    simp only [bit_not, LuaM.bind_apply, hra, hn]
    rfl
  · have hblt1 : b < 4294967296 := by norm_num at hblt; exact hblt
    have hrb := uint32_read L 2 b hb hblt1
    refine ⟨⟨?_, fun i => Nat.testBit_and a b i, Nat.and_lt_two_pow a hblt⟩,
      ⟨?_, fun i => Nat.testBit_or a b i, Nat.or_lt_two_pow hlt hblt⟩,
      ⟨?_, fun i => Nat.testBit_xor a b i, Nat.xor_lt_two_pow hlt hblt⟩⟩
    · simp only [bit_and, LuaM.bind_apply, hra, hrb]
      rfl
    · simp only [bit_or, LuaM.bind_apply, hra, hrb]
      rfl
    · simp only [bit_xor, LuaM.bind_apply, hra, hrb]
      rfl

/-- The four operations on `a = 12` and `b = 10`. -/
theorem bit_operations_witness :
    bit_not (idleCall [.number 12, .number 10]) =
        .ok 1 (idleCall [.number 12, .number 10, .number 4294967283]) ∧
      bit_and (idleCall [.number 12, .number 10]) =
        .ok 1 (idleCall [.number 12, .number 10, .number 8]) ∧
      bit_or (idleCall [.number 12, .number 10]) =
        .ok 1 (idleCall [.number 12, .number 10, .number 14]) ∧
      bit_xor (idleCall [.number 12, .number 10]) =
        .ok 1 (idleCall [.number 12, .number 10, .number 6]) :=
  have h := bit_operations (idleCall [.number 12, .number 10]) 12 rfl (by decide)
  have hb := h.2 10 rfl (by decide)
  ⟨h.1.1, hb.1.1, hb.2.1.1, hb.2.2.1⟩

/-! ## Shifts -/

/-- C18, as stated, fails: `bit_lshift(1, 32)` and `bit_rshift(1, 32)` do not return 0.
The count 32 reaches `a << b` and `a >> b` unguarded, and for that count the shift has
no defined result. -/
theorem shift_by_32_has_no_result :
    bit_lshift (idleCall [.number 1, .number 32]) ≠
        some (.ok 1 (idleCall [.number 1, .number 32, .number ((1 * 2 ^ 32) % 2 ^ 32)])) ∧
      bit_rshift (idleCall [.number 1, .number 32]) ≠
        some (.ok 1 (idleCall [.number 1, .number 32, .number (1 / 2 ^ 32)])) ∧
      bit_lshift (idleCall [.number 1, .number 32]) = none ∧
      bit_rshift (idleCall [.number 1, .number 32]) = none := by
  decide

/-- C18, amended: for every 32-bit unsigned `a` in argument 1 and every shift count `b` in
argument 2, when `b < 32` then `bit_lshift` returns `(a * 2^b) mod 2^32` and `bit_rshift`
returns `floor(a / 2^b)`; when `b >= 32` the count is not guarded, the out-of-range shift
is performed and the call has no defined result. -/
theorem shifts_within_width (L : lua_State) (a b : Nat)
    (ha : slot L 1 = some (.number a)) (hlt : a < 2 ^ 32)
    (hb : slot L 2 = some (.number b)) (hblt : b < 2 ^ 32) :
    (b < 32 →
      bit_lshift L =
        some (.ok 1 { L with
                      stack := L.stack ++ [.number (((a * 2 ^ b) % 2 ^ 32 : Nat) : Int)] }) ∧
      bit_rshift L =
        some (.ok 1 { L with stack := L.stack ++ [.number ((a / 2 ^ b : Nat) : Int)] })) ∧
    (32 ≤ b → bit_lshift L = none ∧ bit_rshift L = none) := by
  have hlt1 : a < 4294967296 := by norm_num at hlt; exact hlt
  have hblt1 : b < 4294967296 := by norm_num at hblt; exact hblt
  have hra := uint32_read L 1 a ha hlt1
  have hrb := uint32_read L 2 b hb hblt1
  refine ⟨fun h => ⟨?_, ?_⟩, fun h => ⟨?_, ?_⟩⟩
  · simp only [bit_lshift, hra, hrb, shl32, if_pos h, Nat.shiftLeft_eq]
    rfl
  · simp only [bit_rshift, hra, hrb, shr32, if_pos h, Nat.shiftRight_eq_div_pow]
    rfl
  · simp only [bit_lshift, hra, hrb, shl32, if_neg (Nat.not_lt.mpr h)]
  · simp only [bit_rshift, hra, hrb, shr32, if_neg (Nat.not_lt.mpr h)]

/-- Shifts of 3 by 31 (the top bit of `3 << 31` is lost) and of 3 by 32. -/
theorem shifts_within_width_witness :
    (bit_lshift (idleCall [.number 3, .number 31]) =
        some (.ok 1 (idleCall [.number 3, .number 31, .number 2147483648])) ∧
      bit_rshift (idleCall [.number 3, .number 31]) =
        some (.ok 1 (idleCall [.number 3, .number 31, .number 0]))) ∧
    (bit_lshift (idleCall [.number 3, .number 32]) = none ∧
      bit_rshift (idleCall [.number 3, .number 32]) = none) :=
  ⟨(shifts_within_width (idleCall [.number 3, .number 31]) 3 31 rfl (by decide) rfl
      (by decide)).1 (by decide),
    (shifts_within_width (idleCall [.number 3, .number 32]) 3 32 rfl (by decide) rfl
      (by decide)).2 (by decide)⟩

/-! ## Lifetime kills -/

/-- C19: `Player:RemoveLifetimeKills(val)` on a player whose lifetime honorable kills
field holds `c`, for every `c` and every `val` of 32 bits: the call returns no value,
leaves the Lua state as it is and sets the field to `c - val` when `val <= c` and to 0
when `val > c`.  The field then holds exactly that value, which is never above `c`, so
the unsigned counter does not wrap around, and every other field of the player keeps
its value. -/
theorem RemoveLifetimeKills_saturates (field : Nat) (player : Player) (L : lua_State)
    (val : Nat) (hval : slot L 2 = some (.number val)) (hlt : val < 2 ^ 32)
    (hc : player.GetUInt32Value field < 2 ^ 32) :
    let c := player.GetUInt32Value field
    let player1 := player.SetUInt32Value field (if val ≤ c then c - val else 0)
    LuaPlayer.RemoveLifetimeKills field player L = .ok (0, player1) L ∧
      player1.GetUInt32Value field = (if val ≤ c then c - val else 0) ∧
      player1.GetUInt32Value field ≤ c ∧
      ∀ i, i ≠ field → player1.GetUInt32Value i = player.GetUInt32Value i := by
  intro c player1
  have hlt1 : val < 4294967296 := by norm_num at hlt; exact hlt
  have hc1 : c < 4294967296 := by norm_num at hc; exact hc
  have hr := uint32_read L 2 val hval hlt1
  have hsub : sub32 c (if val > c then c else val) = if val ≤ c then c - val else 0 := by
    unfold sub32
    split_ifs <;> omega
  have hget : player1.GetUInt32Value field = if val ≤ c then c - val else 0 := by
    simp only [player1, Player.SetUInt32Value, Player.GetUInt32Value, if_true]
    split_ifs <;> omega
  refine ⟨?_, hget, ?_, ?_⟩
  · simp only [LuaPlayer.RemoveLifetimeKills, LuaM.bind_apply, hr]
    show Outcome.ok (0, player.SetUInt32Value field (sub32 c (if val > c then c else val))) L
      = _
    rw [hsub]
  · rw [hget]
    split_ifs <;> omega
  · intro i hi
    simp [player1, Player.SetUInt32Value, Player.GetUInt32Value, hi]

/-- Removing 10 kills from a player with 3 leaves 0; removing 2 leaves 1. -/
theorem RemoveLifetimeKills_saturates_witness :
    (LuaPlayer.RemoveLifetimeKills 1175 samplePlayer (idleCall [.userdata 1, .number 10]) =
        .ok (0, samplePlayer.SetUInt32Value 1175 0) (idleCall [.userdata 1, .number 10]) ∧
      (samplePlayer.SetUInt32Value 1175 0).GetUInt32Value 1175 = 0) ∧
    (LuaPlayer.RemoveLifetimeKills 1175 samplePlayer (idleCall [.userdata 1, .number 2]) =
        .ok (0, samplePlayer.SetUInt32Value 1175 1) (idleCall [.userdata 1, .number 2]) ∧
      (samplePlayer.SetUInt32Value 1175 1).GetUInt32Value 1175 = 1) :=
  have h10 := RemoveLifetimeKills_saturates 1175 samplePlayer
    (idleCall [.userdata 1, .number 10]) 10 rfl (by decide) (by decide)
  have h2 := RemoveLifetimeKills_saturates 1175 samplePlayer
    (idleCall [.userdata 1, .number 2]) 2 rfl (by decide) (by decide)
  ⟨⟨h10.1, h10.2.1⟩, ⟨h2.1, h2.2.1⟩⟩

/-! ## Items of a mail -/

/-- Rounds beyond those the loop can make change nothing: once fewer than `2 * (rounds + 1)`
arguments remain after `i`, one more round in hand gives the same run. -/
theorem SendMail_loop_rounds {W : Type} (server : MailServer W) (argAmount : Int)
    (rounds : Nat) :
    ∀ (i : Int) (addedItems : Nat) (draft : MailDraft) (world : W),
      argAmount - i < 2 * ((rounds : Int) + 1) →
      SendMail_loop server argAmount rounds i addedItems draft world =
        SendMail_loop server argAmount (rounds + 1) i addedItems draft world := by
  induction rounds with
  | zero =>
    intro i addedItems draft world h
    have hc : ¬ (addedItems ≤ MAX_MAIL_ITEMS ∧ i + 2 ≤ argAmount) := by
      intro hc
      omega
    simp only [SendMail_loop, if_neg hc]
  | succ r ih =>
    intro i addedItems draft world h
    have h2 : argAmount - (i + 2) < 2 * ((r : Int) + 1) := by push_cast at h; omega
    rw [SendMail_loop]
    conv_rhs => rw [SendMail_loop]
    simp only [ih (i + 2) _ _ _ h2]

/-- C20 fails on the code: `SendMail` with the fixed arguments followed by 13 valid
`(entry, amount)` pairs, on a server that has a template for every entry and creates
every item, adds 13 items to the draft it sends and returns 13 item GUIDs.  The loop
runs while `addedItems <= MAX_MAIL_ITEMS`, so it still runs with 12 items added. -/
theorem SendMail_attaches_thirteen_items :
    SendMail sampleMailServer { nextItemGuid := 500, outbox := [] }
        (mailCall [101, 102, 103, 104, 105, 106, 107, 108, 109, 110, 111, 112, 113]) =
      .ok
        (13,
          { nextItemGuid := 513,
            outbox :=
              [{ subject := "subject", text := "text", money := 0, COD := 0,
                 items := (List.range 13).map fun k =>
                   { guidCounter := 500 + k, entry := 101 + k, count := 1 } }] })
        { mailCall [101, 102, 103, 104, 105, 106, 107, 108, 109, 110, 111, 112, 113] with
          stack :=
            (mailCall [101, 102, 103, 104, 105, 106, 107, 108, 109, 110, 111, 112, 113]).stack
              ++ (List.range 13).map fun k => .number (500 + (k : Int)) } := by
  decide!

/-! ## Map entrance -/

/-- C21 fails on the code: `GetMapEntrance(33)` for a map with an entrance trigger pushes
the four values `target_X`, `target_Y`, `target_Z`, `target_Orientation` and reports 5
results, so the caller gets five values, the argument `mapId` followed by the four
coordinates.  For a map without an entrance trigger it pushes `nil` and reports 1. -/
theorem GetMapEntrance_reports_five_results (trigger : AreaTriggerTeleport) :
    GetMapEntrance (fun _ => some trigger) (idleCall [.number 33]) =
        .ok 5 (idleCall [.number 33, .number trigger.target_X, .number trigger.target_Y,
          .number trigger.target_Z, .number trigger.target_Orientation]) ∧
      call (GetMapEntrance fun _ => some trigger) emptyRegistry idleEluna [.number 33] =
        .returned [.number 33, .number trigger.target_X, .number trigger.target_Y,
          .number trigger.target_Z, .number trigger.target_Orientation]
          emptyRegistry idleEluna ∧
      call (GetMapEntrance fun _ => none) emptyRegistry idleEluna [.number 33] =
        .returned [.nil] emptyRegistry idleEluna := by
  refine ⟨rfl, rfl, rfl⟩

/-! ## Bans -/

theorem string_read (L : lua_State) (narg : Int) (s : String)
    (h : slot L narg = some (.string s)) : CHECKVAL_string narg L = .ok s L := by
  simp [CHECKVAL_string, h]

/-- C22: `Ban(banMode, nameOrIP, duration, reason, whoBanned)` on every server, with
well-formed arguments.  Mode 0 bans the account, mode 1 the character and mode 2 the IP,
each with the duration string `<duration>s`, once the server has accepted the name or
address (otherwise the call ends in an argument error on argument 2 and no ban is
issued); every other mode ends in the argument error "unknown banmode" on argument 1
with the Lua state as the call found it, before any ban operation.  A performed ban
returns one value: 0 for success, 1 for a syntax error, 2 for a target that was not
found and 3 when a longer ban exists. -/
theorem Ban_dispatches_on_mode {W : Type} (server : BanServer W) (world : W) (L : lua_State)
    (banMode : Int) (name : String) (duration : Nat) (reason whoBanned : String)
    (h1 : slot L 1 = some (.number banMode))
    (hlo : -2147483648 ≤ banMode) (hhi : banMode ≤ 2147483647)
    (h2 : slot L 2 = some (.string name))
    (h3 : slot L 3 = some (.number duration)) (hd : duration < 2 ^ 32)
    (h4 : CHECKVAL_string_or 4 "" L = .ok reason L)
    (h5 : CHECKVAL_string_or 5 "" L = .ok whoBanned L) :
    let dur : String := toString duration ++ "s"
    let code : BanReturn → Int := fun r =>
      match r with
      | .BAN_SUCCESS => 0
      | .BAN_SYNTAX_ERROR => 1
      | .BAN_NOTFOUND => 2
      | .BAN_LONGER_EXISTS => 3
    let banned : BanReturn × W → Outcome (Nat × W) := fun r =>
      .ok (1, r.2) { L with stack := L.stack ++ [.number (code r.1)] }
    (banMode = 0 →
      Ban server world L =
        match server.Utf8ToUpperOnlyLatin name with
        | some account => banned (server.BanAccount world account dur reason whoBanned)
        | none => .raised (.argerror 2 "invalid account name") L) ∧
    (banMode = 1 →
      Ban server world L =
        match server.normalizePlayerName name with
        | some character => banned (server.BanCharacter world character dur reason whoBanned)
        | none => .raised (.argerror 2 "invalid character name") L) ∧
    (banMode = 2 →
      Ban server world L =
        if server.IsIPAddress name then banned (server.BanIP world name dur reason whoBanned)
        else .raised (.argerror 2 "invalid ip") L) ∧
    (banMode ≠ 0 → banMode ≠ 1 → banMode ≠ 2 →
      Ban server world L = .raised (.argerror 1 "unknown banmode") L) := by
  dsimp only
  have hd1 : duration < 4294967296 := by norm_num at hd; exact hd
  have r1 := int_read L 1 banMode h1 hlo hhi
  have r2 := string_read L 2 name h2
  have r3 := uint32_read L 3 duration h3 hd1
  have h10 : ¬ ((1 : Int) = 0) := by decide
  have h20 : ¬ ((2 : Int) = 0) := by decide
  have h21 : ¬ ((2 : Int) = 1) := by decide
  refine ⟨?_, ?_, ?_, ?_⟩
  · rintro rfl
    simp only [Ban, LuaM.bind_apply, r1, r2, r3, h4, h5]
    cases server.Utf8ToUpperOnlyLatin name with
    | none => simp [luaL_argerror_apply]
    | some account =>
      simp only [Push, LuaM.ite_apply, LuaM.pure_apply, LuaM.bind_apply, if_true]
      generalize server.BanAccount world account (toString duration ++ "s") reason whoBanned = r
      obtain ⟨result, world1⟩ := r
      cases result <;> rfl
  · rintro rfl
    simp only [Ban, LuaM.bind_apply, r1, r2, r3, h4, h5]
    cases server.normalizePlayerName name with
    | none => simp [luaL_argerror_apply]
    | some character =>
      simp only [Push, LuaM.ite_apply, LuaM.pure_apply, LuaM.bind_apply, if_true, if_false,
        h10]
      generalize
        server.BanCharacter world character (toString duration ++ "s") reason whoBanned = r
      obtain ⟨result, world1⟩ := r
      cases result <;> rfl
  · rintro rfl
    simp only [Ban, LuaM.bind_apply, r1, r2, r3, h4, h5]
    cases server.IsIPAddress name with
    | false => simp [luaL_argerror_apply]
    | true =>
      simp only [Push, LuaM.ite_apply, LuaM.pure_apply, LuaM.bind_apply, if_true, if_false,
        h20, h21]
      generalize server.BanIP world name (toString duration ++ "s") reason whoBanned = r
      obtain ⟨result, world1⟩ := r
      cases result <;> rfl
  · intro n0 n1 n2
    simp [Ban, r1, r2, r3, h4, h5, n0, n1, n2, luaL_argerror_apply]

/-- On the example server: an account ban of "bob" for 60 seconds succeeds, a character
ban of "nobody" reports that the target was not found, and mode 3 is refused without a
ban. -/
theorem Ban_dispatches_on_mode_witness :
    Ban sampleBanServer { issued := [] } (idleCall [.number 0, .string "bob", .number 60]) =
        .ok (1, { issued := [(0, "BOB", "60s")] })
          (idleCall [.number 0, .string "bob", .number 60, .number 0]) ∧
      Ban sampleBanServer { issued := [] }
          (idleCall [.number 1, .string "nobody", .number 60]) =
        .ok (1, { issued := [(1, "nobody", "60s")] })
          (idleCall [.number 1, .string "nobody", .number 60, .number 2]) ∧
      Ban sampleBanServer { issued := [] } (idleCall [.number 3, .string "bob", .number 60]) =
        .raised (.argerror 1 "unknown banmode")
          (idleCall [.number 3, .string "bob", .number 60]) :=
  ⟨(Ban_dispatches_on_mode sampleBanServer { issued := [] }
      (idleCall [.number 0, .string "bob", .number 60]) 0 "bob" 60 "" ""
      rfl (by decide) (by decide) rfl rfl (by decide) rfl rfl).1 rfl,
    (Ban_dispatches_on_mode sampleBanServer { issued := [] }
      (idleCall [.number 1, .string "nobody", .number 60]) 1 "nobody" 60 "" ""
      rfl (by decide) (by decide) rfl rfl (by decide) rfl rfl).2.1 rfl,
    (Ban_dispatches_on_mode sampleBanServer { issued := [] }
      (idleCall [.number 3, .string "bob", .number 60]) 3 "bob" 60 "" ""
      rfl (by decide) (by decide) rfl rfl (by decide) rfl rfl).2.2.2
      (by decide) (by decide) (by decide)⟩


/-! ## Threat -/

/-- C23 fails on the code: `AddThreat(victim, 10, 4)` on any unit of any server applies
the threat with school mask 0 and the spell of entry 4, because the spell is read from
argument 4 and the school mask from argument 5; and `AddThreat(victim, 10, 0, 200)`,
school mask 0 and spell 200 in the documented order, is rejected for its school mask
200 when `SPELL_SCHOOL_MASK_ALL` is 127. -/
theorem AddThreat_reads_spell_before_school_mask {U : Type} (unitApi : UnitCombat U)
    (SPELL_SCHOOL_MASK_ALL : Nat) (unit : U) :
    LuaUnit.AddThreat unitApi SPELL_SCHOOL_MASK_ALL unit
        (idleCall [.userdata 1, .userdata 2, .number 10, .number 4]) =
      .ok (0, unitApi.AddThreat unit 2 10 0 (unitApi.GetSpellInfo 4))
        (idleCall [.userdata 1, .userdata 2, .number 10, .number 4]) ∧
    LuaUnit.AddThreat unitApi 127 unit
        (idleCall [.userdata 1, .userdata 2, .number 10, .number 0, .number 200]) =
      .raised (.argerror 4 "valid SpellSchoolMask expected")
        (idleCall [.userdata 1, .userdata 2, .number 10, .number 0, .number 200]) := by
  refine ⟨?_, rfl⟩
  have h : ¬ (0 > SPELL_SCHOOL_MASK_ALL) := Nat.not_lt_zero _
  simp only [LuaUnit.AddThreat, LuaM.bind_apply]
  have h2 : CHECKOBJ_Unit 2 (idleCall [.userdata 1, .userdata 2, .number 10, .number 4]) =
      .ok 2 (idleCall [.userdata 1, .userdata 2, .number 10, .number 4]) := rfl
  have h3 : CHECKVAL_float_or 3 1 (idleCall [.userdata 1, .userdata 2, .number 10, .number 4])
      = .ok 10 (idleCall [.userdata 1, .userdata 2, .number 10, .number 4]) := rfl
  have h4 : CHECKVAL_uint32_or 4 0
      (idleCall [.userdata 1, .userdata 2, .number 10, .number 4]) =
      .ok 4 (idleCall [.userdata 1, .userdata 2, .number 10, .number 4]) := rfl
  have h5 : CHECKVAL_uint32_or 5 0
      (idleCall [.userdata 1, .userdata 2, .number 10, .number 4]) =
      .ok 0 (idleCall [.userdata 1, .userdata 2, .number 10, .number 4]) := rfl
  rw [h2]
  simp only [h3, h4, h5, LuaM.ite_apply, if_neg h]
  rfl

/-! ## Casts at a position -/

/-- C24 fails on the code: `CastSpellAoF(1, 2, 3, 133)`, without the `triggered`
argument, casts spell 133 as a triggered spell on any unit of any server, because the
default of the argument is `true`; `CastSpell(target, 133)` without the argument casts
it as a normal spell. -/
theorem CastSpellAoF_is_triggered_by_default {U : Type} (unitApi : UnitCombat U) (unit : U) :
    LuaUnit.CastSpellAoF unitApi unit
        (idleCall [.userdata 1, .number 1, .number 2, .number 3, .number 133]) =
      .ok (0, unitApi.CastSpellAt unit 1 2 3 133 true)
        (idleCall [.userdata 1, .number 1, .number 2, .number 3, .number 133]) ∧
    LuaUnit.CastSpell unitApi unit (idleCall [.userdata 1, .userdata 2, .number 133]) =
      .ok (0, match unitApi.GetSpellInfo 133 with
              | none => unit
              | some _ => unitApi.CastSpell unit (some 2) 133 false)
        (idleCall [.userdata 1, .userdata 2, .number 133]) := by
  refine ⟨rfl, ?_⟩
  simp only [LuaUnit.CastSpell, LuaM.bind_apply]
  have h2 : CHECKOBJ_Unit_or_null 2 (idleCall [.userdata 1, .userdata 2, .number 133]) =
      .ok (some 2) (idleCall [.userdata 1, .userdata 2, .number 133]) := rfl
  have h3 : CHECKVAL_uint32 3 (idleCall [.userdata 1, .userdata 2, .number 133]) =
      .ok 133 (idleCall [.userdata 1, .userdata 2, .number 133]) := rfl
  have h4 : CHECKVAL_bool_or 4 false (idleCall [.userdata 1, .userdata 2, .number 133]) =
      .ok false (idleCall [.userdata 1, .userdata 2, .number 133]) := rfl
  rw [h2]
  simp only [h3, h4]
  cases unitApi.GetSpellInfo 133 <;> rfl

end ModEluna
